import Mathlib

/-! Goal-Tracker: goal store, progress percentage and local fallback persistence.

A shallow embedding of the goal/progress layer of the application
(`src/contexts/GoalContext.jsx`, `src/utils/database.js`, and the percentage
formula of the components `GoalCard`, `GoalDetails`, `ProgressVisualizations`,
`ShareProgress` and `InvitePartner`), of the auth context
(`src/contexts/AuthContext.jsx`), of the suggestion generator
(`src/utils/aiSuggestions.js`) and of the micro-goal and streak components
(`MicroGoalBreakdown`, `StreakTracker`), and theorems about it.

Modelling conventions.

* A JavaScript number is an IEEE 754 binary64 value.  `JSNumber` keeps the
  finite values as rationals and has `NaN` and the two infinities.  The two
  zeros are identified: every operation modelled here gives the same numeric
  result on `+0` and `-0` (no modelled division has a computed divisor).
  Arithmetic rounds its exact result to the nearest binary64 value, ties to
  even (`roundToDouble`).
* A JavaScript value stored in a goal record is a primitive or a nested
  object/array (`JSValue`); a record is an ordered property list (`Obj`).  A
  nested value such as the `metadata` map is kept as its JSON text: no function
  embedded here reads inside one.  Object identity is not modelled, so `===`
  between two nested values is taken to be false (two parsed or freshly built
  objects are never the same reference).
* An element of the `goals` array is a goal record or `undefined`/`null`
  (`Entry`); reading a property of the latter throws a `TypeError`, which the
  model shows as `Completion.threw` or as the `catch` branch of the caller.
* React state is passed explicitly (`GoalStore`); a `setGoals` followed by a
  re-render is the new `goals` component.  `localStorage` is a map from keys to
  stored texts, a stored text being classified by what `JSON.parse` does on it.
* The ECMAScript operations `StringToNumber`, `Number::toString`, the coercions
  of a nested object and `JSON.parse` on a field value belong to the platform,
  not to this repository; they are fields of `Platform`.
-/

set_option autoImplicit false

/-! ## Numbers -/

/-- A JavaScript number: a finite binary64 value (as a rational), an infinity or NaN. -/
inductive JSNumber where
  | finite (q : ℚ)
  | posInf
  | negInf
  | nan
  deriving DecidableEq, Repr

/-- Round a rational to the nearest integer, ties to the even one. -/
def roundHalfEven (x : ℚ) : ℤ :=
  if x - ⌊x⌋ < 1 / 2 then ⌊x⌋
  else if 1 / 2 < x - ⌊x⌋ then ⌊x⌋ + 1
  else if ⌊x⌋ % 2 = 0 then ⌊x⌋ else ⌊x⌋ + 1

/-- Round an exact result to binary64 (53-bit significand, exponents from -1022,
gradual underflow, overflow to infinity), round-to-nearest, ties-to-even. -/
def roundToDouble (q : ℚ) : JSNumber :=
  if q = 0 then .finite 0
  else if (2 : ℚ) ^ (1024 : ℤ)
      ≤ |(roundHalfEven (q / 2 ^ (max (Int.log 2 |q|) (-1022) - 52)) : ℚ)
          * 2 ^ (max (Int.log 2 |q|) (-1022) - 52)| then
    (if 0 < q then .posInf else .negInf)
  else
    .finite ((roundHalfEven (q / 2 ^ (max (Int.log 2 |q|) (-1022) - 52)) : ℚ)
      * 2 ^ (max (Int.log 2 |q|) (-1022) - 52))

namespace JSNumber

/-- The number `x` is NaN. -/
def isNaN : JSNumber → Bool
  | nan => true
  | _ => false

/-- JavaScript `a / b` on numbers. -/
def div : JSNumber → JSNumber → JSNumber
  | nan, _ => nan
  | _, nan => nan
  | finite a, finite b =>
    if b = 0 then (if a = 0 then nan else if 0 < a then posInf else negInf)
    else roundToDouble (a / b)
  | finite _, _ => finite 0
  | posInf, finite b => if 0 ≤ b then posInf else negInf
  | negInf, finite b => if 0 ≤ b then negInf else posInf
  | _, _ => nan

/-- JavaScript `a * b` on numbers. -/
def mul : JSNumber → JSNumber → JSNumber
  | nan, _ => nan
  | _, nan => nan
  | finite a, finite b => roundToDouble (a * b)
  | finite a, posInf => if a = 0 then nan else if 0 < a then posInf else negInf
  | finite a, negInf => if a = 0 then nan else if 0 < a then negInf else posInf
  | posInf, finite b => if b = 0 then nan else if 0 < b then posInf else negInf
  | negInf, finite b => if b = 0 then nan else if 0 < b then negInf else posInf
  | posInf, posInf => posInf
  | negInf, negInf => posInf
  | _, _ => negInf

/-- JavaScript `a + b` on numbers. -/
def add : JSNumber → JSNumber → JSNumber
  | nan, _ => nan
  | _, nan => nan
  | finite a, finite b => roundToDouble (a + b)
  | finite _, b => b
  | a, finite _ => a
  | posInf, posInf => posInf
  | negInf, negInf => negInf
  | _, _ => nan

/-- JavaScript `a > b` on numbers. -/
def gt : JSNumber → JSNumber → Bool
  | nan, _ => false
  | _, nan => false
  | finite a, finite b => decide (b < a)
  | posInf, posInf => false
  | posInf, _ => true
  | finite _, negInf => true
  | _, _ => false

/-- JavaScript `a >= b` on numbers. -/
def ge : JSNumber → JSNumber → Bool
  | nan, _ => false
  | _, nan => false
  | finite a, finite b => decide (b ≤ a)
  | posInf, _ => true
  | _, negInf => true
  | _, _ => false

/-- JavaScript `a === b` on numbers: NaN is equal to nothing. -/
def strictEq : JSNumber → JSNumber → Bool
  | nan, _ => false
  | _, nan => false
  | a, b => decide (a = b)

/-- `Math.round`: the nearest integer, a tie going to the larger one. -/
def round : JSNumber → JSNumber
  | finite q => finite (⌊q + 1 / 2⌋ : ℤ)
  | x => x

/-- `Math.min` of two numbers. -/
def min : JSNumber → JSNumber → JSNumber
  | nan, _ => nan
  | _, nan => nan
  | a, b => if gt a b then b else a

end JSNumber

/-! ## Values, coercions and records -/

/-- A JavaScript value held by a property: a primitive, or a nested object or
array named by its JSON text. -/
inductive JSValue where
  | undefined
  | null
  | bool (b : Bool)
  | number (n : JSNumber)
  | string (s : String)
  | object (json : String)
  deriving DecidableEq, Repr

/-- The platform operations the code relies on:
`StringToNumber` (used by `ToNumber` on a string), `Number::toString` (used
by template literals, string concatenation and `parseInt` on a number),
`ToNumber` and `ToString` of a nested object, and `JSON.parse` of a text into
a property value (`none` when it throws a `SyntaxError`). -/
structure Platform where
  stringToNumber : String → JSNumber
  numberToString : JSNumber → String
  objectToNumber : String → JSNumber
  objectToString : String → String
  jsonParse : String → Option JSValue

/-- A record: its own enumerable properties in order. -/
abbrev Obj := List (String × JSValue)

namespace JSValue

/-- An integer-valued number. -/
def int (n : ℤ) : JSValue := number (.finite n)

/-- ECMAScript `ToBoolean`. -/
def truthy : JSValue → Bool
  | undefined => false
  | null => false
  | bool b => b
  | number (.finite q) => decide (q ≠ 0)
  | number .nan => false
  | number _ => true
  | string s => decide (s ≠ "")
  | object _ => true

/-- ECMAScript `ToNumber`. -/
def toNumber (P : Platform) : JSValue → JSNumber
  | undefined => .nan
  | null => .finite 0
  | bool b => if b then .finite 1 else .finite 0
  | number n => n
  | string s => P.stringToNumber s
  | object j => P.objectToNumber j

/-- ECMAScript `ToString`. -/
def toStr (P : Platform) : JSValue → String
  | undefined => "undefined"
  | null => "null"
  | bool b => if b then "true" else "false"
  | number n => P.numberToString n
  | string s => s
  | object j => P.objectToString j

/-- The test `typeof v === 'string'`. -/
def isString : JSValue → Bool
  | string _ => true
  | _ => false

/-- JavaScript `a === b`. -/
def strictEq : JSValue → JSValue → Bool
  | number a, number b => JSNumber.strictEq a b
  | object _, _ => false
  | _, object _ => false
  | a, b => decide (a = b)

/-- JavaScript `a || b`. -/
def or (a b : JSValue) : JSValue := if a.truthy then a else b

/-- The test `typeof v === 'object'` for a nested value (not `null`). -/
def isObject : JSValue → Bool
  | object _ => true
  | _ => false

/-- JavaScript `a + b`: concatenation as soon as one operand is a string or a
nested object (whose primitive is its string form), numeric addition otherwise. -/
def add (P : Platform) (a b : JSValue) : JSValue :=
  if a.isString || b.isString || a.isObject || b.isObject then
    string (a.toStr P ++ b.toStr P)
  else number (JSNumber.add (a.toNumber P) (b.toNumber P))

/-- The global `isNaN(v)`. -/
def isNaN (P : Platform) (v : JSValue) : Bool := (v.toNumber P).isNaN

end JSValue

namespace Obj

/-- Property read `o.k` (`undefined` when there is no such property). -/
def get (o : Obj) (k : String) : JSValue :=
  match o.find? (fun p => p.1 == k) with
  | some p => p.2
  | none => .undefined

/-- Property write: an existing property keeps its place, a new one goes last. -/
def set : Obj → String → JSValue → Obj
  | [], k, v => [(k, v)]
  | (k', v') :: rest, k, v => if k' = k then (k, v) :: rest else (k', v') :: set rest k v

/-- Object spread `{...a, ...b}`. -/
def merge (a b : Obj) : Obj := b.foldl (fun acc p => set acc p.1 p.2) a

end Obj

/-! ## `parseInt` -/

/-- The characters `parseInt` skips at the start (ECMAScript `StrWhiteSpaceChar`). -/
def isStrWhiteSpaceChar (c : Char) : Bool :=
  c.val = 0x09 || c.val = 0x0A || c.val = 0x0B || c.val = 0x0C || c.val = 0x0D ||
  c.val = 0x20 || c.val = 0xA0 || c.val = 0x1680 ||
  (0x2000 ≤ c.val && c.val ≤ 0x200A) ||
  c.val = 0x2028 || c.val = 0x2029 || c.val = 0x202F || c.val = 0x205F ||
  c.val = 0x3000 || c.val = 0xFEFF

/-- The value of a digit in the given radix (10 or 16), if it is one. -/
def digitValue (radix : Nat) (c : Char) : Option Nat :=
  if '0' ≤ c ∧ c ≤ '9' then some (c.toNat - '0'.toNat)
  else if radix = 16 ∧ 'a' ≤ c ∧ c ≤ 'f' then some (c.toNat - 'a'.toNat + 10)
  else if radix = 16 ∧ 'A' ≤ c ∧ c ≤ 'F' then some (c.toNat - 'A'.toNat + 10)
  else none

/-- Read the longest run of digits at the start: the digits seen so far stand for
`acc`, `seen` tells whether there was one. -/
def readDigits (radix : Nat) : List Char → Nat → Bool → Option Nat
  | [], acc, seen => if seen then some acc else none
  | c :: cs, acc, seen =>
    match digitValue radix c with
    | some d => readDigits radix cs (radix * acc + d) true
    | none => if seen then some acc else none

/-- The unsigned part of `parseInt`: an optional `0x`/`0X` selects radix 16. -/
def parseUnsigned : List Char → Option Nat
  | '0' :: 'x' :: cs => readDigits 16 cs 0 false
  | '0' :: 'X' :: cs => readDigits 16 cs 0 false
  | cs => readDigits 10 cs 0 false

/-- The function `parseInt(s)` on a string, no radix given: leading white space
is skipped, then a sign, then the digits; `NaN` when there is no digit. -/
def parseIntString (s : String) : JSNumber :=
  match s.toList.dropWhile isStrWhiteSpaceChar with
  | '-' :: cs =>
    match parseUnsigned cs with
    | some n => roundToDouble (-(n : ℚ))
    | none => .nan
  | '+' :: cs =>
    match parseUnsigned cs with
    | some n => roundToDouble n
    | none => .nan
  | cs =>
    match parseUnsigned cs with
    | some n => roundToDouble n
    | none => .nan

/-- Truncation toward zero. -/
def truncate (q : ℚ) : ℤ := if 0 ≤ q then ⌊q⌋ else ⌈q⌉

/-- The function `parseInt(v)`: `parseInt` of `ToString(v)`.  A finite number that
`Number::toString` writes in plain decimal notation (zero, or of magnitude in
`[1e-6, 1e21)`) gives its integer part; the other numbers go through the
platform's `Number::toString`. -/
def parseInt (P : Platform) : JSValue → JSNumber
  | .number (.finite q) =>
    if q = 0 ∨ ((1 : ℚ) / 10 ^ 6 ≤ |q| ∧ |q| < 10 ^ 21) then .finite (truncate q)
    else parseIntString (P.numberToString (.finite q))
  | .number _ => .nan
  | v => parseIntString (v.toStr P)

/-! ## The progress percentage of the views -/

namespace GoalCard

/-- The constant `progress` of `GoalCard`:
`goal.target_value > 0 ? Math.round((goal.total_progress / goal.target_value) * 100) : 0`. -/
def progress (P : Platform) (goal : Obj) : JSNumber :=
  if ((goal.get "target_value").toNumber P).gt (.finite 0) then
    ((((goal.get "total_progress").toNumber P).div
      ((goal.get "target_value").toNumber P)).mul (.finite 100)).round
  else .finite 0

/-- The constant `isCompleted` of `GoalCard`: `progress >= 100`. -/
def isCompleted (P : Platform) (goal : Obj) : Bool :=
  (progress P goal).ge (.finite 100)

end GoalCard

namespace GoalDetails

/-- The constant `progress` of `GoalDetails` (the same guarded formula). -/
def progress (P : Platform) (goal : Obj) : JSNumber :=
  if ((goal.get "target_value").toNumber P).gt (.finite 0) then
    ((((goal.get "total_progress").toNumber P).div
      ((goal.get "target_value").toNumber P)).mul (.finite 100)).round
  else .finite 0

/-- The constant `isCompleted` of `GoalDetails`:
`goal.status === 'completed' || progress >= 100`. -/
def isCompleted (P : Platform) (goal : Obj) : Bool :=
  (goal.get "status").strictEq (.string "completed") || (progress P goal).ge (.finite 100)

end GoalDetails

namespace ProgressVisualizations

/-- The local constant `progress` inside `getProgressData`, before the cap. -/
def progress (P : Platform) (goal : Obj) : JSNumber :=
  if ((goal.get "target_value").toNumber P).gt (.finite 0) then
    ((((goal.get "total_progress").toNumber P).div
      ((goal.get "target_value").toNumber P)).mul (.finite 100)).round
  else .finite 0

/-- The function `getProgressData` on an array of goal records: one chart row per
goal, rows named `'Untitled Goal'` removed. -/
def getProgressData (P : Platform) (goals : List Obj) : List Obj :=
  (goals.map fun goal =>
    [("name", (goal.get "title").or (.string "Untitled Goal")),
     ("progress", .number ((progress P goal).min (.finite 100))),
     ("type", (goal.get "goal_type").or (.string "daily")),
     ("target", (goal.get "target_value").or (.int 1)),
     ("current", (goal.get "total_progress").or (.int 0))]).filter
    fun row => !(Obj.get row "name").strictEq (.string "Untitled Goal")

end ProgressVisualizations

namespace ShareProgress

/-- The constant `progress` of `ShareProgress`:
`Math.round((goal.total_progress / goal.target_value) * 100)`, no guard. -/
def progress (P : Platform) (goal : Obj) : JSNumber :=
  ((((goal.get "total_progress").toNumber P).div
    ((goal.get "target_value").toNumber P)).mul (.finite 100)).round

end ShareProgress

namespace InvitePartner

/-- The percentage `InvitePartner` prints next to each goal:
`Math.round((goal.total_progress / goal.target_value) * 100)`, no guard. -/
def progress (P : Platform) (goal : Obj) : JSNumber :=
  ((((goal.get "total_progress").toNumber P).div
    ((goal.get "target_value").toNumber P)).mul (.finite 100)).round

end InvitePartner

/-! ## A platform instance for evaluating examples -/

/-- A platform for the examples: `ToNumber` reads a string of decimal digits (the
empty string is 0, anything else is NaN) and `Number::toString` writes an
integer in decimal.  Only these cases are consulted by the examples. -/
def samplePlatform : Platform where
  stringToNumber s :=
    if s = "" then .finite 0
    else match s.toNat? with
      | some n => roundToDouble n
      | none => .nan
  numberToString
    | .finite q => if q.den = 1 then toString q.num else "NaN"
    | .posInf => "Infinity"
    | .negInf => "-Infinity"
    | .nan => "NaN"
  objectToNumber _ := .nan
  objectToString _ := "[object Object]"
  jsonParse s := if s = "{}" then some (.object "{}") else none

/-! ## Local storage and JSON -/

/-- An element of the `goals` array: a goal record, or `none` for an element that
is `undefined` or `null`. -/
abbrev Entry := Option Obj

/-- What `JSON.parse` returns on a stored text. -/
inductive JsonDoc where
  | array (items : List Entry)
  | object (o : Obj)
  | scalar (v : JSValue)
  deriving DecidableEq

/-- A string held by `localStorage`, classified by `JSON.parse`: the text of a
JSON document, or a text on which `JSON.parse` throws. -/
inductive StoredText where
  | json (doc : JsonDoc)
  | malformed (text : String)
  deriving DecidableEq

/-- The browser's `localStorage`: `none` is the `null` that `getItem` returns for
an absent key. -/
abbrev Storage := String → Option StoredText

namespace StoredText

/-- Truthiness of a stored string: only the empty string is falsy, and no JSON
document has an empty text. -/
def truthy : StoredText → Bool
  | json _ => true
  | malformed t => decide (t ≠ "")

/-- The call `JSON.parse(text)`; `none` when it throws. -/
def parse : StoredText → Option JsonDoc
  | json d => some d
  | malformed _ => none

end StoredText

namespace Storage

/-- The call `localStorage.setItem(k, v)`. -/
def setItem (st : Storage) (k : String) (v : StoredText) : Storage :=
  fun k' => if k' = k then some v else st k'

/-- The call `localStorage.removeItem(k)`. -/
def removeItem (st : Storage) (k : String) : Storage :=
  fun k' => if k' = k then none else st k'

end Storage

/-- What `JSON.stringify` writes for a property value: nothing for `undefined`,
`null` for a number that is not finite, the value itself otherwise. -/
def jsonValue : JSValue → Option JSValue
  | .undefined => none
  | .number (.finite q) => some (.number (.finite q))
  | .number _ => some .null
  | v => some v

/-- The record read back from the JSON text of a record. -/
def jsonRecord (o : Obj) : Obj :=
  o.filterMap fun p => (jsonValue p.2).map fun v => (p.1, v)

/-- The call `JSON.stringify(xs)` on an array of records (an `undefined` element
is written as `null`). -/
def stringifyArray (xs : List Entry) : StoredText :=
  .json (.array (xs.map (Option.map jsonRecord)))

/-- The expression `Array.isArray(parsed) ? parsed : []`. -/
def JsonDoc.arrayOrEmpty : JsonDoc → List Entry
  | .array items => items
  | _ => []

/-- Property read `doc.k` on a parsed document; `none` when it throws (the
document is `null`). -/
def JsonDoc.getProp (d : JsonDoc) (k : String) : Option JSValue :=
  match d with
  | .object o => some (o.get k)
  | .array _ => some .undefined
  | .scalar .null => none
  | .scalar _ => some .undefined

/-! ## Clock, query results, operation results -/

/-- The clock readings of one call: `Date.now()` and the successive values of
`new Date().toISOString()`. -/
structure Clock where
  now : ℕ
  iso : ℕ → String

/-- The expression `isoString.split('T')[0]`. -/
def isoDate (iso : String) : String := (iso.splitOn "T").headD ""

/-- The value `executeQuery` resolves to: `{ success, data }` or `{ success, error }`. -/
structure QueryResult where
  success : Bool
  data : List Obj := []
  error : Option String := none
  deriving DecidableEq

/-- The record a Goal Store mutation returns. -/
structure OpResult where
  success : Bool
  goal : Option Obj := none
  error : Option String := none
  celebration : Bool := false
  deriving DecidableEq

/-- How a synchronous call ends: with a value, or with a thrown `TypeError`. -/
inductive Completion (α : Type) where
  | returned (a : α)
  | threw
  deriving DecidableEq

/-- The method `goals.map(callback)` where the callback reads a property of its
argument: `none` when an element is `undefined`/`null` (a `TypeError`). -/
def mapGoals (callback : Obj → Entry) : List Entry → Option (List Entry)
  | [] => some []
  | none :: _ => none
  | some goal :: rest => (mapGoals callback rest).map (callback goal :: ·)

/-- The method `goals.find(callback)`, same convention; the result is the found
record or `none` for `undefined`. -/
def findGoal (callback : Obj → Bool) : List Entry → Completion (Option Obj)
  | [] => .returned none
  | none :: _ => .threw
  | some goal :: rest => if callback goal then .returned (some goal) else findGoal callback rest

/-- The method `goals.filter(callback)`, same convention. -/
def filterGoals (callback : Obj → Bool) : List Entry → Completion (List Obj)
  | [] => .returned []
  | none :: _ => .threw
  | some goal :: rest =>
    match filterGoals callback rest with
    | .returned r => .returned (if callback goal then goal :: r else r)
    | .threw => .threw

/-! ## `src/utils/database.js` -/

namespace Database

/-- The function `safeJsonParse(jsonString)` with its default fallback `{}`. -/
def safeJsonParse (P : Platform) (jsonString : JSValue) : JSValue :=
  if jsonString.truthy then
    match P.jsonParse (jsonString.toStr P) with
    | some v => v
    | none => .object "{}"
  else .object "{}"

/-- The record `createGoal(userId, goalData)` resolves to in its `goal` field
(its `success` field is always `true`): the first returned row with its
metadata parsed, or else the locally built goal. `result` is what the INSERT
query resolved to. -/
def createGoal (P : Platform) (c : Clock) (result : QueryResult) (userId : JSValue)
    (goalData : Obj) : Obj :=
  match result.success, result.data with
  | true, goal :: _ => Obj.set goal "metadata" (safeJsonParse P (Obj.get goal "metadata"))
  | _, _ =>
    Obj.set (Obj.set (Obj.set (Obj.merge [("id", .int c.now), ("user_id", userId)] goalData)
      "total_progress" (.int 0)) "status" (.string "active")) "created_at" (.string (c.iso 0))

/-- The array `getUserGoals(userId)` resolves to in its `goals` field (its
`success` field is always `true`). `result` is what the SELECT query resolved to. -/
def getUserGoals (P : Platform) (result : QueryResult) : List Obj :=
  if result.success then
    result.data.map fun goal => Obj.set goal "metadata" (safeJsonParse P (Obj.get goal "metadata"))
  else []

/-- The `goal` field of what `updateGoal(goalId, updates)` resolves to, `none`
when the field is missing (its `success` field is always `true`). `result` is
what the UPDATE query resolved to. -/
def updateGoal (P : Platform) (result : QueryResult) : Option Obj :=
  match result.success, result.data with
  | true, goal :: _ => some (Obj.set goal "metadata" (safeJsonParse P (Obj.get goal "metadata")))
  | _, _ => none

/-- The local-storage fallback inside `logProgress`, entered when one of the two
queries failed: the body of its `try` block, every thrown error being caught
with the writes made so far kept. -/
def logProgressFallback (P : Platform) (c : Clock) (st : Storage)
    (goalId value notes : JSValue) : Storage :=
  match st "goalTracker_user" with
  | none => st
  | some savedUser =>
    if !savedUser.truthy then st
    else match savedUser.parse with
    | none => st
    | some userData =>
      match userData.getProp "id" with
      | none => st
      | some userId =>
        let goalsKey := "goalTracker_goals_" ++ userId.toStr P
        let progressKey := "goalTracker_progress_" ++ userId.toStr P
        let afterGoals : Option Storage :=
          match st goalsKey with
          | none => some st
          | some savedGoals =>
            if !savedGoals.truthy then some st
            else match savedGoals.parse with
            | some (.array goals) =>
              (mapGoals (fun goal =>
                if (Obj.get goal "id").strictEq (.number (parseInt P goalId)) then
                  some (Obj.set goal "total_progress"
                    (JSValue.add P ((Obj.get goal "total_progress").or (.int 0)) value))
                else some goal) goals).map fun updatedGoals =>
                  st.setItem goalsKey (stringifyArray updatedGoals)
            | _ => none
        match afterGoals with
        | none => st
        | some st1 =>
          let entry : Obj :=
            [("id", .int c.now), ("goal_id", goalId), ("value", value), ("notes", notes),
             ("logged_date", .string (isoDate (c.iso 0))), ("created_at", .string (c.iso 1))]
          let savedLogs : Option StoredText :=
            match st1 progressKey with
            | some t => if t.truthy then some t else none
            | none => none
          match savedLogs with
          | none => st1.setItem progressKey (stringifyArray [some entry])
          | some t =>
            match t.parse with
            | some (.array progressLogs) =>
              st1.setItem progressKey (stringifyArray (progressLogs ++ [some entry]))
            | _ => st1

/-- The storage after `logProgress(goalId, value, notes)` (it always resolves to
`{ success: true }`). `logResult` and `updateResult` are what the INSERT into
the progress log and the UPDATE of the goal resolved to. -/
def logProgress (P : Platform) (c : Clock) (logResult updateResult : QueryResult)
    (st : Storage) (goalId value notes : JSValue) : Storage :=
  if !goalId.truthy || !value.truthy then st
  else if !logResult.success || !updateResult.success then
    logProgressFallback P c st goalId value notes
  else st

end Database

/-! ## `src/contexts/GoalContext.jsx` -/

/-- The state the Goal Store works on: `user` and `dbInitialized` from the auth
context, the React state `goals` and `loading`, and `localStorage`.
`renderError` records that a state updater threw while React applied it. -/
structure GoalStore where
  user : Option Obj
  dbInitialized : Bool
  goals : List Entry
  storage : Storage
  loading : Bool := false
  renderError : Bool := false

namespace GoalContext

/-- The key `goalTracker_goals_${user.id}`. -/
def goalsKey (P : Platform) (user : Obj) : String :=
  "goalTracker_goals_" ++ (Obj.get user "id").toStr P

/-- The two example goals `loadGoals` seeds. -/
def sampleGoals (c : Clock) : List Obj :=
  [[("id", .int 1),
    ("title", .string "Read for 30 minutes daily"),
    ("description", .string "Build a consistent reading habit to expand knowledge"),
    ("goal_type", .string "daily"),
    ("target_value", .int 1),
    ("total_progress", .int 15),
    ("start_date", .string "2024-01-01"),
    ("status", .string "active"),
    ("created_at", .string (c.iso 0))],
   [("id", .int 2),
    ("title", .string "Exercise 3 times per week"),
    ("description", .string "Maintain physical fitness and health"),
    ("goal_type", .string "weekly"),
    ("target_value", .int 3),
    ("total_progress", .int 8),
    ("start_date", .string "2024-01-01"),
    ("status", .string "active"),
    ("created_at", .string (c.iso 1))]]

/-- The function `loadGoals()`. `result` is what the SELECT query of
`getUserGoals` resolves to (consulted in the remote path only). -/
def loadGoals (P : Platform) (c : Clock) (result : QueryResult) (s : GoalStore) : GoalStore :=
  match s.user with
  | none => s
  | some user =>
    if !s.dbInitialized then
      let seeded : GoalStore :=
        { s with
          goals := (sampleGoals c).map some
          storage := s.storage.setItem (goalsKey P user)
            (stringifyArray ((sampleGoals c).map some))
          loading := false }
      match s.storage (goalsKey P user) with
      | none => seeded
      | some savedGoals =>
        if savedGoals.truthy then
          match savedGoals.parse with
          | some parsedGoals => { s with goals := parsedGoals.arrayOrEmpty, loading := false }
          | none => { s with goals := [], loading := false }
        else seeded
    else
      { s with goals := (Database.getUserGoals P result).map some, loading := false }

/-- The function `createGoal(goalData)`. `result` is what the INSERT query
resolves to (remote path only). -/
def createGoal (P : Platform) (c : Clock) (result : QueryResult) (s : GoalStore)
    (goalData : Obj) : GoalStore × OpResult :=
  match s.user with
  | none => (s, { success := false, error := some "User not authenticated" })
  | some user =>
    if !s.dbInitialized then
      let newGoal : Obj :=
        Obj.set (Obj.set (Obj.set (Obj.merge [("id", .int c.now)] goalData)
          "total_progress" (.int 0)) "status" (.string "active")) "created_at" (.string (c.iso 0))
      let updatedGoals := some newGoal :: s.goals
      ({ s with
          goals := updatedGoals
          storage := s.storage.setItem (goalsKey P user) (stringifyArray updatedGoals) },
        { success := true, goal := some newGoal })
    else
      let goal := Database.createGoal P c result (Obj.get user "id") goalData
      ({ s with goals := some goal :: s.goals }, { success := true, goal := some goal })

/-- The function `updateGoal(goalId, updates)`. `result` is what the UPDATE query
resolves to (remote path only). -/
def updateGoal (P : Platform) (result : QueryResult) (s : GoalStore)
    (goalId : JSValue) (updates : Obj) : GoalStore × OpResult :=
  if !s.dbInitialized then
    match mapGoals (fun goal =>
        if (Obj.get goal "id").strictEq (.number (parseInt P goalId)) then
          some (Obj.merge goal updates)
        else some goal) s.goals with
    | none => (s, { success := false, error := some "Failed to update goal" })
    | some updatedGoals =>
      match s.user with
      | none =>
        ({ s with goals := updatedGoals },
          { success := false, error := some "Failed to update goal" })
      | some user =>
        ({ s with
            goals := updatedGoals
            storage := s.storage.setItem (goalsKey P user) (stringifyArray updatedGoals) },
          { success := true })
  else
    match mapGoals (fun goal =>
        if (Obj.get goal "id").strictEq (.number (parseInt P goalId)) then
          Database.updateGoal P result
        else some goal) s.goals with
    | none => ({ s with renderError := true }, { success := true })
    | some updatedGoals => ({ s with goals := updatedGoals }, { success := true })

/-- The function `logProgress(goalId, value, notes)`. `logResult` and
`updateResult` are what the two queries of the database `logProgress` resolve
to, `loadResult` what the SELECT of the following `loadGoals` resolves to
(remote path only). -/
def logProgress (P : Platform) (c : Clock) (logResult updateResult loadResult : QueryResult)
    (s : GoalStore) (goalId value notes : JSValue) : GoalStore × OpResult :=
  if !s.dbInitialized then
    match mapGoals (fun goal =>
        if (Obj.get goal "id").strictEq (.number (parseInt P goalId)) then
          some (Obj.set (Obj.set goal "total_progress"
            (JSValue.add P ((Obj.get goal "total_progress").or (.int 0)) value))
            "last_progress_date" (.string (isoDate (c.iso 0))))
        else some goal) s.goals with
    | none => (s, { success := false, error := some "Failed to log progress" })
    | some updatedGoals =>
      match s.user with
      | none =>
        ({ s with goals := updatedGoals },
          { success := false, error := some "Failed to log progress" })
      | some user =>
        ({ s with
            goals := updatedGoals
            storage := s.storage.setItem (goalsKey P user) (stringifyArray updatedGoals) },
          { success := true })
  else
    (loadGoals P c loadResult
      { s with storage :=
          Database.logProgress P c logResult updateResult s.storage goalId value notes },
      { success := true })

/-- The function `completeGoal(goalId)`; `none` is the `undefined` it returns
when `updateGoal` did not succeed. -/
def completeGoal (P : Platform) (c : Clock) (result : QueryResult) (s : GoalStore)
    (goalId : JSValue) : GoalStore × Option OpResult :=
  let r := updateGoal P result s goalId
    [("status", .string "completed"), ("completed_at", .string (c.iso 0))]
  if r.2.success then (r.1, some { success := true, celebration := true })
  else (r.1, none)

/-- The function `getGoalById(goalId)`; in the result `none` is `null`. -/
def getGoalById (P : Platform) (goals : List Entry) (goalId : JSValue) :
    Completion (Option Obj) :=
  if !goalId.truthy then .returned none
  else
    let numericId : JSValue := if goalId.isString then .number (parseInt P goalId) else goalId
    if numericId.isNaN P then .returned none
    else
      findGoal (fun goal =>
        (if (Obj.get goal "id").isString then JSValue.number (parseInt P (Obj.get goal "id"))
          else Obj.get goal "id").strictEq numericId) goals

/-- The function `getGoalsByType(type)`. -/
def getGoalsByType (goals : List Entry) (type : JSValue) : Completion (List Obj) :=
  filterGoals (fun goal =>
    (Obj.get goal "goal_type").strictEq type &&
      (Obj.get goal "status").strictEq (.string "active")) goals

end GoalContext

/-! ## Sample inputs for the examples -/

/-- A clock for the examples. -/
def sampleClock : Clock where
  now := 1704067200000
  iso _ := "2024-01-01T00:00:00.000Z"

/-- A query that failed with a non-2xx status. -/
def failedQuery : QueryResult := { success := false, error := some "HTTP 500" }

/-- An empty `localStorage`. -/
def emptyStorage : Storage := fun _ => none

/-- A logged-in user of the local fallback mode. -/
def sampleUser : Obj :=
  [("id", .int 1704067100000), ("email", .string "a@b.c"), ("name", .string "a"),
   ("onboarding_completed", .bool false)]

/-! ## Predicates used to state the persistence properties -/

/-- Every property value of the record is written by `JSON.stringify` as itself
(no `undefined`, no `NaN`, no infinity). -/
def jsonSafe (o : Obj) : Bool :=
  o.all fun p => decide (jsonValue p.2 = some p.2)

/-- The goal collection of `s` is persisted for the owner `u`: the text stored
under `goalTracker_goals_<u.id>` is the JSON text of `s.goals`; it decodes to
the JSON image of `s.goals`; a second session over the same `localStorage`
whose user has the same id recovers exactly that image with `loadGoals`; and
the image is `s.goals` itself when every record is `jsonSafe`. -/
def PersistedFor (P : Platform) (u : Obj) (s : GoalStore) : Prop :=
  s.storage (GoalContext.goalsKey P u) = some (stringifyArray s.goals) ∧
  (stringifyArray s.goals).parse = some (.array (s.goals.map (Option.map jsonRecord))) ∧
  (∀ (c : Clock) (r : QueryResult) (u' : Obj), Obj.get u' "id" = Obj.get u "id" →
    (GoalContext.loadGoals P c r
      { user := some u', dbInitialized := false, goals := [], storage := s.storage }).goals
      = s.goals.map (Option.map jsonRecord)) ∧
  ((∀ o : Obj, some o ∈ s.goals → jsonSafe o = true) →
    s.goals.map (Option.map jsonRecord) = s.goals)

/-- The number both sides of the comparison in `getGoalById` are brought to:
`typeof id === 'string' ? parseInt(id) : id`. -/
def coercedId (P : Platform) (id : JSValue) : JSValue :=
  if id.isString then .number (parseInt P id) else id

/-! ## `executeQuery` and `initializeDatabase` of `src/utils/database.js` -/

/-- What `response.json()` does on a 2xx response, seen through the one property
`executeQuery` reads: it rejects (`unparsable`, with the message of the
`SyntaxError`); it resolves to the JSON value `null`, on which reading `.data`
throws (`nullValue`, with the message of that `TypeError`); or it resolves to
another JSON value, whose `data` property is an array of row records
(`some rows`) or is missing or falsy (`none`). -/
inductive ResponseBody where
  | unparsable (message : String)
  | nullValue (message : String)
  | value (data : Option (List Obj))
  deriving DecidableEq

/-- How the `fetch` call of `executeQuery` ends: it rejects with an error
(`networkError`, with its message), or it resolves to a response with a status
code and a body. -/
inductive HttpOutcome where
  | networkError (message : String)
  | response (status : ℕ) (body : ResponseBody)
  deriving DecidableEq

/-- The property `response.ok`: the status is in the range 200 to 299. -/
def HttpOutcome.statusOk (status : ℕ) : Bool := 200 ≤ status && status ≤ 299

/-- The function `executeQuery(query, params)`, given how its `fetch` call ends. -/
def executeQuery : HttpOutcome → QueryResult
  | .networkError message => { success := false, error := some message }
  | .response status body =>
    if !HttpOutcome.statusOk status then
      { success := false, error := some ("HTTP " ++ toString status) }
    else
      match body with
      | .unparsable message => { success := false, error := some message }
      | .nullValue message => { success := false, error := some message }
      | .value (some rows) => { success := true, data := rows }
      | .value none => { success := true, data := [] }

/-- The statements `initializeDatabase` can issue: the `CREATE SCHEMA IF NOT
EXISTS` statement and the six `CREATE TABLE IF NOT EXISTS` statements, named
by their table. -/
inductive Statement where
  | createSchema
  | createTable (table : String)
  deriving DecidableEq, Repr

/-- The array `tables` of `initializeDatabase`, in its order. -/
def tables : List Statement :=
  [.createTable "users", .createTable "goals", .createTable "progress_logs",
   .createTable "accountability_partners", .createTable "micro_goals",
   .createTable "reflections"]

/-- The `for` loop of `initializeDatabase` over the remaining table statements:
the result and the statements issued, in order. -/
def createTables (run : Statement → QueryResult) : List Statement → OpResult × List Statement
  | [] => ({ success := true }, [])
  | query :: rest =>
    if !(run query).success then
      ({ success := false, error := some "Database unavailable, using localStorage" }, [query])
    else
      ((createTables run rest).1, query :: (createTables run rest).2)

/-- The function `initializeDatabase()`: its result and the statements it issued,
in order. `run` gives what `executeQuery` resolves to on each statement. -/
def initializeDatabase (run : Statement → QueryResult) : OpResult × List Statement :=
  if !(run .createSchema).success then
    ({ success := false, error := some "Schema creation failed, using localStorage" },
      [.createSchema])
  else
    ((createTables run tables).1, .createSchema :: (createTables run tables).2)

/-! ## User functions of `src/utils/database.js` -/

namespace Database

/-- What `getUserByEmail` resolves to: `{ success: true, user }` or
`{ success: false, error }`. -/
structure UserResult where
  success : Bool
  user : Option Obj := none
  error : Option String := none
  deriving DecidableEq

/-- The function `getUserByEmail(email)`. `exec` gives what `executeQuery`
resolves to on the SELECT statement for each parameter array; the array sent
is `[email]`. -/
def getUserByEmail (exec : List JSValue → QueryResult) (email : JSValue) : UserResult :=
  match (exec [email]).success, (exec [email]).data with
  | true, user :: _ => { success := true, user := some user }
  | _, _ => { success := false, error := some "User not found" }

/-- The `user` field of what `createUser(email, name, passwordHash)` resolves
to (its `success` field is always `true`): the first returned row, or else a
locally built user. `exec` gives what `executeQuery` resolves to on the INSERT
statement for each parameter array; the array sent is
`[email, name, passwordHash]`. -/
def createUser (c : Clock) (exec : List JSValue → QueryResult)
    (email name passwordHash : JSValue) : Obj :=
  match (exec [email, name, passwordHash]).success, (exec [email, name, passwordHash]).data with
  | true, user :: _ => user
  | _, _ =>
    [("id", .int c.now), ("email", email), ("name", name),
     ("onboarding_completed", .bool false), ("created_at", .string (c.iso 0))]

/-- The `microGoals` field of what `getMicroGoals(parentGoalId)` resolves to
(its `success` field is always `true`). `result` is what the SELECT query
resolved to. -/
def getMicroGoals (result : QueryResult) : List Obj :=
  if result.success then result.data else []

/-- The `microGoal` field of what `updateMicroGoal(microGoalId, updates)`
resolves to (its `success` field is always `true`). `result` is what the
UPDATE query resolved to. -/
def updateMicroGoal (result : QueryResult) (microGoalId : JSValue) (updates : Obj) : Obj :=
  match result.success, result.data with
  | true, microGoal :: _ => microGoal
  | _, _ => Obj.merge [("id", microGoalId)] updates

/-- The `microGoal` field of what `createMicroGoal(parentGoalId, microGoalData)`
resolves to (its `success` field is always `true`): the first returned row, or
else `{ id: Date.now(), parent_goal_id: parentGoalId, ...microGoalData }`.
`result` is what the INSERT query resolved to. -/
def createMicroGoal (c : Clock) (result : QueryResult) (parentGoalId : JSValue)
    (microGoalData : Obj) : Obj :=
  match result.success, result.data with
  | true, microGoal :: _ => microGoal
  | _, _ => Obj.merge [("id", .int c.now), ("parent_goal_id", parentGoalId)] microGoalData

/-- A statement `logProgress` sends to `executeQuery`, with its parameters: the
INSERT into `progress_logs` and the UPDATE of `goals` that adds the value to
`total_progress`. -/
inductive ProgressStatement where
  | insertLog (goalId value notes : JSValue)
  | updateTotal (goalId value : JSValue)
  deriving DecidableEq

/-- The function `logProgress(goalId, value, notes = '')` with everything it
does: the value it resolves to, the statements it sent in order, and the
storage it leaves. `logResult` and `updateResult` are what the two statements
resolved to. -/
def logProgressCall (P : Platform) (c : Clock) (logResult updateResult : QueryResult)
    (st : Storage) (goalId value notes : JSValue) :
    OpResult × List ProgressStatement × Storage :=
  let notes := if notes = .undefined then .string "" else notes
  if !goalId.truthy || !value.truthy then ({ success := true }, [], st)
  else
    ({ success := true },
      [.insertLog goalId value notes, .updateTotal goalId value],
      logProgress P c logResult updateResult st goalId value notes)

/-- The names `src/utils/database.js` exports, in the order of the file. -/
def exportedNames : List String :=
  ["executeQuery", "initializeDatabase", "createUser", "getUserByEmail", "updateUser",
   "createGoal", "getUserGoals", "updateGoal", "logProgress",
   "createAccountabilityPartner", "getUserPartners", "createMicroGoal", "getMicroGoals",
   "updateMicroGoal", "deleteMicroGoal", "saveReflection", "getUserReflections"]

end Database

/-! ## `src/contexts/AuthContext.jsx` -/

/-- The base64 digit of a number below 64. -/
def base64Digit (n : Nat) : Char :=
  ("ABCDEFGHIJKLMNOPQRSTUVWXYZabcdefghijklmnopqrstuvwxyz0123456789+/".toList).getD n 'A'

/-- Base64 of a list of bytes, with padding. -/
def base64Encode : List Nat → List Char
  | [] => []
  | [a] => [base64Digit (a / 4), base64Digit (a % 4 * 16), '=', '=']
  | [a, b] =>
    [base64Digit (a / 4), base64Digit (a % 4 * 16 + b / 16), base64Digit (b % 16 * 4), '=']
  | a :: b :: c :: rest =>
    base64Digit (a / 4) :: base64Digit (a % 4 * 16 + b / 16) ::
      base64Digit (b % 16 * 4 + c / 64) :: base64Digit (c % 64) :: base64Encode rest

/-- The browser function `btoa(text)`: `none` when it throws an
`InvalidCharacterError`, which it does as soon as a character is above U+00FF. -/
def btoa (text : String) : Option String :=
  if text.toList.all (fun ch => ch.toNat ≤ 255) then
    some (String.mk (base64Encode (text.toList.map Char.toNat)))
  else none

/-- The call `JSON.stringify(record)` on a record. -/
def stringifyRecord (o : Obj) : StoredText := .json (.object (jsonRecord o))

/-- The state of the auth provider: the React state `user` (`null` is
`.scalar .null`), `dbInitialized` and `loading`, and `localStorage`. -/
structure AuthStore where
  user : JsonDoc
  dbInitialized : Bool
  storage : Storage
  loading : Bool := true

/-- The record `login` and `register` return. -/
structure AuthResult where
  success : Bool
  user : Option Obj := none
  error : Option String := none
  deriving DecidableEq

namespace AuthContext

/-- The expression `email.split('@')[0]` on a string: the text before the first `@`. -/
def splitAtSign (email : String) : String :=
  String.mk (email.toList.takeWhile fun ch => ch != '@')

/-- The function `initializeAuth()`. `dbResult` is how the call
`initializeDatabase()` ended. -/
def initializeAuth (dbResult : Completion OpResult) (s : AuthStore) : AuthStore :=
  match dbResult with
  | .threw => { s with dbInitialized := false, loading := false }
  | .returned r =>
    match s.storage "goalTracker_user" with
    | none => { s with dbInitialized := r.success, loading := false }
    | some savedUser =>
      if savedUser.truthy then
        match savedUser.parse with
        | some userData => { s with dbInitialized := r.success, user := userData, loading := false }
        | none =>
          { s with
            dbInitialized := r.success
            storage := s.storage.removeItem "goalTracker_user"
            loading := false }
      else { s with dbInitialized := r.success, loading := false }

/-- The tail shared by the branches of `login` and `register` that have a user
record: `setUser(userData)`, the write of the session slot, the result. -/
def signIn (s : AuthStore) (userData : Obj) : AuthStore × AuthResult :=
  ({ s with
      user := .object userData
      storage := s.storage.setItem "goalTracker_user" (stringifyRecord userData) },
    { success := true, user := some userData })

/-- The function `login(email, password)`. `exec` gives what `executeQuery`
resolves to on the SELECT of `getUserByEmail` for each parameter array. -/
def login (c : Clock) (exec : List JSValue → QueryResult) (s : AuthStore)
    (email password : JSValue) : AuthStore × AuthResult :=
  let remote : Option Obj :=
    if s.dbInitialized then
      match Database.getUserByEmail exec email with
      | { success := true, user := some user, .. } =>
        some [("id", Obj.get user "id"), ("email", Obj.get user "email"),
          ("name", Obj.get user "name"),
          ("onboarding_completed", Obj.get user "onboarding_completed")]
      | _ => none
    else none
  match remote with
  | some userData => signIn s userData
  | none =>
    match email with
    | .string text =>
      signIn s [("id", .int c.now), ("email", email), ("name", .string (splitAtSign text)),
        ("onboarding_completed", .bool false)]
    | _ => (s, { success := false, error := some "Login failed" })

/-- The function `register(name, email, password)`. `exec` gives what
`executeQuery` resolves to on the INSERT of `createUser` for each parameter
array. -/
def register (P : Platform) (c : Clock) (exec : List JSValue → QueryResult) (s : AuthStore)
    (name email password : JSValue) : AuthStore × AuthResult :=
  if s.dbInitialized then
    match btoa (password.toStr P) with
    | none => (s, { success := false, error := some "Registration failed" })
    | some passwordHash =>
      let user := Database.createUser c exec email name (.string passwordHash)
      signIn s [("id", Obj.get user "id"), ("email", Obj.get user "email"),
        ("name", Obj.get user "name"),
        ("onboarding_completed", (Obj.get user "onboarding_completed").or (.bool false))]
  else
    signIn s [("id", .int c.now), ("email", email), ("name", name),
      ("onboarding_completed", .bool false)]

/-- The function `logout()`. -/
def logout (s : AuthStore) : AuthStore :=
  { s with user := .scalar .null, storage := s.storage.removeItem "goalTracker_user" }

end AuthContext

/-! ## `src/utils/aiSuggestions.js` -/

/-- The argument `goalHistory`, as far as it is read: its properties `completed`
and `current`, each an array or missing. -/
structure GoalHistory where
  completed : Option (List Entry) := none
  current : Option (List Entry) := none

namespace AISuggestions

/-- The array `allSuggestions` of `getFallbackContextualSuggestions`. -/
def allSuggestions : List Obj :=
  [[("title", .string "Morning Meditation"),
    ("description", .string "Start your day with 10 minutes of mindfulness and deep breathing"),
    ("goal_type", .string "daily"),
    ("reasoning", .string "Morning routines help set a positive tone for the day and reduce stress"),
    ("timeContext", .string "morning")],
   [("title", .string "Sunrise Walk"),
    ("description", .string "Take a 20-minute walk outside to energize your morning"),
    ("goal_type", .string "daily"),
    ("reasoning", .string "Morning sunlight helps regulate circadian rhythms and boosts mood"),
    ("timeContext", .string "morning")],
   [("title", .string "Healthy Breakfast Routine"),
    ("description", .string "Prepare and eat a nutritious breakfast every morning"),
    ("goal_type", .string "daily"),
    ("reasoning", .string "A good breakfast provides energy and nutrients for the day ahead"),
    ("timeContext", .string "morning")],
   [("title", .string "Midday Movement Break"),
    ("description", .string "Take a 15-minute movement break during your workday"),
    ("goal_type", .string "daily"),
    ("reasoning", .string "Regular movement breaks improve focus and reduce physical strain"),
    ("timeContext", .string "afternoon")],
   [("title", .string "Lunch Hour Learning"),
    ("description", .string "Spend 30 minutes learning something new during lunch"),
    ("goal_type", .string "daily"),
    ("reasoning", .string "Continuous learning keeps your mind sharp and opens opportunities"),
    ("timeContext", .string "afternoon")],
   [("title", .string "Evening Gratitude Journal"),
    ("description", .string "Write down 3 things you\x27re grateful for each evening"),
    ("goal_type", .string "daily"),
    ("reasoning", .string "Gratitude practice improves mental well-being and life satisfaction"),
    ("timeContext", .string "evening")],
   [("title", .string "Digital Sunset"),
    ("description", .string "Put away all screens 1 hour before bedtime"),
    ("goal_type", .string "daily"),
    ("reasoning", .string "Reducing blue light exposure improves sleep quality"),
    ("timeContext", .string "evening")],
   [("title", .string "Weekly Nature Adventure"),
    ("description", .string "Spend at least 2 hours in nature each week"),
    ("goal_type", .string "weekly"),
    ("reasoning", .string "Time in nature reduces stress and improves mental health")],
   [("title", .string "Social Connection Time"),
    ("description", .string "Have a meaningful conversation with a friend or family member"),
    ("goal_type", .string "weekly"),
    ("reasoning", .string "Strong social connections are essential for happiness and longevity")],
   [("title", .string "Creative Expression"),
    ("description", .string "Dedicate time to a creative hobby or artistic pursuit"),
    ("goal_type", .string "weekly"),
    ("reasoning", .string "Creative activities reduce stress and provide a sense of accomplishment")],
   [("title", .string "Learn a New Language"),
    ("description", .string "Achieve conversational level in a language you\x27ve always wanted to learn"),
    ("goal_type", .string "yearly"),
    ("reasoning", .string "Language learning improves cognitive function and opens cultural doors")],
   [("title", .string "Complete a Fitness Challenge"),
    ("description", .string "Train for and complete a marathon, triathlon, or fitness milestone"),
    ("goal_type", .string "yearly"),
    ("reasoning", .string "Long-term fitness goals provide motivation and improve overall health")],
   [("title", .string "Master a New Skill"),
    ("description", .string "Become proficient in a skill that interests you or advances your career"),
    ("goal_type", .string "yearly"),
    ("reasoning", .string "Skill development keeps you competitive and provides personal satisfaction")],
   [("title", .string "Spring Garden Project"),
    ("description", .string "Start and maintain a small garden or herb collection"),
    ("goal_type", .string "yearly"),
    ("reasoning", .string "Gardening connects you with nature and provides fresh, healthy food"),
    ("season", .string "spring")],
   [("title", .string "Summer Outdoor Adventures"),
    ("description", .string "Try 5 new outdoor activities this summer"),
    ("goal_type", .string "yearly"),
    ("reasoning", .string "Summer is perfect for exploring new outdoor experiences"),
    ("season", .string "summer")],
   [("title", .string "Fall Learning Project"),
    ("description", .string "Take an online course or workshop in something that interests you"),
    ("goal_type", .string "yearly"),
    ("reasoning", .string "Fall is traditionally a time for learning and personal growth"),
    ("season", .string "fall")],
   [("title", .string "Winter Wellness Focus"),
    ("description", .string "Develop a consistent self-care routine for the winter months"),
    ("goal_type", .string "yearly"),
    ("reasoning", .string "Winter wellness routines help combat seasonal mood changes"),
    ("season", .string "winter")]]

/-- Property read `userContext?.k`: `undefined` when the argument is `undefined`
or `null` (`none`). -/
def optionalGet (o : Entry) (k : String) : JSValue :=
  match o with
  | some r => Obj.get r k
  | none => .undefined

/-- The function `getFallbackContextualSuggestions(userContext)`. `sort` is what
`Array.prototype.sort` does with the comparator `() => 0.5 - Math.random()`. -/
def getFallbackContextualSuggestions (sort : List Obj → List Obj) (userContext : Entry) :
    List Obj :=
  let timeOfDay := (optionalGet userContext "timeOfDay").or (.string "morning")
  let season := (optionalGet userContext "season").or (.string "spring")
  let byTime :=
    if timeOfDay.truthy && !timeOfDay.strictEq (.string "morning") then
      allSuggestions.filter fun s =>
        !(Obj.get s "timeContext").truthy || (Obj.get s "timeContext").strictEq timeOfDay ||
          !(Obj.get s "goal_type").strictEq (.string "daily")
    else allSuggestions
  let bySeason :=
    if season.truthy then
      byTime.filter fun s =>
        !(Obj.get s "season").truthy || (Obj.get s "season").strictEq season
    else byTime
  (sort bySeason).take 3

/-- The function `getContextualSuggestions(userContext, existingGoals)`. -/
def getContextualSuggestions (sort : List Obj → List Obj) (userContext : Entry)
    (_existingGoals : List Entry) : List Obj :=
  getFallbackContextualSuggestions sort userContext

/-- The array `suggestions` of `getFallbackHistorySuggestions` as first built. -/
def baseSuggestions : List Obj :=
  [[("title", .string "Improve Sleep Schedule"),
    ("description", .string "Go to bed and wake up at consistent times every day"),
    ("goal_type", .string "daily"),
    ("reasoning", .string "Good sleep is the foundation of all other healthy habits")],
   [("title", .string "Weekly Meal Prep"),
    ("description", .string "Prepare healthy meals for the week every Sunday"),
    ("goal_type", .string "weekly"),
    ("reasoning", .string "Meal prep saves time and helps maintain healthy eating habits")],
   [("title", .string "Monthly Budget Review"),
    ("description", .string "Review and optimize your budget every month"),
    ("goal_type", .string "weekly"),
    ("reasoning", .string "Regular financial check-ins help you stay on track with money goals")],
   [("title", .string "Daily Reading Habit"),
    ("description", .string "Read for at least 20 minutes every day"),
    ("goal_type", .string "daily"),
    ("reasoning", .string "Reading expands knowledge and improves focus and vocabulary")],
   [("title", .string "Exercise Consistency"),
    ("description", .string "Work out at least 3 times per week"),
    ("goal_type", .string "weekly"),
    ("reasoning", .string "Regular exercise improves physical and mental health")],
   [("title", .string "Learn a Professional Skill"),
    ("description", .string "Develop a skill that will advance your career this year"),
    ("goal_type", .string "yearly"),
    ("reasoning", .string "Professional development opens new opportunities and increases earning potential")]]

/-- The suggestion pushed when `completedCount > 5`. -/
def mentorSuggestion : Obj :=
  [("title", .string "Mentor Someone"),
   ("description", .string "Share your knowledge by mentoring someone in your field"),
   ("goal_type", .string "yearly"),
   ("reasoning", .string "Based on your success with goals, you could help others achieve theirs")]

/-- The suggestion put first when `currentCount > 3`. -/
def mindfulnessSuggestion : Obj :=
  [("title", .string "Daily Mindfulness Check-in"),
   ("description", .string "Take 5 minutes each day to check in with yourself"),
   ("goal_type", .string "daily"),
   ("reasoning", .string "With many active goals, mindfulness can help you stay focused and balanced")]

/-- The expression `goalHistory?.completed?.length || 0` (and the same for
`current`), on the array read from the history. -/
def countOf (items : Option (List Entry)) : ℕ :=
  match items with
  | some l => l.length
  | none => 0

/-- The function `getFallbackHistorySuggestions(goalHistory, userPreferences)`. -/
def getFallbackHistorySuggestions (goalHistory : Option GoalHistory) (userPreferences : Entry) :
    List Obj :=
  let completedCount := countOf (goalHistory.bind fun h => h.completed)
  let currentCount := countOf (goalHistory.bind fun h => h.current)
  let preferredType := (optionalGet userPreferences "preferredGoalTypes").or (.string "daily")
  let pushed := if 5 < completedCount then baseSuggestions ++ [mentorSuggestion] else baseSuggestions
  let suggestions := if 3 < currentCount then mindfulnessSuggestion :: pushed else pushed
  let filtered :=
    if preferredType.truthy && !preferredType.strictEq (.string "mixed") then
      if (suggestions.filter fun s => (Obj.get s "goal_type").strictEq preferredType).length < 2 then
        suggestions.take 3
      else suggestions.filter fun s => (Obj.get s "goal_type").strictEq preferredType
    else suggestions
  filtered.take 3

/-- The function `getHistoryBasedSuggestions(goalHistory, userPreferences)`. -/
def getHistoryBasedSuggestions (goalHistory : Option GoalHistory) (userPreferences : Entry) :
    List Obj :=
  getFallbackHistorySuggestions goalHistory userPreferences

end AISuggestions

/-! ## `src/components/MicroGoalBreakdown.jsx` -/

/-- The function `parseInt(s, 10)` on a string: leading white space is skipped,
then a sign, then the decimal digits; `NaN` when there is no digit. -/
def parseIntString10 (s : String) : JSNumber :=
  match s.toList.dropWhile isStrWhiteSpaceChar with
  | '-' :: cs =>
    match readDigits 10 cs 0 false with
    | some n => roundToDouble (-(n : ℚ))
    | none => .nan
  | '+' :: cs =>
    match readDigits 10 cs 0 false with
    | some n => roundToDouble n
    | none => .nan
  | cs =>
    match readDigits 10 cs 0 false with
    | some n => roundToDouble n
    | none => .nan

/-- The state of the component `MicroGoalBreakdown`: the current user and
`dbInitialized` from the auth context, the constant `validGoalId`, the React
state `goal`, `microGoals`, `loading` and `generating`, and `localStorage`.
`renderError` records that a state updater threw while React applied it. -/
structure MicroGoalStore where
  user : Option Obj
  dbInitialized : Bool
  validGoalId : JSValue
  goal : Option Obj
  microGoals : List Entry
  storage : Storage
  loading : Bool := true
  generating : Bool := false
  renderError : Bool := false

namespace MicroGoalBreakdown

/-- The function `getValidGoalId(goalId)`. -/
def getValidGoalId (P : Platform) (goalId : JSValue) : JSValue :=
  if !goalId.truthy then .null
  else
    let numericId : JSValue :=
      match goalId with
      | .string text => .number (parseIntString10 text)
      | v => v
    if numericId.isNaN P then .null else numericId

/-- The key `goalTracker_microGoals_${validGoalId}`. -/
def microGoalsKey (P : Platform) (validGoalId : JSValue) : String :=
  "goalTracker_microGoals_" ++ validGoalId.toStr P

/-- The function `loadMicroGoals()`. `result` is what the SELECT query of
`getMicroGoals` resolves to (consulted in the remote path only). -/
def loadMicroGoals (P : Platform) (result : QueryResult) (s : MicroGoalStore) : MicroGoalStore :=
  if !s.validGoalId.truthy then { s with loading := false }
  else if !s.dbInitialized then
    match s.storage (microGoalsKey P s.validGoalId) with
    | none => { s with microGoals := [], loading := false }
    | some savedMicroGoals =>
      if savedMicroGoals.truthy then
        match savedMicroGoals.parse with
        | some parsedMicroGoals =>
          { s with microGoals := parsedMicroGoals.arrayOrEmpty, loading := false }
        | none => { s with microGoals := [], loading := false }
      else { s with microGoals := [], loading := false }
  else
    { s with microGoals := (Database.getMicroGoals result).map some, loading := false }

/-- The records `generateAIMicroGoals` builds in the local path from the
generated ones, starting at the given index:
`{ ...mg, id: Date.now() + index, completed: false, parent_goal_id: validGoalId }`. -/
def withIds (c : Clock) (validGoalId : JSValue) : ℕ → List Obj → List Obj
  | _, [] => []
  | index, mg :: rest =>
    Obj.set (Obj.set (Obj.set mg "id" (.number (JSNumber.add (.finite c.now) (.finite index))))
      "completed" (.bool false)) "parent_goal_id" validGoalId :: withIds c validGoalId (index + 1) rest

/-- The loop of the remote path of `generateAIMicroGoals`: one call of
`createMicroGoal` per generated record, from the given index on; `results i`
is what the INSERT for the record at index `i` resolves to. -/
def createAll (c : Clock) (results : ℕ → QueryResult) (validGoalId : JSValue) :
    ℕ → List Obj → List Obj
  | _, [] => []
  | index, mg :: rest =>
    Database.createMicroGoal c (results index) validGoalId mg ::
      createAll c results validGoalId (index + 1) rest

/-- The function `generateAIMicroGoals()`. `aiMicroGoals` is the array
`generateMicroGoals` resolved to, `results` what the INSERT queries of the
remote path resolve to. -/
def generateAIMicroGoals (P : Platform) (c : Clock) (aiMicroGoals : List Obj)
    (results : ℕ → QueryResult) (s : MicroGoalStore) : MicroGoalStore :=
  match s.goal with
  | none => s
  | some _ =>
    if !s.dbInitialized then
      { s with
        microGoals := (withIds c s.validGoalId 0 aiMicroGoals).map some
        storage := s.storage.setItem (microGoalsKey P s.validGoalId)
          (stringifyArray ((withIds c s.validGoalId 0 aiMicroGoals).map some))
        generating := false }
    else
      { s with
        microGoals := s.microGoals ++ (createAll c results s.validGoalId 0 aiMicroGoals).map some
        generating := false }

/-- The function `toggleMicroGoalComplete(microGoalId, completed)`. `result` is
what the UPDATE query of `updateMicroGoal` resolves to (remote path only). -/
def toggleMicroGoalComplete (P : Platform) (c : Clock) (result : QueryResult)
    (s : MicroGoalStore) (microGoalId completed : JSValue) : MicroGoalStore :=
  if !s.dbInitialized then
    match mapGoals (fun mg =>
        if (Obj.get mg "id").strictEq microGoalId then
          some (Obj.set mg "completed" (.bool (!completed.truthy)))
        else some mg) s.microGoals with
    | none => s
    | some updatedMicroGoals =>
      { s with
        microGoals := updatedMicroGoals
        storage := s.storage.setItem (microGoalsKey P s.validGoalId)
          (stringifyArray updatedMicroGoals) }
  else
    let updates : Obj :=
      [("completed", .bool (!completed.truthy)),
       ("completed_at", if !completed.truthy then .string (c.iso 0) else .null)]
    match mapGoals (fun mg =>
        if (Obj.get mg "id").strictEq microGoalId then
          some (Database.updateMicroGoal result microGoalId updates)
        else some mg) s.microGoals with
    | none => { s with renderError := true }
    | some updatedMicroGoals => { s with microGoals := updatedMicroGoals }

end MicroGoalBreakdown

/-! ## `src/components/StreakTracker.jsx` -/

/-- The React state of the component `StreakTracker`. -/
structure StreakState where
  currentStreak : ℕ := 0
  loading : Bool := true
  deriving DecidableEq

namespace StreakTracker

/-- What the call `callDatabase(query, [user.id])` gives the component: the
array `result.data` it resolves with, or `none` when the call throws or
resolves without a `data` array. The name is imported from
`src/utils/database.js`; when that module exports no such name the imported
binding is not a function and the call throws, whatever the database holds
(`rows`). -/
def callDatabase (rows : List Entry) : Option (List Entry) :=
  if "callDatabase" ∈ Database.exportedNames then some rows else none

/-- The call `progressByDate.find(p => p.date.split('T')[0] === dateString)`:
it throws when it visits a row that is `null` or whose `date` is not a string. -/
def findDay (dateString : String) : List Entry → Completion (Option Obj)
  | [] => .returned none
  | none :: _ => .threw
  | some p :: rest =>
    match Obj.get p "date" with
    | .string date =>
      if isoDate date = dateString then .returned (some p) else findDay dateString rest
    | _ => .threw

/-- The test `dayProgress && dayProgress.completed_goals > 0`. -/
def hasProgress (P : Platform) (dayProgress : Option Obj) : Bool :=
  match dayProgress with
  | some p => ((Obj.get p "completed_goals").toNumber P).gt (.finite 0)
  | none => false

/-- The `for` loop of `calculateStreak` from offset `i` with `remaining`
iterations to go: the final `streak`, or `threw`. `dateString i` is the
date text of the day `i` days before today. -/
def streakLoop (P : Platform) (progressByDate : List Entry) (dateString : ℕ → String) :
    ℕ → ℕ → ℕ → Completion ℕ
  | 0, _, streak => .returned streak
  | remaining + 1, i, streak =>
    match findDay (dateString i) progressByDate with
    | .threw => .threw
    | .returned dayProgress =>
      if hasProgress P dayProgress then
        streakLoop P progressByDate dateString remaining (i + 1) (streak + 1)
      else if i = 0 then streakLoop P progressByDate dateString remaining (i + 1) streak
      else .returned streak

/-- The function `calculateStreak()`. `data` is what the call of `callDatabase`
gives. -/
def calculateStreak (P : Platform) (user : Option Obj) (data : Option (List Entry))
    (dateString : ℕ → String) (s : StreakState) : StreakState :=
  match user with
  | none => s
  | some _ =>
    match data with
    | none => { s with loading := false }
    | some progressByDate =>
      match streakLoop P progressByDate dateString 30 0 0 with
      | .returned streak => { currentStreak := streak, loading := false }
      | .threw => { s with loading := false }

/-- Whether the day `i` days before today counts for the streak: the row found
for it passes the test (`false` when the search throws). -/
def dayHasProgress (P : Platform) (progressByDate : List Entry) (dateString : ℕ → String)
    (i : ℕ) : Bool :=
  match findDay (dateString i) progressByDate with
  | .returned dayProgress => hasProgress P dayProgress
  | .threw => false

/-- The length of the run of consecutive day offsets that count, starting at
offset `i` and looking at no more than `n` offsets. -/
def runLength (counts : ℕ → Bool) : ℕ → ℕ → ℕ
  | 0, _ => 0
  | n + 1, i => if counts i then runLength counts n (i + 1) + 1 else 0

end StreakTracker

/-! # Theorems -/

/-! ## Rounding to binary64 -/

theorem abs_roundHalfEven_sub_le (x : ℚ) : |(roundHalfEven x : ℚ) - x| ≤ 1 / 2 := by
  have h1 := Int.floor_le x
  have h2 := Int.lt_floor_add_one x
  unfold roundHalfEven
  split_ifs with ha hb hc
  · rw [abs_le]; constructor <;> linarith
  · rw [abs_le]; push_cast; constructor <;> linarith
  · rw [abs_le]; constructor <;> linarith
  · rw [abs_le]; push_cast; constructor <;> linarith

theorem roundHalfEven_intCast (n : ℤ) : roundHalfEven (n : ℚ) = n := by
  unfold roundHalfEven
  simp

theorem roundToDouble_zero : roundToDouble 0 = .finite 0 := by
  simp [roundToDouble]

theorem roundToDouble_error (q : ℚ) (hlo : (2 : ℚ) ^ (-1022 : ℤ) ≤ |q|)
    (hhi : |q| < (2 : ℚ) ^ (1023 : ℤ)) :
    ∃ r : ℚ, roundToDouble q = .finite r ∧ |r - q| ≤ |q| / 2 ^ 53 := by
  have hpos : 0 < |q| := lt_of_lt_of_le (by positivity) hlo
  have hq : q ≠ 0 := abs_pos.mp hpos
  have he : (-1022 : ℤ) ≤ Int.log 2 |q| := by
    rw [← Int.zpow_le_iff_le_log (by norm_num) hpos]
    simpa using hlo
  have hmax : max (Int.log 2 |q|) (-1022) = Int.log 2 |q| := max_eq_left he
  have hle : (2 : ℚ) ^ Int.log 2 |q| ≤ |q| := by
    simpa using Int.zpow_log_le_self (R := ℚ) (b := 2) (by norm_num) hpos
  set e := Int.log 2 |q| with hedef
  have hulp : (0 : ℚ) < 2 ^ (e - 52) := by positivity
  have hsplit : (2 : ℚ) ^ (e - 52) = 2 ^ e / 2 ^ 52 := by
    rw [zpow_sub₀ (by norm_num)]; norm_num
  have hm := abs_roundHalfEven_sub_le (q / 2 ^ (e - 52))
  have herr : |(roundHalfEven (q / 2 ^ (e - 52)) : ℚ) * 2 ^ (e - 52) - q| ≤ |q| / 2 ^ 53 := by
    have h3 : (roundHalfEven (q / 2 ^ (e - 52)) : ℚ) * 2 ^ (e - 52) - q
        = ((roundHalfEven (q / 2 ^ (e - 52)) : ℚ) - q / 2 ^ (e - 52)) * 2 ^ (e - 52) := by
      field_simp
    rw [h3, abs_mul, abs_of_pos hulp]
    calc |(roundHalfEven (q / 2 ^ (e - 52)) : ℚ) - q / 2 ^ (e - 52)| * 2 ^ (e - 52)
        ≤ 1 / 2 * 2 ^ (e - 52) := by gcongr
      _ = 2 ^ e / 2 ^ 53 := by rw [hsplit]; ring
      _ ≤ |q| / 2 ^ 53 := by gcongr
  refine ⟨(roundHalfEven (q / 2 ^ (e - 52)) : ℚ) * 2 ^ (e - 52), ?_, herr⟩
  unfold roundToDouble
  rw [if_neg hq, hmax, if_neg]
  rw [not_le]
  have h4 : |(roundHalfEven (q / 2 ^ (e - 52)) : ℚ) * 2 ^ (e - 52)| ≤ |q| + |q| / 2 ^ 53 := by
    have := abs_sub_abs_le_abs_sub ((roundHalfEven (q / 2 ^ (e - 52)) : ℚ) * 2 ^ (e - 52)) q
    linarith
  have h5 : (2 : ℚ) ^ (1024 : ℤ) = 2 * 2 ^ (1023 : ℤ) := by
    rw [show (1024 : ℤ) = 1 + 1023 by norm_num, zpow_add₀ (by norm_num)]; norm_num
  have h6 : |q| / 2 ^ 53 ≤ |q| := by
    apply div_le_self (le_of_lt hpos); norm_num
  rw [h5]; linarith

theorem floor_near_div (N D : ℤ) (hD : 0 < D) (x : ℚ)
    (hx : |x - (N : ℚ) / D| < 1 / D) :
    (N % D ≠ 0 → ⌊x⌋ = N / D) ∧ N / D - 1 ≤ ⌊x⌋ ∧ ⌊x⌋ ≤ N / D := by
  have hDq : (0 : ℚ) < D := by exact_mod_cast hD
  have hN : (N : ℚ) = D * (N / D : ℤ) + (N % D : ℤ) := by
    exact_mod_cast (Int.ediv_add_emod N D).symm
  have hr0 : (0 : ℚ) ≤ (N % D : ℤ) := by exact_mod_cast Int.emod_nonneg N hD.ne'
  have hr1 : ((N % D : ℤ) : ℚ) ≤ D - 1 := by
    have := Int.emod_lt_of_pos N hD
    have h' : N % D ≤ D - 1 := by omega
    exact_mod_cast h'
  rw [abs_lt] at hx
  obtain ⟨hx1, hx2⟩ := hx
  have e1 : (N : ℚ) / D = (N / D : ℤ) + ((N % D : ℤ) : ℚ) / D := by
    rw [hN]; field_simp; ring
  have hfrac0 : (0 : ℚ) ≤ ((N % D : ℤ) : ℚ) / D := div_nonneg hr0 hDq.le
  have hfrac1 : ((N % D : ℤ) : ℚ) / D ≤ 1 - 1 / D := by
    rw [div_le_iff₀ hDq]; field_simp; linarith
  have hD1 : (1 : ℚ) / D ≤ 1 := by
    rw [div_le_iff₀ hDq]
    have : (1 : ℤ) ≤ D := hD
    have : (1 : ℚ) ≤ D := by exact_mod_cast this
    linarith
  refine ⟨?_, ?_, ?_⟩
  · intro hne
    have hr2 : (1 : ℚ) ≤ (N % D : ℤ) := by
      have h0 := Int.emod_nonneg N hD.ne'
      have h' : 1 ≤ N % D := by omega
      exact_mod_cast h'
    have hfrac2 : (1 : ℚ) / D ≤ ((N % D : ℤ) : ℚ) / D := by gcongr
    rw [Int.floor_eq_iff]
    constructor <;> linarith
  · rw [Int.le_floor]; push_cast; linarith
  · have : ⌊x⌋ < N / D + 1 := by
      rw [Int.floor_lt]; push_cast; linarith
    omega

theorem percent_double_error (tp tv : ℤ) (htv : 0 < tv) (htv2 : tv ≤ 2 ^ 53)
    (htp : |tp| ≤ 2 ^ 44) :
    ∃ x : ℚ, ((JSNumber.finite tp).div (.finite tv)).mul (.finite 100) = .finite x ∧
      |x - 100 * (tp : ℚ) / tv| < 1 / (2 * tv) := by
  have htvq : (0 : ℚ) < tv := by exact_mod_cast htv
  have htvq2 : (tv : ℚ) ≤ 2 ^ 53 := by exact_mod_cast htv2
  have htpq : |(tp : ℚ)| ≤ 2 ^ 44 := by exact_mod_cast htp
  have hdiv : (JSNumber.finite tp).div (.finite tv) = roundToDouble ((tp : ℚ) / tv) := by
    simp [JSNumber.div, htvq.ne']
  rw [hdiv]
  by_cases h0 : tp = 0
  · subst h0
    refine ⟨0, ?_, ?_⟩
    · simp [roundToDouble_zero, JSNumber.mul]
    · simp; exact htv
  · have htp1 : (1 : ℚ) ≤ |(tp : ℚ)| := by
      have : (1 : ℤ) ≤ |tp| := Int.one_le_abs h0
      exact_mod_cast this
    have habs : |(tp : ℚ) / tv| = |(tp : ℚ)| / tv := by
      rw [abs_div, abs_of_pos htvq]
    have hlo : (2 : ℚ) ^ (-1022 : ℤ) ≤ |(tp : ℚ) / tv| := by
      rw [habs]
      calc (2 : ℚ) ^ (-1022 : ℤ) ≤ 1 / 2 ^ 53 := by
            rw [zpow_neg]; norm_num
        _ ≤ 1 / tv := by gcongr
        _ ≤ |(tp : ℚ)| / tv := by gcongr
    have hup : |(tp : ℚ) / tv| ≤ 2 ^ 44 / tv := by rw [habs]; gcongr
    have htv1 : (1 : ℚ) ≤ tv := by exact_mod_cast htv
    have hup' : |(tp : ℚ) / tv| ≤ 2 ^ 44 := by
      refine hup.trans ?_
      rw [div_le_iff₀ htvq]; nlinarith
    have hhi : |(tp : ℚ) / tv| < (2 : ℚ) ^ (1023 : ℤ) := by
      refine lt_of_le_of_lt hup' ?_
      norm_num
    obtain ⟨r1, hr1, he1⟩ := roundToDouble_error _ hlo hhi
    have hr1abs_le : |r1| ≤ |(tp : ℚ) / tv| + |(tp : ℚ) / tv| / 2 ^ 53 := by
      have := abs_sub_abs_le_abs_sub r1 ((tp : ℚ) / tv)
      linarith
    have hr1abs_ge : |(tp : ℚ) / tv| - |(tp : ℚ) / tv| / 2 ^ 53 ≤ |r1| := by
      have := abs_sub_abs_le_abs_sub ((tp : ℚ) / tv) r1
      rw [abs_sub_comm] at this
      linarith
    have ha_lo : (1 : ℚ) / 2 ^ 53 ≤ |(tp : ℚ) / tv| := by
      rw [habs]
      calc (1 : ℚ) / 2 ^ 53 ≤ 1 / tv := by gcongr
        _ ≤ |(tp : ℚ)| / tv := by gcongr
    have hlo2 : (2 : ℚ) ^ (-1022 : ℤ) ≤ |r1 * 100| := by
      rw [abs_mul]
      have : (2 : ℚ) ^ (-1022 : ℤ) ≤ 1 / 2 ^ 54 := by rw [zpow_neg]; norm_num
      have h100 : |(100 : ℚ)| = 100 := by norm_num
      rw [h100]
      have hhalf : |(tp : ℚ) / tv| / 2 ^ 53 ≤ |(tp : ℚ) / tv| / 2 := by
        apply div_le_div_of_nonneg_left (abs_nonneg _) (by norm_num) (by norm_num)
      have hnn : (0 : ℚ) ≤ |r1| := abs_nonneg _
      have h54 : (1 : ℚ) / 2 ^ 54 ≤ |r1| := by
        have : (1 : ℚ) / 2 ^ 54 = (1 / 2 ^ 53) / 2 := by norm_num
        linarith
      calc (2 : ℚ) ^ (-1022 : ℤ) ≤ 1 / 2 ^ 54 := this
        _ ≤ |r1| := h54
        _ ≤ |r1| * 100 := le_mul_of_one_le_right hnn (by norm_num)
    have hhi2 : |r1 * 100| < (2 : ℚ) ^ (1023 : ℤ) := by
      rw [abs_mul]
      have h100 : |(100 : ℚ)| = 100 := by norm_num
      rw [h100]
      have : |r1| ≤ 2 ^ 45 := by linarith
      calc |r1| * 100 ≤ 2 ^ 45 * 100 := by gcongr
        _ < (2 : ℚ) ^ (1023 : ℤ) := by norm_num
    obtain ⟨r2, hr2, he2⟩ := roundToDouble_error _ hlo2 hhi2
    refine ⟨r2, ?_, ?_⟩
    · rw [hr1]; simp [JSNumber.mul, hr2]
    · have h100 : |r1 * 100| = 100 * |r1| := by
        rw [abs_mul]; norm_num; ring
      rw [h100] at he2
      have tri : |r2 - 100 * (tp : ℚ) / tv| ≤ |r2 - r1 * 100| + 100 * |r1 - (tp : ℚ) / tv| := by
        have e : r2 - 100 * (tp : ℚ) / tv = (r2 - r1 * 100) + 100 * (r1 - (tp : ℚ) / tv) := by
          ring
        rw [e]
        refine (abs_add _ _).trans ?_
        rw [abs_mul]; norm_num
      have key : |r2 - r1 * 100| + 100 * |r1 - (tp : ℚ) / tv|
          ≤ (100 * (2 + 1 / 2 ^ 53) / 2 ^ 53) * |(tp : ℚ) / tv| := by
        have : 100 * |r1| / 2 ^ 53 ≤ 100 * (|(tp : ℚ) / tv| + |(tp : ℚ) / tv| / 2 ^ 53) / 2 ^ 53 := by
          gcongr
        nlinarith
      have fin : (100 * (2 + 1 / 2 ^ 53) / 2 ^ 53) * (2 ^ 44 / (tv : ℚ)) < 1 / (2 * tv) := by
        rw [show (100 * (2 + 1 / 2 ^ 53) / 2 ^ 53 : ℚ) * (2 ^ 44 / (tv : ℚ))
              = (100 * (2 + 1 / 2 ^ 53) / 2 ^ 53 * 2 ^ 44) / tv by ring,
          show (1 : ℚ) / (2 * tv) = (1 / 2) / tv by field_simp]
        apply div_lt_div_of_pos_right _ htvq
        norm_num
      calc |r2 - 100 * (tp : ℚ) / tv| ≤ _ := tri
        _ ≤ _ := key
        _ ≤ (100 * (2 + 1 / 2 ^ 53) / 2 ^ 53) * (2 ^ 44 / (tv : ℚ)) := by gcongr
        _ < _ := fin

theorem roundToDouble_of_scaled_int (q : ℚ) (m : ℤ) (hq : q ≠ 0)
    (hlog : -1022 ≤ Int.log 2 |q|)
    (hm : q / 2 ^ (Int.log 2 |q| - 52) = m) (hfin : |q| < 2 ^ (1024 : ℤ)) :
    roundToDouble q = .finite q := by
  have hz : (2 : ℚ) ^ (Int.log 2 |q| - 52) ≠ 0 := by positivity
  have hr : (m : ℚ) * 2 ^ (Int.log 2 |q| - 52) = q := by
    rw [← hm]; field_simp
  unfold roundToDouble
  rw [if_neg hq, max_eq_left hlog, hm, roundHalfEven_intCast, hr, if_neg (not_le.mpr hfin)]

theorem roundToDouble_intCast (n : ℤ) (h : |n| ≤ 2 ^ 53) :
    roundToDouble (n : ℚ) = .finite n := by
  by_cases h0 : n = 0
  · subst h0; simp [roundToDouble]
  have hq : (n : ℚ) ≠ 0 := by exact_mod_cast h0
  have hpos : 0 < |(n : ℚ)| := abs_pos.mpr hq
  have h1 : (1 : ℚ) ≤ |(n : ℚ)| := by
    have : (1 : ℤ) ≤ |n| := Int.one_le_abs h0
    exact_mod_cast this
  have hle53 : |(n : ℚ)| ≤ 2 ^ 53 := by exact_mod_cast h
  have he0 : 0 ≤ Int.log 2 |(n : ℚ)| :=
    (Int.zpow_le_iff_le_log (R := ℚ) (b := 2) (by norm_num) hpos).mp (by simpa using h1)
  have hle : (2 : ℚ) ^ Int.log 2 |(n : ℚ)| ≤ |(n : ℚ)| := by
    simpa using Int.zpow_log_le_self (R := ℚ) (b := 2) (by norm_num) hpos
  have he53 : Int.log 2 |(n : ℚ)| ≤ 53 := by
    have h2 : (2 : ℚ) ^ Int.log 2 |(n : ℚ)| ≤ 2 ^ (53 : ℤ) := by
      refine hle.trans ?_
      have e53 : (2 : ℚ) ^ (53 : ℤ) = 2 ^ (53 : ℕ) := by norm_num
      rw [e53]; exact hle53
    exact (zpow_le_zpow_iff_right₀ (by norm_num : (1 : ℚ) < 2)).mp h2
  have hfin : |(n : ℚ)| < 2 ^ (1024 : ℤ) := lt_of_le_of_lt hle53 (by norm_num)
  set e := Int.log 2 |(n : ℚ)| with he
  rcases Int.lt_or_le e 53 with hlt | hge
  · obtain ⟨k, hk⟩ : ∃ k : ℕ, (k : ℤ) = 52 - e := ⟨(52 - e).toNat, by omega⟩
    have hpow : (2 : ℚ) ^ (e - 52) = 1 / 2 ^ k := by
      have : e - 52 = -(k : ℤ) := by omega
      rw [this, zpow_neg, zpow_natCast]; simp
    apply roundToDouble_of_scaled_int (n : ℚ) (n * 2 ^ k) hq (by omega) _ hfin
    rw [← he, hpow]; push_cast; field_simp
  · have he' : e = 53 := le_antisymm he53 hge
    have habs : |(n : ℚ)| = 2 ^ 53 := by
      apply le_antisymm hle53
      have := hle
      rw [he'] at this
      have e53 : (2 : ℚ) ^ (53 : ℤ) = 2 ^ (53 : ℕ) := by norm_num
      rw [e53] at this; exact this
    have hpow : (2 : ℚ) ^ (e - 52) = 2 := by rw [he']; norm_num
    rcases abs_eq (by positivity : (0 : ℚ) ≤ 2 ^ 53) |>.mp habs with hp | hn
    · apply roundToDouble_of_scaled_int (n : ℚ) (2 ^ 52) hq (by omega) _ hfin
      rw [← he, hpow, hp]; norm_num
    · apply roundToDouble_of_scaled_int (n : ℚ) (-2 ^ 52) hq (by omega) _ hfin
      rw [← he, hpow, hn]; norm_num

/-! ## The progress percentage (C1, C2, C3) -/

theorem roundHalfEven_eq_of_near (x : ℚ) (m : ℤ) (h : |x - m| < 1 / 2) :
    roundHalfEven x = m := by
  rw [abs_lt] at h
  obtain ⟨h1, h2⟩ := h
  unfold roundHalfEven
  by_cases hm : (m : ℚ) ≤ x
  · have hf : ⌊x⌋ = m := by
      rw [Int.floor_eq_iff]; constructor <;> linarith
    rw [hf, if_pos (by linarith)]
  · have hf : ⌊x⌋ = m - 1 := by
      rw [Int.floor_eq_iff]; push_cast; constructor <;> linarith
    rw [hf]; push_cast
    rw [if_neg (by linarith), if_pos (by linarith)]
    ring

theorem roundToDouble_eq_of (q : ℚ) (e m : ℤ) (he : -1022 ≤ e)
    (h1 : (2 : ℚ) ^ e ≤ |q|) (h2 : |q| < (2 : ℚ) ^ (e + 1))
    (hm : |q / 2 ^ (e - 52) - m| < 1 / 2)
    (hfin : |(m : ℚ) * 2 ^ (e - 52)| < 2 ^ (1024 : ℤ)) :
    roundToDouble q = .finite ((m : ℚ) * 2 ^ (e - 52)) := by
  have hpos : 0 < |q| := lt_of_lt_of_le (by positivity) h1
  have hq : q ≠ 0 := abs_pos.mp hpos
  have hlog : Int.log 2 |q| = e := by
    apply le_antisymm
    · have := (Int.lt_zpow_iff_log_lt (R := ℚ) (b := 2) (by norm_num) (x := e + 1) hpos).mp
        (by simpa using h2)
      omega
    · exact (Int.zpow_le_iff_le_log (R := ℚ) (b := 2) (by norm_num) hpos).mp (by simpa using h1)
  unfold roundToDouble
  rw [if_neg hq, hlog, max_eq_left he, roundHalfEven_eq_of_near _ m hm, if_neg (not_le.mpr hfin)]

/-- C1 as stated is refuted: with total_progress 23 and target_value 40 the exact
value is 57.5, which rounds half up to 58, and the views compute 57. -/
theorem C1_counterexample :
    GoalCard.progress samplePlatform
        [("total_progress", .int 23), ("target_value", .int 40)] = .finite 57 ∧
      GoalDetails.progress samplePlatform
        [("total_progress", .int 23), ("target_value", .int 40)] = .finite 57 ∧
      ProgressVisualizations.progress samplePlatform
        [("total_progress", .int 23), ("target_value", .int 40)] = .finite 57 ∧
      (200 * 23 + 40) / (2 * 40) = (58 : ℤ) := by
  have h1 : roundToDouble ((23 : ℚ) / 40) = .finite (2589569785738035 / 4503599627370496) := by
    have := roundToDouble_eq_of ((23 : ℚ) / 40) (-1) 5179139571476070 (by norm_num)
      (by norm_num [abs_of_pos]) (by norm_num [abs_of_pos])
      (by rw [abs_lt]; norm_num) (by rw [abs_lt]; norm_num)
    rw [this]; norm_num
  have h2 : roundToDouble ((2589569785738035 : ℚ) / 4503599627370496 * 100)
      = .finite (8092405580431359 / 140737488355328) := by
    have := roundToDouble_eq_of ((2589569785738035 : ℚ) / 4503599627370496 * 100) 5
      8092405580431359 (by norm_num)
      (by norm_num [abs_of_pos]) (by norm_num [abs_of_pos])
      (by rw [abs_lt]; norm_num) (by rw [abs_lt]; norm_num)
    rw [this]; norm_num
  have h3 : ⌊(8092405580431359 : ℚ) / 140737488355328 + 1 / 2⌋ = 57 := by
    rw [Int.floor_eq_iff]; norm_num
  have key : (((JSNumber.finite 23).div (.finite 40)).mul (.finite 100)).round = .finite 57 := by
    have hd : (JSNumber.finite 23).div (.finite 40) = roundToDouble ((23 : ℚ) / 40) := by
      simp [JSNumber.div]
    rw [hd, h1]
    have hmul : (JSNumber.finite (2589569785738035 / 4503599627370496)).mul (.finite 100)
        = roundToDouble ((2589569785738035 : ℚ) / 4503599627370496 * 100) := by
      simp [JSNumber.mul]
    rw [hmul, h2]
    simp only [JSNumber.round, h3]
    norm_num
  have hg : (JSNumber.finite 40).gt (.finite 0) = true := by simp [JSNumber.gt]
  refine ⟨?_, ?_, ?_, by norm_num⟩ <;>
    simp [GoalCard.progress, GoalDetails.progress, ProgressVisualizations.progress, Obj.get,
      JSValue.toNumber, JSValue.int, hg, key]

theorem guarded_progress_nonpos (tp tv : ℚ) (h : tv ≤ 0) :
    (if (JSNumber.finite tv).gt (.finite 0) then
      (((JSNumber.finite tp).div (.finite tv)).mul (.finite 100)).round
    else JSNumber.finite 0) = .finite 0 := by
  simp [JSNumber.gt, not_lt.mpr h]

theorem guarded_progress_pos (tp tv : ℤ) (htv : 0 < tv) (htv2 : tv ≤ 2 ^ 53)
    (htp : |tp| ≤ 2 ^ 44) :
    ∃ p : ℤ, (if (JSNumber.finite tv).gt (.finite 0) then
        (((JSNumber.finite tp).div (.finite tv)).mul (.finite 100)).round
      else JSNumber.finite 0) = .finite p ∧
      ((200 * tp + tv) % (2 * tv) ≠ 0 → p = (200 * tp + tv) / (2 * tv)) ∧
      (200 * tp + tv) / (2 * tv) - 1 ≤ p ∧ p ≤ (200 * tp + tv) / (2 * tv) := by
  obtain ⟨x, hx, hb⟩ := percent_double_error tp tv htv htv2 htp
  have htvq : (0 : ℚ) < tv := by exact_mod_cast htv
  have hg : (JSNumber.finite tv).gt (.finite 0) = true := by simp [JSNumber.gt, htv]
  have hnear : |(x + 1 / 2) - ((200 * tp + tv : ℤ) : ℚ) / ((2 * tv : ℤ) : ℚ)|
      < 1 / ((2 * tv : ℤ) : ℚ) := by
    have e : (x + 1 / 2) - ((200 * tp + tv : ℤ) : ℚ) / ((2 * tv : ℤ) : ℚ)
        = x - 100 * (tp : ℚ) / tv := by
      push_cast; field_simp; ring
    rw [e]; push_cast; exact hb
  obtain ⟨f1, f2, f3⟩ := floor_near_div (200 * tp + tv) (2 * tv) (by omega) (x + 1 / 2) hnear
  refine ⟨⌊x + 1 / 2⌋, ?_, f1, f2, f3⟩
  rw [if_pos hg, hx]
  rfl

/-- C1 (amended): for an integer target_value <= 0 the three guarded views give 0;
for 0 < target_value <= 2^53 and |total_progress| <= 2^44 they give one and the
same integer p, which is floor((200*tp + tv) / (2*tv)) whenever 100*tp/tv is not
exactly halfway between two integers, and is that value or one less otherwise. -/
theorem C1_progress_percentage (P : Platform) (goal : Obj) (tp tv : ℤ)
    (hp : goal.get "total_progress" = .int tp) (ht : goal.get "target_value" = .int tv) :
    (tv ≤ 0 → GoalCard.progress P goal = .finite 0 ∧ GoalDetails.progress P goal = .finite 0 ∧
      ProgressVisualizations.progress P goal = .finite 0) ∧
    (0 < tv → tv ≤ 2 ^ 53 → |tp| ≤ 2 ^ 44 →
      ∃ p : ℤ, GoalCard.progress P goal = .finite p ∧ GoalDetails.progress P goal = .finite p ∧
        ProgressVisualizations.progress P goal = .finite p ∧
        ((200 * tp + tv) % (2 * tv) ≠ 0 → p = (200 * tp + tv) / (2 * tv)) ∧
        (200 * tp + tv) / (2 * tv) - 1 ≤ p ∧ p ≤ (200 * tp + tv) / (2 * tv)) := by
  constructor
  · intro h
    have hq : (tv : ℚ) ≤ 0 := by exact_mod_cast h
    have := guarded_progress_nonpos tp tv hq
    simp only [GoalCard.progress, GoalDetails.progress, ProgressVisualizations.progress, hp, ht,
      JSValue.int, JSValue.toNumber]
    exact ⟨this, this, this⟩
  · intro h1 h2 h3
    obtain ⟨p, hp', hrest⟩ := guarded_progress_pos tp tv h1 h2 h3
    refine ⟨p, ?_, ?_, ?_, hrest⟩ <;>
      simpa only [GoalCard.progress, GoalDetails.progress, ProgressVisualizations.progress, hp, ht,
        JSValue.int, JSValue.toNumber] using hp'

/-- C1 (amended), applied: one third of the target is shown as 33 by all three views. -/
theorem C1_progress_percentage_witness :
    ∃ p : ℤ, GoalCard.progress samplePlatform
        [("total_progress", .int 1), ("target_value", .int 3)] = .finite p ∧
      GoalDetails.progress samplePlatform
        [("total_progress", .int 1), ("target_value", .int 3)] = .finite p ∧
      ProgressVisualizations.progress samplePlatform
        [("total_progress", .int 1), ("target_value", .int 3)] = .finite p ∧ p = 33 := by
  obtain ⟨p, h1, h2, h3, h4, -, -⟩ :=
    (C1_progress_percentage samplePlatform
      [("total_progress", .int 1), ("target_value", .int 3)] 1 3 (by decide) (by decide)).2
      (by norm_num) (by norm_num) (by norm_num)
  exact ⟨p, h1, h2, h3, by simpa using h4 (by decide)⟩

/-- C2, the code at the failing inputs: with target_value 0 `ShareProgress` and
`InvitePartner` give Infinity for a positive total_progress and NaN for
total_progress 0, while the three guarded views give 0 for every total_progress. -/
theorem C2_unguarded_views_at_zero_target (P : Platform) :
    ShareProgress.progress P [("total_progress", .int 5), ("target_value", .int 0)] = .posInf ∧
    ShareProgress.progress P [("total_progress", .int 0), ("target_value", .int 0)] = .nan ∧
    InvitePartner.progress P [("total_progress", .int 5), ("target_value", .int 0)] = .posInf ∧
    InvitePartner.progress P [("total_progress", .int 0), ("target_value", .int 0)] = .nan ∧
    (∀ goal : Obj, goal.get "target_value" = .int 0 →
      GoalCard.progress P goal = .finite 0 ∧ GoalDetails.progress P goal = .finite 0 ∧
      ProgressVisualizations.progress P goal = .finite 0) := by
  refine ⟨?_, ?_, ?_, ?_, ?_⟩
  · simp [ShareProgress.progress, Obj.get, JSValue.int, JSValue.toNumber, JSNumber.div,
      JSNumber.mul, JSNumber.round]
  · simp [ShareProgress.progress, Obj.get, JSValue.int, JSValue.toNumber, JSNumber.div,
      JSNumber.mul, JSNumber.round]
  · simp [InvitePartner.progress, Obj.get, JSValue.int, JSValue.toNumber, JSNumber.div,
      JSNumber.mul, JSNumber.round]
  · simp [InvitePartner.progress, Obj.get, JSValue.int, JSValue.toNumber, JSNumber.div,
      JSNumber.mul, JSNumber.round]
  · intro goal h
    simp [GoalCard.progress, GoalDetails.progress, ProgressVisualizations.progress, h,
      JSValue.int, JSValue.toNumber, JSNumber.gt]

/-- C3 as stated is refuted for `GoalDetails`: a goal whose status is 'completed'
with no progress is shown completed although its percentage is 0. -/
theorem C3_counterexample :
    GoalDetails.isCompleted samplePlatform
      [("status", .string "completed"), ("total_progress", .int 0), ("target_value", .int 1)]
        = true ∧
    GoalDetails.progress samplePlatform
      [("status", .string "completed"), ("total_progress", .int 0), ("target_value", .int 1)]
        = .finite 0 ∧
    (JSNumber.finite 0).ge (.finite 100) = false := by
  have h : GoalDetails.progress samplePlatform
      [("status", .string "completed"), ("total_progress", .int 0), ("target_value", .int 1)]
        = .finite 0 := by
    simp [GoalDetails.progress, Obj.get, JSValue.int, JSValue.toNumber, JSNumber.gt,
      JSNumber.div, JSNumber.mul, JSNumber.round, roundToDouble]
    norm_num
  refine ⟨?_, h, by simp [JSNumber.ge]⟩
  simp [GoalDetails.isCompleted, Obj.get, JSValue.strictEq]

/-- C3 (amended): in `GoalCard` the flag isCompleted holds exactly when the computed
percentage is >= 100 (a finite value of at least 100, or Infinity); in
`GoalDetails` it holds exactly when the status is the string 'completed' or the
computed percentage is >= 100. -/
theorem C3_isCompleted_iff (P : Platform) (goal : Obj) :
    (GoalCard.isCompleted P goal = true ↔
      ((∃ p : ℚ, GoalCard.progress P goal = .finite p ∧ 100 ≤ p) ∨
        GoalCard.progress P goal = .posInf)) ∧
    (GoalDetails.isCompleted P goal = true ↔
      (goal.get "status" = .string "completed" ∨
        (∃ p : ℚ, GoalDetails.progress P goal = .finite p ∧ 100 ≤ p) ∨
        GoalDetails.progress P goal = .posInf)) := by
  have hge : ∀ x : JSNumber, x.ge (.finite 100) = true ↔
      ((∃ p : ℚ, x = .finite p ∧ 100 ≤ p) ∨ x = .posInf) := by
    intro x
    cases x <;> simp [JSNumber.ge]
  have hst : ∀ v : JSValue, v.strictEq (.string "completed") = true ↔ v = .string "completed" := by
    intro v
    cases v <;> simp [JSValue.strictEq]
  constructor
  · simp only [GoalCard.isCompleted, hge]
  · simp only [GoalDetails.isCompleted, Bool.or_eq_true, hge, hst]

/-! ## Records, JSON and the local fallback store (C4, C5, C6) -/

namespace Obj

theorem get_cons (k' : String) (v' : JSValue) (rest : Obj) (k : String) :
    get ((k', v') :: rest) k = if k' = k then v' else get rest k := by
  by_cases h : k' = k
  · simp [get, List.find?, h]
  · have hb : (k' == k) = false := by simpa using h
    simp [get, List.find?, hb, h]

theorem get_set_self (o : Obj) (k : String) (v : JSValue) : get (set o k v) k = v := by
  induction o with
  | nil => simp [set, get_cons]
  | cons p rest ih =>
    obtain ⟨k', v'⟩ := p
    by_cases h : k' = k <;> simp [set, get_cons, h, ih]

theorem get_set_of_ne (o : Obj) (k k' : String) (v : JSValue) (h : k' ≠ k) :
    get (set o k v) k' = get o k' := by
  induction o with
  | nil => simp [set, get_cons, Ne.symm h, get]
  | cons p rest ih =>
    obtain ⟨k1, v1⟩ := p
    by_cases h1 : k1 = k
    · subst h1
      simp [set, get_cons, Ne.symm h]
    · by_cases h2 : k1 = k'
      · subst h2
        simp [set, get_cons, h1]
      · simp [set, get_cons, h1, h2, ih]

theorem get_merge_of_not_mem (a b : Obj) (k : String) (h : ∀ p ∈ b, p.1 ≠ k) :
    get (merge a b) k = get a k := by
  unfold merge
  induction b generalizing a with
  | nil => rfl
  | cons p rest ih =>
    rw [List.foldl_cons, ih _ (fun q hq => h q (List.mem_cons_of_mem _ hq))]
    exact get_set_of_ne a p.1 k p.2 (Ne.symm (h p (List.mem_cons_self _ _)))

end Obj

theorem get_jsonRecord (o : Obj) (k : String) (v v' : JSValue) (h : Obj.get o k = v)
    (hv : jsonValue v = some v') : Obj.get (jsonRecord o) k = v' := by
  induction o with
  | nil =>
    simp [Obj.get] at h
    subst h
    simp [jsonValue] at hv
  | cons p rest ih =>
    obtain ⟨k1, v1⟩ := p
    rw [Obj.get_cons] at h
    by_cases h1 : k1 = k
    · rw [if_pos h1] at h
      subst h; subst h1
      simp [jsonRecord, List.filterMap_cons, hv, Obj.get_cons]
    · rw [if_neg h1] at h
      have ih' := ih h
      unfold jsonRecord at ih' ⊢
      rw [List.filterMap_cons]
      cases hj : jsonValue v1 with
      | none => simpa [hj] using ih'
      | some w => simpa [hj, Obj.get_cons, h1] using ih'

theorem mapGoals_map_some (callback : Obj → Entry) (gs : List Obj) :
    mapGoals callback (gs.map some) = some (gs.map callback) := by
  induction gs with
  | nil => rfl
  | cons g rest ih => simp [mapGoals, ih]

theorem jsonValue_int (n : ℤ) : jsonValue (.int n) = some (.int n) := rfl

theorem strictEq_int_self (n : ℤ) :
    (JSValue.int n).strictEq (.number (.finite n)) = true := by
  simp [JSValue.strictEq, JSValue.int, JSNumber.strictEq]

theorem add_int_int (P : Platform) (p v : ℤ) (h : |p + v| ≤ 2 ^ 53) :
    JSValue.add P ((JSValue.int p).or (.int 0)) (.int v) = .int (p + v) := by
  have hor : (JSValue.int p).or (.int 0) = .int p := by
    by_cases hp : p = 0
    · subst hp; simp [JSValue.or, JSValue.int, JSValue.truthy]
    · have : (p : ℚ) ≠ 0 := by exact_mod_cast hp
      simp [JSValue.or, JSValue.int, JSValue.truthy, this]
  rw [hor]
  have hr := roundToDouble_intCast (p + v) h
  push_cast at hr
  simp [JSValue.add, JSValue.int, JSValue.isString, JSValue.isObject, JSValue.toNumber,
    JSNumber.add, hr]

theorem loadGoals_local_stored (P : Platform) (c : Clock) (r : QueryResult) (s : GoalStore)
    (u : Obj) (xs : List Entry) (hu : s.user = some u) (hdb : s.dbInitialized = false)
    (hst : s.storage (GoalContext.goalsKey P u) = some (stringifyArray xs)) :
    GoalContext.loadGoals P c r s =
      { s with goals := xs.map (Option.map jsonRecord), loading := false } := by
  simp [GoalContext.loadGoals, hu, hdb, hst, stringifyArray, StoredText.truthy,
    StoredText.parse, JsonDoc.arrayOrEmpty]

theorem logProgress_local (P : Platform) (c : Clock) (r1 r2 r3 : QueryResult) (s : GoalStore)
    (u : Obj) (gs : List Obj) (goalId value notes : JSValue)
    (hu : s.user = some u) (hdb : s.dbInitialized = false) (hgoals : s.goals = gs.map some) :
    GoalContext.logProgress P c r1 r2 r3 s goalId value notes =
      ({ s with
          goals := gs.map fun goal =>
            if (Obj.get goal "id").strictEq (.number (parseInt P goalId)) then
              some (Obj.set (Obj.set goal "total_progress"
                (JSValue.add P ((Obj.get goal "total_progress").or (.int 0)) value))
                "last_progress_date" (.string (isoDate (c.iso 0))))
            else some goal
          storage := s.storage.setItem (GoalContext.goalsKey P u)
            (stringifyArray (gs.map fun goal =>
              if (Obj.get goal "id").strictEq (.number (parseInt P goalId)) then
                some (Obj.set (Obj.set goal "total_progress"
                  (JSValue.add P ((Obj.get goal "total_progress").or (.int 0)) value))
                  "last_progress_date" (.string (isoDate (c.iso 0))))
              else some goal)) },
        { success := true }) := by
  simp [GoalContext.logProgress, hu, hdb, hgoals, mapGoals_map_some]

theorem setItem_same (st : Storage) (k : String) (v : StoredText) :
    st.setItem k v k = some v := by
  simp [Storage.setItem]

/-- C4 (amended): in local-fallback mode with a logged-in user and a collection of
goal records, if the goal at position i has the integer id n and the integer
total_progress p, goalId is n or a string that parseInt reads as n, and p + v
stays within plus or minus 2^53, then logProgress(goalId, v) succeeds and after
a reload the goal at position i is the old record with total_progress p + v and
today's last_progress_date (as read back from JSON), the collection has the
same length, and any further sequence of reloads leaves the whole state
unchanged. -/
theorem C4_logProgress_then_reload (P : Platform) (c c' : Clock) (r1 r2 r3 r' : QueryResult)
    (s : GoalStore) (u : Obj) (gs : List Obj) (goalId notes : JSValue) (n p v : ℤ) (i : ℕ)
    (g : Obj) (hu : s.user = some u) (hdb : s.dbInitialized = false)
    (hgoals : s.goals = gs.map some) (hi : gs[i]? = some g)
    (hid : Obj.get g "id" = .int n) (hgid : parseInt P goalId = .finite n)
    (hp : Obj.get g "total_progress" = .int p) (hsafe : |p + v| ≤ 2 ^ 53) :
    (GoalContext.logProgress P c r1 r2 r3 s goalId (.int v) notes).2 = { success := true } ∧
    (GoalContext.loadGoals P c' r'
      (GoalContext.logProgress P c r1 r2 r3 s goalId (.int v) notes).1).goals[i]?
        = some (some (jsonRecord (Obj.set (Obj.set g "total_progress" (.int (p + v)))
            "last_progress_date" (.string (isoDate (c.iso 0)))))) ∧
    Obj.get (jsonRecord (Obj.set (Obj.set g "total_progress" (.int (p + v)))
      "last_progress_date" (.string (isoDate (c.iso 0))))) "total_progress" = .int (p + v) ∧
    (GoalContext.loadGoals P c' r'
      (GoalContext.logProgress P c r1 r2 r3 s goalId (.int v) notes).1).goals.length
        = gs.length ∧
    ∀ reloads : List (Clock × QueryResult),
      reloads.foldl (fun st cr => GoalContext.loadGoals P cr.1 cr.2 st)
        (GoalContext.loadGoals P c' r'
          (GoalContext.logProgress P c r1 r2 r3 s goalId (.int v) notes).1)
        = GoalContext.loadGoals P c' r'
          (GoalContext.logProgress P c r1 r2 r3 s goalId (.int v) notes).1 := by
  rw [logProgress_local P c r1 r2 r3 s u gs goalId (.int v) notes hu hdb hgoals]
  set cb : Obj → Entry := fun goal =>
    if (Obj.get goal "id").strictEq (.number (parseInt P goalId)) then
      some (Obj.set (Obj.set goal "total_progress"
        (JSValue.add P ((Obj.get goal "total_progress").or (.int 0)) (.int v)))
        "last_progress_date" (.string (isoDate (c.iso 0))))
    else some goal with hcb
  set s1 : GoalStore :=
    { s with
      goals := gs.map cb
      storage := s.storage.setItem (GoalContext.goalsKey P u) (stringifyArray (gs.map cb)) }
    with hs1
  have hload : ∀ (c'' : Clock) (r'' : QueryResult) (t : GoalStore), t.user = some u →
      t.dbInitialized = false →
      t.storage (GoalContext.goalsKey P u) = some (stringifyArray (gs.map cb)) →
      GoalContext.loadGoals P c'' r'' t =
        { t with goals := (gs.map cb).map (Option.map jsonRecord), loading := false } :=
    fun c'' r'' t h1 h2 h3 => loadGoals_local_stored P c'' r'' t u _ h1 h2 h3
  have h2 := hload c' r' s1 hu hdb (setItem_same _ _ _)
  simp only [] at h2 ⊢
  rw [h2]
  refine ⟨trivial, ?_, ?_, by simp, ?_⟩
  · have hcbg : cb g = some (Obj.set (Obj.set g "total_progress" (.int (p + v)))
        "last_progress_date" (.string (isoDate (c.iso 0)))) := by
      simp only [hcb, hid, hgid, strictEq_int_self, if_true, hp, add_int_int P p v hsafe]
    simp [List.getElem?_map, hi, hcbg]
  · apply get_jsonRecord _ _ (.int (p + v)) _ _ (jsonValue_int _)
    rw [Obj.get_set_of_ne _ _ _ _ (by decide), Obj.get_set_self]
  · intro reloads
    induction reloads with
    | nil => rfl
    | cons cr rest ih =>
      rw [List.foldl_cons]
      have h3 := hload cr.1 cr.2
        { s1 with goals := (gs.map cb).map (Option.map jsonRecord), loading := false }
        hu hdb (setItem_same _ _ _)
      simp only [] at h3
      rw [h3]
      exact ih

theorem parseInt_int (P : Platform) (n : ℤ) (h : |n| < 10 ^ 21) :
    parseInt P (.int n) = .finite n := by
  have hq : |(n : ℚ)| < 10 ^ 21 := by exact_mod_cast h
  have htr : truncate (n : ℚ) = n := by
    unfold truncate
    split_ifs <;> simp
  by_cases h0 : n = 0
  · subst h0; simp [parseInt, JSValue.int, truncate]
  · have h1 : (1 : ℚ) ≤ |(n : ℚ)| := by
      have : (1 : ℤ) ≤ |n| := Int.one_le_abs h0
      exact_mod_cast this
    have h6 : (1 : ℚ) / 10 ^ 6 ≤ |(n : ℚ)| := le_trans (by norm_num) h1
    simp only [parseInt, JSValue.int]
    rw [if_pos (Or.inr ⟨h6, hq⟩), htr]

theorem progress_full_target (P : Platform) (goal : Obj)
    (h1 : Obj.get goal "total_progress" = .int 1) (h2 : Obj.get goal "target_value" = .int 1) :
    GoalCard.progress P goal = .finite 100 ∧ GoalCard.isCompleted P goal = true := by
  have e1 : roundToDouble 1 = .finite 1 := by
    simpa using roundToDouble_intCast 1 (by norm_num)
  have e2 : roundToDouble 100 = .finite 100 := by
    simpa using roundToDouble_intCast 100 (by norm_num)
  have e3 : ⌊(100 : ℚ) + 1 / 2⌋ = 100 := by
    rw [Int.floor_eq_iff]; norm_num
  have hp : GoalCard.progress P goal = .finite 100 := by
    simp [GoalCard.progress, h1, h2, JSValue.int, JSValue.toNumber, JSNumber.gt, JSNumber.div,
      JSNumber.mul, JSNumber.round, e1, e2]
    norm_num
  refine ⟨hp, ?_⟩
  simp [GoalCard.isCompleted, hp, JSNumber.ge]

/-- The goal data of the example scenario. -/
theorem C4_scenario_goal :
    (GoalContext.createGoal samplePlatform sampleClock failedQuery
      { user := some sampleUser, dbInitialized := false, goals := [], storage := emptyStorage }
      [("title", .string "Read 30 min"), ("goal_type", .string "daily"),
       ("target_value", .int 1), ("start_date", .string "2024-01-01")]).1.goals
    = [[("id", .int 1704067200000), ("title", .string "Read 30 min"),
        ("goal_type", .string "daily"), ("target_value", .int 1),
        ("start_date", .string "2024-01-01"), ("total_progress", .int 0),
        ("status", .string "active"),
        ("created_at", .string "2024-01-01T00:00:00.000Z")]].map some := by
  rfl

/-- C4 (amended), applied to the example scenario: create the goal
`{title: "Read 30 min", goal_type: "daily", target_value: 1, start_date:
"2024-01-01"}`, log 1 on the returned id, reload: total_progress is 1, the
percentage is 100 and the goal is completed. -/
theorem C4_logProgress_then_reload_witness :
    ∃ g' : Obj,
      (GoalContext.loadGoals samplePlatform sampleClock failedQuery
        (GoalContext.logProgress samplePlatform sampleClock failedQuery failedQuery failedQuery
          (GoalContext.createGoal samplePlatform sampleClock failedQuery
            { user := some sampleUser, dbInitialized := false, goals := [],
              storage := emptyStorage }
            [("title", .string "Read 30 min"), ("goal_type", .string "daily"),
             ("target_value", .int 1), ("start_date", .string "2024-01-01")]).1
          (.int 1704067200000) (.int 1) (.string "")).1).goals[0]? = some (some g') ∧
      Obj.get g' "total_progress" = .int 1 ∧
      GoalCard.progress samplePlatform g' = .finite 100 ∧
      GoalCard.isCompleted samplePlatform g' = true := by
  obtain ⟨-, h2, h3, -, -⟩ :=
    C4_logProgress_then_reload samplePlatform sampleClock sampleClock failedQuery failedQuery
      failedQuery failedQuery
      (GoalContext.createGoal samplePlatform sampleClock failedQuery
        { user := some sampleUser, dbInitialized := false, goals := [],
          storage := emptyStorage }
        [("title", .string "Read 30 min"), ("goal_type", .string "daily"),
         ("target_value", .int 1), ("start_date", .string "2024-01-01")]).1
      sampleUser
      [[("id", .int 1704067200000), ("title", .string "Read 30 min"),
        ("goal_type", .string "daily"), ("target_value", .int 1),
        ("start_date", .string "2024-01-01"), ("total_progress", .int 0),
        ("status", .string "active"),
        ("created_at", .string "2024-01-01T00:00:00.000Z")]]
      (.int 1704067200000) (.string "") 1704067200000 0 1 0 _
      rfl rfl C4_scenario_goal rfl rfl (parseInt_int _ _ (by norm_num)) rfl (by norm_num)
  have h3' := h3
  rw [show ((0 : ℤ) + 1) = 1 by norm_num] at h3'
  refine ⟨_, h2, h3', ?_⟩
  apply progress_full_target _ _ h3'
  apply get_jsonRecord _ _ (.int 1) _ _ (jsonValue_int _)
  rfl

/-- C4 as stated is refuted: a goal whose stored id is the string "7" is not
touched by logProgress("7", 1); after the reload its total_progress is still 0. -/
theorem C4_counterexample :
    (GoalContext.loadGoals samplePlatform sampleClock failedQuery
      (GoalContext.logProgress samplePlatform sampleClock failedQuery failedQuery failedQuery
        { user := some sampleUser, dbInitialized := false,
          goals := [some [("id", .string "7"), ("total_progress", .int 0)]],
          storage := emptyStorage }
        (.string "7") (.int 1) (.string "")).1).goals
      = [some [("id", .string "7"), ("total_progress", .int 0)]] := by
  rfl

theorem Obj.get_set (o : Obj) (k k' : String) (v : JSValue) :
    Obj.get (Obj.set o k v) k' = if k = k' then v else Obj.get o k' := by
  by_cases h : k = k'
  · subst h; simp [Obj.get_set_self]
  · simp [h, Obj.get_set_of_ne o k k' v (Ne.symm h)]

theorem Obj.get_merge_congr (a a' b : Obj) (k : String) (h : Obj.get a k = Obj.get a' k) :
    Obj.get (Obj.merge a b) k = Obj.get (Obj.merge a' b) k := by
  unfold Obj.merge
  induction b generalizing a a' with
  | nil => exact h
  | cons p rest ih =>
    rw [List.foldl_cons, List.foldl_cons]
    apply ih
    rw [Obj.get_set, Obj.get_set, h]

theorem getGoalById_head (P : Platform) (goal : Obj) (rest : List Entry)
    (hval : (∃ x : JSNumber, Obj.get goal "id" = .number x ∧ x ≠ .nan ∧ x ≠ .finite 0) ∨
      (∃ t : String, Obj.get goal "id" = .string t ∧ parseIntString t ≠ .nan)) :
    GoalContext.getGoalById P (some goal :: rest) (Obj.get goal "id")
      = .returned (some goal) := by
  rcases hval with ⟨x, hx, hnan, hzero⟩ | ⟨t, ht, hnan⟩
  · have htr : (JSValue.number x).truthy = true := by
      cases x with
      | finite q =>
        have : q ≠ 0 := fun h => hzero (by rw [h])
        simp [JSValue.truthy, this]
      | posInf => rfl
      | negInf => rfl
      | nan => exact absurd rfl hnan
    have hnn : x.isNaN = false := by cases x <;> simp_all [JSNumber.isNaN]
    have heq : JSNumber.strictEq x x = true := by
      cases x <;> simp_all [JSNumber.strictEq]
    simp [GoalContext.getGoalById, hx, htr, JSValue.isString, JSValue.isNaN,
      JSValue.toNumber, hnn, findGoal, JSValue.strictEq, heq]
  · have hne : t ≠ "" := by
      rintro rfl
      exact hnan (by rfl)
    have hpi : parseInt P (.string t) = parseIntString t := rfl
    have hnn : (parseIntString t).isNaN = false := by
      cases h : parseIntString t <;> simp_all [JSNumber.isNaN]
    have heq : JSNumber.strictEq (parseIntString t) (parseIntString t) = true := by
      cases h : parseIntString t <;> simp_all [JSNumber.strictEq]
    simp [GoalContext.getGoalById, ht, JSValue.truthy, JSValue.isString, JSValue.isNaN,
      JSValue.toNumber, hpi, hnn, hne, findGoal, JSValue.strictEq, heq]

/-- C5 as stated is refuted: goalData carrying `id: 0` gives a goal whose id is 0,
and getGoalById(0) returns null. -/
theorem C5_counterexample :
    (GoalContext.createGoal samplePlatform sampleClock failedQuery
      { user := some sampleUser, dbInitialized := false, goals := [], storage := emptyStorage }
      [("id", .int 0), ("title", .string "Walk")]).2.goal
      = some [("id", .int 0), ("title", .string "Walk"), ("total_progress", .int 0),
          ("status", .string "active"), ("created_at", .string "2024-01-01T00:00:00.000Z")] ∧
    GoalContext.getGoalById samplePlatform
      (GoalContext.createGoal samplePlatform sampleClock failedQuery
        { user := some sampleUser, dbInitialized := false, goals := [], storage := emptyStorage }
        [("id", .int 0), ("title", .string "Walk")]).1.goals (.int 0) = .returned none := by
  refine ⟨rfl, ?_⟩
  simp [GoalContext.getGoalById, JSValue.truthy, JSValue.int]

/-- C5 (amended): with a logged-in user, in local-fallback mode or when the remote
INSERT fails or returns no row, for every goal collection and every goalData
(also one carrying total_progress or status) whose resulting id is not
rejected by getGoalById, that is, goalData carries no id (the id is then
Date.now() > 0) or the resulting id is a number other than 0 and NaN or a
string that parseInt reads as a number: createGoal succeeds and
getGoalById(returned goal's id) returns the returned goal, whose status is
'active' and whose total_progress is 0. -/
theorem C5_createGoal_then_getGoalById (P : Platform) (c : Clock) (res : QueryResult)
    (s : GoalStore) (u : Obj) (goalData : Obj) (hu : s.user = some u)
    (hmode : s.dbInitialized = false ∨ res.success = false ∨ res.data = [])
    (hid : ((∀ p ∈ goalData, p.1 ≠ "id") ∧ 0 < c.now) ∨
      (∃ x : JSNumber, Obj.get (Obj.merge [("id", .int c.now)] goalData) "id" = .number x ∧
        x ≠ .nan ∧ x ≠ .finite 0) ∨
      (∃ t : String, Obj.get (Obj.merge [("id", .int c.now)] goalData) "id" = .string t ∧
        parseIntString t ≠ .nan)) :
    ∃ goal : Obj,
      (GoalContext.createGoal P c res s goalData).2 = { success := true, goal := some goal } ∧
      GoalContext.getGoalById P (GoalContext.createGoal P c res s goalData).1.goals
        (Obj.get goal "id") = .returned (some goal) ∧
      Obj.get goal "status" = .string "active" ∧
      Obj.get goal "total_progress" = .int 0 := by
  have hid' : (∃ x : JSNumber, Obj.get (Obj.merge [("id", .int c.now)] goalData) "id"
        = .number x ∧ x ≠ .nan ∧ x ≠ .finite 0) ∨
      (∃ t : String, Obj.get (Obj.merge [("id", .int c.now)] goalData) "id" = .string t ∧
        parseIntString t ≠ .nan) := by
    rcases hid with ⟨hno, hnow⟩ | h | h
    · left
      refine ⟨.finite (c.now : ℤ), ?_, by simp, ?_⟩
      · rw [Obj.get_merge_of_not_mem _ _ _ hno]; rfl
      · intro h
        have h' : ((c.now : ℤ) : ℚ) = 0 := by simpa using h
        have : (c.now : ℤ) = 0 := by exact_mod_cast h'
        omega
    · exact Or.inl h
    · exact Or.inr h
  have hfields : ∀ base : Obj, Obj.get base "id" = .int c.now →
      let goal := Obj.set (Obj.set (Obj.set (Obj.merge base goalData) "total_progress" (.int 0))
        "status" (.string "active")) "created_at" (.string (c.iso 0))
      (∀ rest : List Entry, GoalContext.getGoalById P (some goal :: rest) (Obj.get goal "id")
        = .returned (some goal)) ∧
      Obj.get goal "status" = .string "active" ∧ Obj.get goal "total_progress" = .int 0 := by
    intro base hbase goal
    have hgid : Obj.get goal "id" = Obj.get (Obj.merge [("id", .int c.now)] goalData) "id" := by
      simp only [goal]
      rw [Obj.get_set_of_ne _ _ _ _ (by decide), Obj.get_set_of_ne _ _ _ _ (by decide),
        Obj.get_set_of_ne _ _ _ _ (by decide)]
      exact Obj.get_merge_congr _ _ _ _ (by rw [hbase]; rfl)
    refine ⟨fun rest => getGoalById_head P goal rest (by rw [hgid]; exact hid'), ?_, ?_⟩
    · simp only [goal]
      rw [Obj.get_set_of_ne _ _ _ _ (by decide), Obj.get_set_self]
    · simp only [goal]
      rw [Obj.get_set_of_ne _ _ _ _ (by decide), Obj.get_set_of_ne _ _ _ _ (by decide),
        Obj.get_set_self]
  by_cases hdb : s.dbInitialized = false
  · obtain ⟨h1, h2, h3⟩ := hfields [("id", .int c.now)] rfl
    refine ⟨_, ?_, ?_, h2, h3⟩
    · simp [GoalContext.createGoal, hu, hdb]
    · simp only [GoalContext.createGoal, hu, hdb]
      exact h1 _
  · have hdb' : s.dbInitialized = true := by simpa using hdb
    have hres : Database.createGoal P c res (Obj.get u "id") goalData =
        Obj.set (Obj.set (Obj.set
          (Obj.merge [("id", .int c.now), ("user_id", Obj.get u "id")] goalData)
          "total_progress" (.int 0)) "status" (.string "active"))
          "created_at" (.string (c.iso 0)) := by
      rcases hmode with h | h | h
      · exact absurd h hdb
      · simp [Database.createGoal, h]
      · unfold Database.createGoal
        rw [h]
        cases res.success <;> rfl
    obtain ⟨h1, h2, h3⟩ := hfields [("id", .int c.now), ("user_id", Obj.get u "id")] rfl
    refine ⟨_, ?_, ?_, h2, h3⟩
    · simp [GoalContext.createGoal, hu, hdb', hres]
    · simp only [GoalContext.createGoal, hu, hdb', hres]
      exact h1 _

/-- C5 (amended), applied: a goal created from goalData that carries its own
status and total_progress is found again by its returned id, active with progress 0. -/
theorem C5_createGoal_then_getGoalById_witness :
    ∃ goal : Obj,
      (GoalContext.createGoal samplePlatform sampleClock failedQuery
        { user := some sampleUser, dbInitialized := false, goals := [],
          storage := emptyStorage }
        [("title", .string "Walk"), ("status", .string "archived"),
         ("total_progress", .int 9)]).2 = { success := true, goal := some goal } ∧
      GoalContext.getGoalById samplePlatform
        (GoalContext.createGoal samplePlatform sampleClock failedQuery
          { user := some sampleUser, dbInitialized := false, goals := [],
            storage := emptyStorage }
          [("title", .string "Walk"), ("status", .string "archived"),
           ("total_progress", .int 9)]).1.goals
        (Obj.get goal "id") = .returned (some goal) ∧
      Obj.get goal "status" = .string "active" ∧
      Obj.get goal "total_progress" = .int 0 :=
  C5_createGoal_then_getGoalById samplePlatform sampleClock failedQuery
    { user := some sampleUser, dbInitialized := false, goals := [], storage := emptyStorage }
    sampleUser
    [("title", .string "Walk"), ("status", .string "archived"), ("total_progress", .int 9)]
    rfl (Or.inl rfl) (Or.inl ⟨by decide, by decide⟩)

theorem jsonRecord_of_jsonSafe (o : Obj) (h : jsonSafe o = true) : jsonRecord o = o := by
  induction o with
  | nil => rfl
  | cons p rest ih =>
    simp only [jsonSafe, List.all_cons, Bool.and_eq_true, decide_eq_true_eq] at h
    obtain ⟨h1, h2⟩ := h
    have ih' := ih (by simpa [jsonSafe] using h2)
    unfold jsonRecord at ih' ⊢
    rw [List.filterMap_cons, h1]
    simp [ih']

theorem persistedFor_of_stored (P : Platform) (u : Obj) (s : GoalStore)
    (h : s.storage (GoalContext.goalsKey P u) = some (stringifyArray s.goals)) :
    PersistedFor P u s := by
  refine ⟨h, rfl, ?_, ?_⟩
  · intro c r u' hid
    have hk : GoalContext.goalsKey P u' = GoalContext.goalsKey P u := by
      simp [GoalContext.goalsKey, hid]
    have := loadGoals_local_stored P c r
      { user := some u', dbInitialized := false, goals := [], storage := s.storage } u' s.goals
      rfl rfl (by rw [hk]; exact h)
    rw [this]
  · intro hsafe
    have : ∀ e : Entry, e ∈ s.goals → Option.map jsonRecord e = e := by
      intro e he
      cases e with
      | none => rfl
      | some o => simp [jsonRecord_of_jsonSafe o (hsafe o he)]
    calc s.goals.map (Option.map jsonRecord) = s.goals.map id :=
          List.map_congr_left (by simpa using this)
      _ = s.goals := List.map_id _

theorem updateGoal_local (P : Platform) (res : QueryResult) (s : GoalStore) (u : Obj)
    (gs : List Obj) (goalId : JSValue) (updates : Obj)
    (hu : s.user = some u) (hdb : s.dbInitialized = false) (hgoals : s.goals = gs.map some) :
    GoalContext.updateGoal P res s goalId updates =
      ({ s with
          goals := gs.map fun goal =>
            if (Obj.get goal "id").strictEq (.number (parseInt P goalId)) then
              some (Obj.merge goal updates)
            else some goal
          storage := s.storage.setItem (GoalContext.goalsKey P u)
            (stringifyArray (gs.map fun goal =>
              if (Obj.get goal "id").strictEq (.number (parseInt P goalId)) then
                some (Obj.merge goal updates)
              else some goal)) },
        { success := true }) := by
  simp [GoalContext.updateGoal, hu, hdb, hgoals, mapGoals_map_some]

/-- C6 as stated is refuted: with no user logged in createGoal returns
success:false in fallback mode; and with a user, updateGoal(1, {note:
undefined}) leaves a record with an undefined property in memory while the
stored JSON decodes to the record without it. -/
theorem C6_counterexample :
    (GoalContext.createGoal samplePlatform sampleClock failedQuery
      { user := none, dbInitialized := false, goals := [], storage := emptyStorage }
      [("title", .string "Walk")]).2.success = false ∧
    (GoalContext.updateGoal samplePlatform failedQuery
      { user := some sampleUser, dbInitialized := false, goals := [some [("id", .int 1)]],
        storage := emptyStorage } (.int 1) [("note", .undefined)]).1.goals
      = [some [("id", .int 1), ("note", .undefined)]] ∧
    (GoalContext.updateGoal samplePlatform failedQuery
      { user := some sampleUser, dbInitialized := false, goals := [some [("id", .int 1)]],
        storage := emptyStorage } (.int 1) [("note", .undefined)]).1.storage
        (GoalContext.goalsKey samplePlatform sampleUser)
      = some (.json (.array [some [("id", .int 1)]])) := by
  have h := updateGoal_local samplePlatform failedQuery
    { user := some sampleUser, dbInitialized := false, goals := [some [("id", .int 1)]],
      storage := emptyStorage } sampleUser [[("id", .int 1)]] (.int 1) [("note", .undefined)]
    rfl rfl rfl
  have hp : parseInt samplePlatform (.int 1) = .finite 1 := by
    simpa using parseInt_int samplePlatform 1 (by norm_num)
  have hs : (JSValue.int 1).strictEq (.number (.finite 1)) = true := by
    simpa using strictEq_int_self 1
  refine ⟨rfl, ?_, ?_⟩
  · rw [h]
    simp [Obj.get, hp, hs, Obj.merge, Obj.set]
  · rw [h]
    simp only [setItem_same]
    simp [Obj.get, hp, hs, Obj.merge, Obj.set, stringifyArray]
    rfl

/-- C6 (amended): when dbInitialized is false, a user is logged in and the goal
collection holds goal records, each of createGoal, updateGoal, logProgress
and completeGoal returns success:true, and after it the text stored under
goalTracker_goals_<userId> is the JSON text of the new in-memory collection:
it decodes to the JSON image of that collection (properties that are
undefined dropped, NaN and infinities read back as null), which is the
collection itself when every value is JSON-representable, and a second
session calling loadGoals with the same user id recovers exactly that image. -/
theorem C6_fallback_operations_persist (P : Platform) (c : Clock)
    (res r1 r2 r3 : QueryResult) (s : GoalStore) (u : Obj) (gs : List Obj)
    (goalData updates : Obj) (goalId value notes : JSValue)
    (hu : s.user = some u) (hdb : s.dbInitialized = false) (hgoals : s.goals = gs.map some) :
    ((GoalContext.createGoal P c res s goalData).2.success = true ∧
      PersistedFor P u (GoalContext.createGoal P c res s goalData).1) ∧
    ((GoalContext.updateGoal P res s goalId updates).2 = { success := true } ∧
      PersistedFor P u (GoalContext.updateGoal P res s goalId updates).1) ∧
    ((GoalContext.logProgress P c r1 r2 r3 s goalId value notes).2 = { success := true } ∧
      PersistedFor P u (GoalContext.logProgress P c r1 r2 r3 s goalId value notes).1) ∧
    ((GoalContext.completeGoal P c res s goalId).2
        = some { success := true, celebration := true } ∧
      PersistedFor P u (GoalContext.completeGoal P c res s goalId).1) := by
  refine ⟨⟨?_, ?_⟩, ⟨?_, ?_⟩, ⟨?_, ?_⟩, ⟨?_, ?_⟩⟩
  · simp [GoalContext.createGoal, hu, hdb]
  · apply persistedFor_of_stored
    simp [GoalContext.createGoal, hu, hdb, setItem_same]
  · rw [updateGoal_local P res s u gs goalId updates hu hdb hgoals]
  · apply persistedFor_of_stored
    rw [updateGoal_local P res s u gs goalId updates hu hdb hgoals]
    exact setItem_same _ _ _
  · rw [logProgress_local P c r1 r2 r3 s u gs goalId value notes hu hdb hgoals]
  · apply persistedFor_of_stored
    rw [logProgress_local P c r1 r2 r3 s u gs goalId value notes hu hdb hgoals]
    exact setItem_same _ _ _
  · simp [GoalContext.completeGoal, updateGoal_local P res s u gs goalId _ hu hdb hgoals]
  · apply persistedFor_of_stored
    simp only [GoalContext.completeGoal,
      updateGoal_local P res s u gs goalId _ hu hdb hgoals, if_true]
    exact setItem_same _ _ _

/-- C6 (amended), applied to a store holding one goal. -/
theorem C6_fallback_operations_persist_witness :
    PersistedFor samplePlatform sampleUser
      (GoalContext.logProgress samplePlatform sampleClock failedQuery failedQuery failedQuery
        { user := some sampleUser, dbInitialized := false,
          goals := [some [("id", .int 1), ("total_progress", .int 2)]],
          storage := emptyStorage } (.int 1) (.int 3) (.string "")).1 :=
  (C6_fallback_operations_persist samplePlatform sampleClock failedQuery failedQuery
    failedQuery failedQuery
    { user := some sampleUser, dbInitialized := false,
      goals := [some [("id", .int 1), ("total_progress", .int 2)]],
      storage := emptyStorage } sampleUser [[("id", .int 1), ("total_progress", .int 2)]]
    [] [] (.int 1) (.int 3) (.string "") rfl rfl rfl).2.2.1.2

/-! ## Lookups (C7, C8) -/

theorem findGoal_map_some (callback : Obj → Bool) (gs : List Obj) :
    findGoal callback (gs.map some) = .returned (gs.find? callback) := by
  induction gs with
  | nil => rfl
  | cons g rest ih =>
    by_cases h : callback g = true
    · simp [findGoal, h]
    · have h' : callback g = false := by simpa using h
      simp [findGoal, h', ih]

theorem filterGoals_map_some (callback : Obj → Bool) (gs : List Obj) :
    filterGoals callback (gs.map some) = .returned (gs.filter callback) := by
  induction gs with
  | nil => rfl
  | cons g rest ih =>
    by_cases h : callback g = true
    · simp [filterGoals, ih, h]
    · have h' : callback g = false := by simpa using h
      simp [filterGoals, ih, h']

/-- C7 as stated is refuted: the collection holds a goal whose id is the number
0, and getGoalById(0) returns null instead of that goal. -/
theorem C7_counterexample :
    GoalContext.getGoalById samplePlatform
      [some [("id", .int 0), ("title", .string "Walk")]] (.int 0) = .returned none ∧
    (coercedId samplePlatform (Obj.get [("id", .int 0), ("title", .string "Walk")] "id")).strictEq
      (coercedId samplePlatform (.int 0)) = true := by
  refine ⟨?_, ?_⟩
  · simp [GoalContext.getGoalById, JSValue.truthy, JSValue.int]
  · simp [coercedId, Obj.get, JSValue.int, JSValue.isString, JSValue.strictEq,
      JSNumber.strictEq]

/-- C7 (amended): on every collection of goal records getGoalById never throws; it
returns null when given null, undefined, a string that parseInt does not
read as a number, or an id that matches no goal; and given a string that
parseInt reads as a number, or a number other than 0 and NaN, it returns the
first goal of the collection whose id, brought to a number the same way,
is === to it (null when there is none). -/
theorem C7_getGoalById_lookup (P : Platform) (gs : List Obj) :
    GoalContext.getGoalById P (gs.map some) .null = .returned none ∧
    GoalContext.getGoalById P (gs.map some) .undefined = .returned none ∧
    (∀ t : String, parseIntString t = .nan →
      GoalContext.getGoalById P (gs.map some) (.string t) = .returned none) ∧
    (∀ goalId : JSValue, ∃ r : Option Obj,
      GoalContext.getGoalById P (gs.map some) goalId = .returned r) ∧
    (∀ goalId : JSValue,
      (∀ goal ∈ gs, (coercedId P (Obj.get goal "id")).strictEq (coercedId P goalId) = false) →
      GoalContext.getGoalById P (gs.map some) goalId = .returned none) ∧
    (∀ goalId : JSValue,
      ((∃ t : String, goalId = .string t ∧ parseIntString t ≠ .nan) ∨
        (∃ x : JSNumber, goalId = .number x ∧ x ≠ .nan ∧ x ≠ .finite 0)) →
      GoalContext.getGoalById P (gs.map some) goalId = .returned
        (gs.find? fun goal =>
          (coercedId P (Obj.get goal "id")).strictEq (coercedId P goalId)) ∧
      ∀ goal : Obj, (gs.find? fun goal =>
          (coercedId P (Obj.get goal "id")).strictEq (coercedId P goalId)) = some goal →
        ∃ before after : List Obj, gs = before ++ goal :: after ∧
          (coercedId P (Obj.get goal "id")).strictEq (coercedId P goalId) = true ∧
          ∀ other ∈ before,
            (coercedId P (Obj.get other "id")).strictEq (coercedId P goalId) = false) := by
  have hgen : ∀ goalId : JSValue, GoalContext.getGoalById P (gs.map some) goalId =
      if !goalId.truthy then .returned none
      else if (coercedId P goalId).isNaN P then .returned none
      else .returned (gs.find? fun goal =>
        (coercedId P (Obj.get goal "id")).strictEq (coercedId P goalId)) := by
    intro goalId
    unfold GoalContext.getGoalById coercedId
    simp only [findGoal_map_some]
  refine ⟨by simp [hgen, JSValue.truthy], by simp [hgen, JSValue.truthy], ?_, ?_, ?_, ?_⟩
  · intro t ht
    have hp : parseInt P (.string t) = .nan := ht
    rw [hgen]
    simp [coercedId, JSValue.isString, hp, JSValue.isNaN, JSValue.toNumber, JSNumber.isNaN]
  · intro goalId
    rw [hgen]
    split_ifs <;> exact ⟨_, rfl⟩
  · intro goalId hno
    rw [hgen]
    have : (gs.find? fun goal =>
        (coercedId P (Obj.get goal "id")).strictEq (coercedId P goalId)) = none := by
      rw [List.find?_eq_none]
      intro goal hg
      simp [hno goal hg]
    rw [this]
    split_ifs <;> rfl
  · intro goalId hacc
    constructor
    · rw [hgen]
      rcases hacc with ⟨t, rfl, ht⟩ | ⟨x, rfl, hnan, hzero⟩
      · have hne : t ≠ "" := by
          rintro rfl
          exact ht (by rfl)
        have hp : parseInt P (.string t) = parseIntString t := rfl
        have hnn : (parseIntString t).isNaN = false := by
          cases h : parseIntString t <;> simp_all [JSNumber.isNaN]
        simp [JSValue.truthy, hne, coercedId, JSValue.isString, JSValue.isNaN,
          JSValue.toNumber, hp, hnn]
      · have htr : (JSValue.number x).truthy = true := by
          cases x with
          | finite q =>
            have : q ≠ 0 := fun h => hzero (by rw [h])
            simp [JSValue.truthy, this]
          | posInf => rfl
          | negInf => rfl
          | nan => exact absurd rfl hnan
        have hnn : x.isNaN = false := by cases x <;> simp_all [JSNumber.isNaN]
        simp [htr, coercedId, JSValue.isString, JSValue.isNaN, JSValue.toNumber, hnn]
    · intro goal hfind
      rw [List.find?_eq_some] at hfind
      obtain ⟨hp, before, after, hsplit, hbefore⟩ := hfind
      exact ⟨before, after, hsplit, hp, fun other ho => by simpa using hbefore other ho⟩

/-- C8: on a collection of goal records getGoalsByType(type) returns the goals
whose goal_type === type and whose status is 'active', in their original
order: the result is a sub-sequence of the collection, a goal is in it exactly
when it is in the collection and matches, and every sub-sequence of the
collection made of matching goals is a sub-sequence of the result. -/
theorem C8_getGoalsByType_filter (gs : List Obj) (type : JSValue) :
    ∃ r : List Obj,
      GoalContext.getGoalsByType (gs.map some) type = .returned r ∧
      r.Sublist gs ∧
      (∀ goal : Obj, goal ∈ r ↔
        goal ∈ gs ∧ Obj.get goal "status" = .string "active" ∧
          (Obj.get goal "goal_type").strictEq type = true) ∧
      (∀ l : List Obj, l.Sublist gs →
        (∀ goal ∈ l, Obj.get goal "status" = .string "active" ∧
          (Obj.get goal "goal_type").strictEq type = true) → l.Sublist r) ∧
      (∀ t : String, type = .string t → ∀ goal : Obj, goal ∈ r ↔
        goal ∈ gs ∧ Obj.get goal "status" = .string "active" ∧
          Obj.get goal "goal_type" = .string t) := by
  have hst : ∀ v : JSValue, ∀ t : String, v.strictEq (.string t) = true ↔ v = .string t := by
    intro v t
    cases v <;> simp [JSValue.strictEq]
  refine ⟨gs.filter (fun goal => (Obj.get goal "goal_type").strictEq type &&
      (Obj.get goal "status").strictEq (.string "active")), ?_, List.filter_sublist gs, ?_, ?_, ?_⟩
  · simp [GoalContext.getGoalsByType, filterGoals_map_some]
  · intro goal
    simp only [List.mem_filter, Bool.and_eq_true, hst]
    tauto
  · intro l hl hall
    have h1 := hl.filter (fun goal => (Obj.get goal "goal_type").strictEq type &&
      (Obj.get goal "status").strictEq (.string "active"))
    have h2 : l.filter (fun goal => (Obj.get goal "goal_type").strictEq type &&
        (Obj.get goal "status").strictEq (.string "active")) = l := by
      rw [List.filter_eq_self]
      intro goal hg
      obtain ⟨ha, hb⟩ := hall goal hg
      simp [hb, hst, ha]
    rwa [h2] at h1
  · intro t ht goal
    subst ht
    simp only [List.mem_filter, Bool.and_eq_true, hst]
    tauto

/-! ## The result of `updateGoal` (C9, C10) -/

/-- C9 as stated is refuted: in the fallback path with nobody logged in,
updateGoal returns success:false (reading `user.id` throws and is caught). -/
theorem C9_counterexample :
    (GoalContext.updateGoal samplePlatform failedQuery
      { user := none, dbInitialized := false, goals := [some [("id", .int 1)]],
        storage := emptyStorage } (.int 1) [("title", .string "Walk")]).2
      = { success := false, error := some "Failed to update goal" } := by
  rfl

/-- C9 (amended): in the local-fallback path, with a user logged in and a
collection of goal records, updateGoal returns {success:true} for every goal
id and every updates object, whatever the stored data. -/
theorem C9_updateGoal_fallback_succeeds (P : Platform) (res : QueryResult) (s : GoalStore)
    (u : Obj) (gs : List Obj) (goalId : JSValue) (updates : Obj)
    (hu : s.user = some u) (hdb : s.dbInitialized = false) (hgoals : s.goals = gs.map some) :
    (GoalContext.updateGoal P res s goalId updates).2 = { success := true } := by
  rw [updateGoal_local P res s u gs goalId updates hu hdb hgoals]

/-- C9 (amended), applied: an id that matches nothing still gives success. -/
theorem C9_updateGoal_fallback_succeeds_witness :
    (GoalContext.updateGoal samplePlatform failedQuery
      { user := some sampleUser, dbInitialized := false, goals := [some [("id", .int 1)]],
        storage := emptyStorage } (.string "nope") [("title", .string "Walk")]).2
      = { success := true } :=
  C9_updateGoal_fallback_succeeds samplePlatform failedQuery
    { user := some sampleUser, dbInitialized := false, goals := [some [("id", .int 1)]],
      storage := emptyStorage } sampleUser [[("id", .int 1)]] (.string "nope")
    [("title", .string "Walk")] rfl rfl rfl

/-- C10 as stated is refuted: in the remote path a failed update query still
makes updateGoal return success:true (the database layer reports success
without a goal). -/
theorem C10_counterexample :
    failedQuery.success = false ∧
    Database.updateGoal samplePlatform failedQuery = none ∧
    (GoalContext.updateGoal samplePlatform failedQuery
      { user := some sampleUser, dbInitialized := true, goals := [some [("id", .int 1)]],
        storage := emptyStorage } (.int 1) [("title", .string "Walk")]).2
      = { success := true } := by
  refine ⟨rfl, rfl, ?_⟩
  unfold GoalContext.updateGoal
  simp only [Bool.not_true, Bool.false_eq_true, if_false]
  split <;> rfl

/-- C10 (amended): in the remote path updateGoal returns {success:true} whatever
the update query resolved to, also when executeQuery reported success:false;
the database layer then hands back no goal. -/
theorem C10_updateGoal_remote_always_succeeds (P : Platform) (res : QueryResult)
    (s : GoalStore) (goalId : JSValue) (updates : Obj) (hdb : s.dbInitialized = true) :
    (GoalContext.updateGoal P res s goalId updates).2 = { success := true } ∧
    (res.success = false → Database.updateGoal P res = none) := by
  constructor
  · unfold GoalContext.updateGoal
    rw [hdb]
    simp only [Bool.not_true, Bool.false_eq_true, if_false]
    split <;> rfl
  · intro h
    simp [Database.updateGoal, h]

/-- C10 (amended), applied to a failed query. -/
theorem C10_updateGoal_remote_always_succeeds_witness :
    (GoalContext.updateGoal samplePlatform failedQuery
      { user := some sampleUser, dbInitialized := true, goals := [],
        storage := emptyStorage } (.int 1) []).2 = { success := true } ∧
    (failedQuery.success = false → Database.updateGoal samplePlatform failedQuery = none) :=
  C10_updateGoal_remote_always_succeeds samplePlatform failedQuery
    { user := some sampleUser, dbInitialized := true, goals := [], storage := emptyStorage }
    (.int 1) [] rfl

/-! ## The remote path of `updateGoal` (C11) -/

theorem updateGoal_remote_goals (P : Platform) (res : QueryResult) (s : GoalStore)
    (gs : List Obj) (goalId : JSValue) (updates : Obj) (hdb : s.dbInitialized = true)
    (hgoals : s.goals = gs.map some) :
    (GoalContext.updateGoal P res s goalId updates).1.goals =
      gs.map fun goal =>
        if (Obj.get goal "id").strictEq (.number (parseInt P goalId)) then
          Database.updateGoal P res
        else some goal := by
  simp [GoalContext.updateGoal, hdb, hgoals, mapGoals_map_some]

/-- C11, the code at the failing input: in the remote path, when the update
query fails, updateGoal(1, {title: "Run"}) on the collection [{id: 1, title:
"Read"}, {id: 2, title: "Walk"}] replaces the matching goal by `undefined`
(the database layer reports success without a goal), and a later
getGoalById(2) throws on that element; a goal that does not match is kept. -/
theorem C11_remote_failure_replaces_goal (P : Platform) :
    (GoalContext.updateGoal P failedQuery
      { user := some sampleUser, dbInitialized := true,
        goals := [some [("id", .int 1), ("title", .string "Read")],
          some [("id", .int 2), ("title", .string "Walk")]],
        storage := emptyStorage } (.int 1) [("title", .string "Run")]).1.goals
      = [none, some [("id", .int 2), ("title", .string "Walk")]] ∧
    (GoalContext.updateGoal P failedQuery
      { user := some sampleUser, dbInitialized := true,
        goals := [some [("id", .int 1), ("title", .string "Read")],
          some [("id", .int 2), ("title", .string "Walk")]],
        storage := emptyStorage } (.int 1) [("title", .string "Run")]).2
      = { success := true } ∧
    GoalContext.getGoalById P [none, some [("id", .int 2), ("title", .string "Walk")]] (.int 2)
      = .threw := by
  have hp : parseInt P (.int 1) = .finite ((1 : ℤ) : ℚ) := parseInt_int P 1 (by norm_num)
  have h1 : (JSValue.int 1).strictEq (.number (.finite ((1 : ℤ) : ℚ))) = true :=
    strictEq_int_self 1
  have h2 : (JSValue.int 2).strictEq (.number (.finite ((1 : ℤ) : ℚ))) = false := by
    simp [JSValue.strictEq, JSValue.int, JSNumber.strictEq]
  have hdbu : Database.updateGoal P failedQuery = none := rfl
  refine ⟨?_, ?_, ?_⟩
  · rw [updateGoal_remote_goals P failedQuery _
      [[("id", .int 1), ("title", .string "Read")], [("id", .int 2), ("title", .string "Walk")]]
      (.int 1) _ rfl rfl]
    simp only [List.map, Obj.get_cons, if_true, hp, h1, h2, hdbu]
    simp
  · unfold GoalContext.updateGoal
    simp only [Bool.not_true, Bool.false_eq_true, if_false]
    split <;> rfl
  · simp [GoalContext.getGoalById, JSValue.truthy, JSValue.int, JSValue.isString,
      JSValue.isNaN, JSValue.toNumber, JSNumber.isNaN, findGoal]

/-! ## `updateGoal` and `createGoal` in local-fallback mode (C12, C13) -/

theorem Obj.get_merge_of_mem (a b : Obj) (k : String) (v : JSValue)
    (hnodup : (b.map Prod.fst).Nodup) (hmem : (k, v) ∈ b) :
    Obj.get (Obj.merge a b) k = v := by
  induction b generalizing a with
  | nil => simp at hmem
  | cons p rest ih =>
    have hrest : (rest.map Prod.fst).Nodup := (List.nodup_cons.mp (by simpa using hnodup)).2
    have hnot : p.1 ∉ rest.map Prod.fst := (List.nodup_cons.mp (by simpa using hnodup)).1
    have hstep : Obj.merge a (p :: rest) = Obj.merge (Obj.set a p.1 p.2) rest := rfl
    rw [hstep]
    rcases List.mem_cons.mp hmem with heq | hin
    · subst heq
      rw [Obj.get_merge_of_not_mem _ _ _ (fun q hq hk =>
        hnot (List.mem_map.mpr ⟨q, hq, hk⟩))]
      exact Obj.get_set_self _ _ _
    · exact ih _ hrest hin

theorem strictEq_finite_iff (v : JSValue) (q : ℚ) :
    v.strictEq (.number (.finite q)) = true ↔ v = .number (.finite q) := by
  cases v with
  | number a => cases a <;> simp [JSValue.strictEq, JSNumber.strictEq]
  | _ => simp [JSValue.strictEq]

theorem updateGoal_local_goals (P : Platform) (res : QueryResult) (s : GoalStore)
    (gs : List Obj) (goalId : JSValue) (updates : Obj) (hdb : s.dbInitialized = false)
    (hgoals : s.goals = gs.map some) :
    (GoalContext.updateGoal P res s goalId updates).1.goals =
      gs.map fun goal =>
        if (Obj.get goal "id").strictEq (.number (parseInt P goalId)) then
          some (Obj.merge goal updates)
        else some goal := by
  cases hu : s.user <;> simp [GoalContext.updateGoal, hdb, hgoals, mapGoals_map_some, hu]

/-- C12 as stated is refuted: a goal whose stored id is the string "7" is not
replaced by updateGoal("7", {title: "Run"}); the collection stays as it was. -/
theorem C12_counterexample :
    (GoalContext.updateGoal samplePlatform failedQuery
      { user := some sampleUser, dbInitialized := false,
        goals := [some [("id", .string "7"), ("title", .string "Read")]],
        storage := emptyStorage } (.string "7") [("title", .string "Run")]).1.goals
      = [some [("id", .string "7"), ("title", .string "Read")]] := by
  rfl

/-- C12 (amended): in local-fallback mode, for every collection of goal records and
every id that parseInt reads as the number n (an integer number, or a string
starting with its decimal digits), updateGoal(id, updates) replaces exactly
the goals whose stored id is the number n by the merge {...goal, ...updates}
and leaves every other goal (also one whose stored id is a string) unchanged,
preserving length and order; in the merge a key of updates has the value
updates gives it and every other key keeps the goal's value. -/
theorem C12_updateGoal_replaces_by_numeric_id (P : Platform) (res : QueryResult)
    (s : GoalStore) (gs : List Obj) (goalId : JSValue) (updates : Obj) (n : ℚ)
    (hdb : s.dbInitialized = false) (hgoals : s.goals = gs.map some)
    (hgid : parseInt P goalId = .finite n) :
    (GoalContext.updateGoal P res s goalId updates).1.goals.length = gs.length ∧
    (∀ (i : ℕ) (goal : Obj), gs[i]? = some goal →
      (Obj.get goal "id" = .number (.finite n) →
        (GoalContext.updateGoal P res s goalId updates).1.goals[i]?
          = some (some (Obj.merge goal updates))) ∧
      (Obj.get goal "id" ≠ .number (.finite n) →
        (GoalContext.updateGoal P res s goalId updates).1.goals[i]? = some (some goal))) ∧
    (∀ (goal : Obj) (k : String), (∀ p ∈ updates, p.1 ≠ k) →
      Obj.get (Obj.merge goal updates) k = Obj.get goal k) ∧
    ((updates.map Prod.fst).Nodup → ∀ (goal : Obj) (k : String) (v : JSValue),
      (k, v) ∈ updates → Obj.get (Obj.merge goal updates) k = v) := by
  rw [updateGoal_local_goals P res s gs goalId updates hdb hgoals, hgid]
  refine ⟨by simp, ?_, fun goal k h => Obj.get_merge_of_not_mem goal updates k h,
    fun hn goal k v hm => Obj.get_merge_of_mem goal updates k v hn hm⟩
  intro i goal hi
  constructor
  · intro hid
    have : (Obj.get goal "id").strictEq (.number (.finite n)) = true :=
      (strictEq_finite_iff _ _).mpr hid
    simp [List.getElem?_map, hi, this]
  · intro hid
    have : (Obj.get goal "id").strictEq (.number (.finite n)) = false := by
      rw [Bool.eq_false_iff]
      exact fun h => hid ((strictEq_finite_iff _ _).mp h)
    simp [List.getElem?_map, hi, this]

/-- C12 (amended), applied: the id is given as the string "2"; the goal with the
stored number 2 is merged, the goal with the stored number 1 is kept. -/
theorem C12_updateGoal_replaces_by_numeric_id_witness :
    (GoalContext.updateGoal samplePlatform failedQuery
      { user := some sampleUser, dbInitialized := false,
        goals := [some [("id", .int 1), ("title", .string "Read")],
          some [("id", .int 2), ("title", .string "Walk")]],
        storage := emptyStorage } (.string "2") [("title", .string "Run")]).1.goals[1]?
      = some (some (Obj.merge [("id", .int 2), ("title", .string "Walk")]
          [("title", .string "Run")])) ∧
    (GoalContext.updateGoal samplePlatform failedQuery
      { user := some sampleUser, dbInitialized := false,
        goals := [some [("id", .int 1), ("title", .string "Read")],
          some [("id", .int 2), ("title", .string "Walk")]],
        storage := emptyStorage } (.string "2") [("title", .string "Run")]).1.goals[0]?
      = some (some [("id", .int 1), ("title", .string "Read")]) := by
  have hp : parseInt samplePlatform (.string "2") = .finite 2 := by
    change roundToDouble ((2 : ℕ) : ℚ) = .finite 2
    simpa using roundToDouble_intCast 2 (by norm_num)
  have h := (C12_updateGoal_replaces_by_numeric_id samplePlatform failedQuery
    { user := some sampleUser, dbInitialized := false,
      goals := [some [("id", .int 1), ("title", .string "Read")],
        some [("id", .int 2), ("title", .string "Walk")]],
      storage := emptyStorage }
    [[("id", .int 1), ("title", .string "Read")], [("id", .int 2), ("title", .string "Walk")]]
    (.string "2") [("title", .string "Run")] 2 rfl rfl hp).2.1
  refine ⟨(h 1 _ rfl).1 ?_, (h 0 _ rfl).2 ?_⟩
  · simp [Obj.get, JSValue.int]
  · simp [Obj.get, JSValue.int]

/-- C13 as stated is refuted: the caller's field `status: 'archived'` is not
carried by the new goal, whose status is 'active'. -/
theorem C13_counterexample :
    (GoalContext.createGoal samplePlatform sampleClock failedQuery
      { user := some sampleUser, dbInitialized := false, goals := [], storage := emptyStorage }
      [("title", .string "Walk"), ("status", .string "archived")]).2
      = { success := true,
          goal := some [("id", .int 1704067200000), ("title", .string "Walk"),
            ("status", .string "active"), ("total_progress", .int 0),
            ("created_at", .string "2024-01-01T00:00:00.000Z")] } ∧
    Obj.get [("title", .string "Walk"), ("status", .string "archived")] "status"
      = .string "archived" := by
  exact ⟨rfl, rfl⟩

/-- C13 (amended): with a logged-in user, createGoal in local-fallback mode returns
{success:true, goal}; the in-memory collection afterwards is the new goal
followed by the previous collection unchanged; the new goal has total_progress
0, status 'active' and created_at set to the current time, whatever the caller
gave for these three; it carries every other caller field with the caller's
value; and its id is Date.now() unless the caller gave an id. -/
theorem C13_createGoal_prepends (P : Platform) (c : Clock) (res : QueryResult)
    (s : GoalStore) (u : Obj) (goalData : Obj) (hu : s.user = some u)
    (hdb : s.dbInitialized = false) :
    ∃ goal : Obj,
      (GoalContext.createGoal P c res s goalData).2 = { success := true, goal := some goal } ∧
      (GoalContext.createGoal P c res s goalData).1.goals = some goal :: s.goals ∧
      Obj.get goal "total_progress" = .int 0 ∧
      Obj.get goal "status" = .string "active" ∧
      Obj.get goal "created_at" = .string (c.iso 0) ∧
      ((goalData.map Prod.fst).Nodup → ∀ (k : String) (v : JSValue), (k, v) ∈ goalData →
        k ≠ "total_progress" → k ≠ "status" → k ≠ "created_at" → Obj.get goal k = v) ∧
      ((∀ p ∈ goalData, p.1 ≠ "id") → Obj.get goal "id" = .int c.now) := by
  refine ⟨Obj.set (Obj.set (Obj.set (Obj.merge [("id", .int c.now)] goalData)
      "total_progress" (.int 0)) "status" (.string "active")) "created_at" (.string (c.iso 0)),
    ?_, ?_, ?_, ?_, ?_, ?_, ?_⟩
  · simp [GoalContext.createGoal, hu, hdb]
  · simp [GoalContext.createGoal, hu, hdb]
  · rw [Obj.get_set_of_ne _ _ _ _ (by decide), Obj.get_set_of_ne _ _ _ _ (by decide),
      Obj.get_set_self]
  · rw [Obj.get_set_of_ne _ _ _ _ (by decide), Obj.get_set_self]
  · rw [Obj.get_set_self]
  · intro hn k v hm h1 h2 h3
    rw [Obj.get_set_of_ne _ _ _ _ h3, Obj.get_set_of_ne _ _ _ _ h2,
      Obj.get_set_of_ne _ _ _ _ h1]
    exact Obj.get_merge_of_mem _ _ _ _ hn hm
  · intro hno
    rw [Obj.get_set_of_ne _ _ _ _ (by decide), Obj.get_set_of_ne _ _ _ _ (by decide),
      Obj.get_set_of_ne _ _ _ _ (by decide), Obj.get_merge_of_not_mem _ _ _ hno]
    rfl

/-- C13 (amended), applied: a goal created on top of one existing goal. -/
theorem C13_createGoal_prepends_witness :
    ∃ goal : Obj,
      (GoalContext.createGoal samplePlatform sampleClock failedQuery
        { user := some sampleUser, dbInitialized := false,
          goals := [some [("id", .int 1), ("title", .string "Read")]],
          storage := emptyStorage }
        [("title", .string "Walk"), ("target_value", .int 3)]).1.goals
        = [some goal, some [("id", .int 1), ("title", .string "Read")]] ∧
      Obj.get goal "title" = .string "Walk" ∧ Obj.get goal "target_value" = .int 3 ∧
      Obj.get goal "total_progress" = .int 0 ∧ Obj.get goal "status" = .string "active" := by
  obtain ⟨goal, -, h2, h3, h4, -, h6, -⟩ :=
    C13_createGoal_prepends samplePlatform sampleClock failedQuery
      { user := some sampleUser, dbInitialized := false,
        goals := [some [("id", .int 1), ("title", .string "Read")]],
        storage := emptyStorage } sampleUser
      [("title", .string "Walk"), ("target_value", .int 3)] rfl rfl
  exact ⟨goal, h2,
    h6 (by decide) "title" _ (by simp) (by decide) (by decide) (by decide),
    h6 (by decide) "target_value" _ (by simp) (by decide) (by decide) (by decide), h3, h4⟩

/-! ## Progress log entries and monotonicity (C14, C15) -/

theorem progressKey_ne_goalsKey (x y : String) :
    "goalTracker_progress_" ++ x ≠ "goalTracker_goals_" ++ y := by
  intro h
  have h' := congrArg String.data h
  simp [String.data_append] at h'

theorem goalsKey_ne_userKey (x : String) : "goalTracker_goals_" ++ x ≠ "goalTracker_user" := by
  intro h
  have h' := congrArg String.data h
  simp [String.data_append] at h'

theorem progressKey_ne_userKey (x : String) :
    "goalTracker_progress_" ++ x ≠ "goalTracker_user" := by
  intro h
  have h' := congrArg String.data h
  simp [String.data_append] at h'

theorem logProgress_local_storage_frame (P : Platform) (c : Clock) (r1 r2 r3 : QueryResult)
    (s : GoalStore) (u : Obj) (goalId value notes : JSValue) (hu : s.user = some u)
    (hdb : s.dbInitialized = false) (k : String) (hk : k ≠ GoalContext.goalsKey P u) :
    (GoalContext.logProgress P c r1 r2 r3 s goalId value notes).1.storage k = s.storage k := by
  unfold GoalContext.logProgress
  simp only [hdb, Bool.not_false, if_true]
  split
  · rfl
  · simp [hu, Storage.setItem, hk]

/-- C14, the code at the failing input: in local-fallback mode
logProgress(1, 1, "read a chapter") succeeds and stores total_progress 1, but
nothing is stored under goalTracker_progress_<userId> (the call writes no key
other than the goals key, and the notes are dropped); the local fallback of the
database layer, entered when its queries fail, does append the entry to that
key. -/
theorem C14_local_logProgress_writes_no_entry (P : Platform) :
    (GoalContext.logProgress P sampleClock failedQuery failedQuery failedQuery
      { user := some sampleUser, dbInitialized := false,
        goals := [some [("id", .int 1), ("total_progress", .int 0)]],
        storage := emptyStorage } (.int 1) (.int 1) (.string "read a chapter")).2
      = { success := true } ∧
    (GoalContext.logProgress P sampleClock failedQuery failedQuery failedQuery
      { user := some sampleUser, dbInitialized := false,
        goals := [some [("id", .int 1), ("total_progress", .int 0)]],
        storage := emptyStorage } (.int 1) (.int 1) (.string "read a chapter")).1.goals
      = [some [("id", .int 1), ("total_progress", .int 1),
          ("last_progress_date", .string (isoDate (sampleClock.iso 0)))]] ∧
    (GoalContext.logProgress P sampleClock failedQuery failedQuery failedQuery
      { user := some sampleUser, dbInitialized := false,
        goals := [some [("id", .int 1), ("total_progress", .int 0)]],
        storage := emptyStorage } (.int 1) (.int 1) (.string "read a chapter")).1.storage
        ("goalTracker_progress_" ++ (Obj.get sampleUser "id").toStr P) = none ∧
    (∀ k : String, k ≠ GoalContext.goalsKey P sampleUser →
      (GoalContext.logProgress P sampleClock failedQuery failedQuery failedQuery
        { user := some sampleUser, dbInitialized := false,
          goals := [some [("id", .int 1), ("total_progress", .int 0)]],
          storage := emptyStorage } (.int 1) (.int 1) (.string "read a chapter")).1.storage k
        = none) ∧
    Database.logProgress P sampleClock failedQuery failedQuery
      (emptyStorage.setItem "goalTracker_user" (.json (.object sampleUser)))
      (.int 1) (.int 1) (.string "read a chapter")
      ("goalTracker_progress_" ++ (Obj.get sampleUser "id").toStr P)
      = some (stringifyArray [some
          [("id", .int 1704067200000), ("goal_id", .int 1), ("value", .int 1),
           ("notes", .string "read a chapter"),
           ("logged_date", .string (isoDate (sampleClock.iso 0))),
           ("created_at", .string (sampleClock.iso 1))]]) := by
  have hframe := fun k hk => logProgress_local_storage_frame P sampleClock failedQuery
    failedQuery failedQuery
    { user := some sampleUser, dbInitialized := false,
      goals := [some [("id", .int 1), ("total_progress", .int 0)]],
      storage := emptyStorage } sampleUser (.int 1) (.int 1) (.string "read a chapter")
    rfl rfl k hk
  have hlocal := logProgress_local P sampleClock failedQuery failedQuery failedQuery
    { user := some sampleUser, dbInitialized := false,
      goals := [some [("id", .int 1), ("total_progress", .int 0)]],
      storage := emptyStorage } sampleUser [[("id", .int 1), ("total_progress", .int 0)]]
    (.int 1) (.int 1) (.string "read a chapter") rfl rfl rfl
  have hp : parseInt P (.int 1) = .finite ((1 : ℤ) : ℚ) := parseInt_int P 1 (by norm_num)
  have hadd : JSValue.add P ((JSValue.int 0).or (.int 0)) (.int 1) = .int 1 := by
    simpa using add_int_int P 0 1 (by norm_num)
  have htr : (JSValue.int 1).truthy = true := by simp [JSValue.truthy, JSValue.int]
  refine ⟨?_, ?_, ?_, ?_, ?_⟩
  · rw [hlocal]
  · rw [hlocal]
    simp only [List.map, Obj.get_cons, if_true, hp, strictEq_int_self]
    simp only [show ("id" : String) = "total_progress" ↔ False from by decide, if_false, hadd]
    rfl
  · rw [hframe _ (progressKey_ne_goalsKey _ _)]
    rfl
  · intro k hk
    rw [hframe k hk]
    rfl
  · have hid : Obj.get sampleUser "id" = .int 1704067100000 := rfl
    simp only [Database.logProgress, htr, Bool.not_true, Bool.or_self, Bool.false_eq_true,
      if_false, failedQuery, Bool.not_false, Bool.or_true, if_true,
      Database.logProgressFallback, setItem_same, StoredText.truthy, StoredText.parse,
      JsonDoc.getProp]
    simp [Storage.setItem, goalsKey_ne_userKey, progressKey_ne_userKey, emptyStorage, hid,
      sampleClock]

theorem completeGoal_state (P : Platform) (c : Clock) (res : QueryResult) (s : GoalStore)
    (goalId : JSValue) :
    (GoalContext.completeGoal P c res s goalId).1 =
      (GoalContext.updateGoal P res s goalId
        [("status", .string "completed"), ("completed_at", .string (c.iso 0))]).1 := by
  simp only [GoalContext.completeGoal]
  split_ifs <;> rfl

/-- C15 as stated is refuted: logProgress(1, -1) lowers the total_progress of goal
1 from 5 to 4, and updateGoal(1, {total_progress: 0}) resets it to 0. -/
theorem C15_counterexample :
    (GoalContext.logProgress samplePlatform sampleClock failedQuery failedQuery failedQuery
      { user := some sampleUser, dbInitialized := false,
        goals := [some [("id", .int 1), ("total_progress", .int 5)]],
        storage := emptyStorage } (.int 1) (.int (-1)) (.string "")).1.goals
      = [some [("id", .int 1), ("total_progress", .int 4),
          ("last_progress_date", .string (isoDate (sampleClock.iso 0)))]] ∧
    (GoalContext.updateGoal samplePlatform failedQuery
      { user := some sampleUser, dbInitialized := false,
        goals := [some [("id", .int 1), ("total_progress", .int 5)]],
        storage := emptyStorage } (.int 1) [("total_progress", .int 0)]).1.goals
      = [some [("id", .int 1), ("total_progress", .int 0)]] := by
  have hp : parseInt samplePlatform (.int 1) = .finite ((1 : ℤ) : ℚ) :=
    parseInt_int samplePlatform 1 (by norm_num)
  have hadd : JSValue.add samplePlatform ((JSValue.int 5).or (.int 0)) (.int (-1)) = .int 4 := by
    simpa using add_int_int samplePlatform 5 (-1) (by norm_num)
  constructor
  · rw [logProgress_local samplePlatform sampleClock failedQuery failedQuery failedQuery _
      sampleUser [[("id", .int 1), ("total_progress", .int 5)]] _ _ _ rfl rfl rfl]
    simp only [List.map, Obj.get_cons, if_true, hp, strictEq_int_self]
    simp only [show ("id" : String) = "total_progress" ↔ False from by decide, if_false, hadd]
    rfl
  · rw [updateGoal_local_goals samplePlatform failedQuery _
      [[("id", .int 1), ("total_progress", .int 5)]] _ _ rfl rfl]
    simp only [List.map, Obj.get_cons, if_true, hp, strictEq_int_self]
    rfl

/-- C15 (amended): in local-fallback mode with a logged-in user and a collection of
goal records, a goal whose total_progress is the integer p keeps it or raises
it under: createGoal (the goal moves one position down, unchanged);
updateGoal when updates carries no total_progress field (total_progress stays
p); completeGoal (stays p); and logProgress with an integer value v >= 0 and
|p + v| <= 2^53 (total_progress becomes p + v for a goal the id matches and
stays p otherwise). -/
theorem C15_total_progress_non_decreasing (P : Platform) (c : Clock)
    (res r1 r2 r3 : QueryResult) (s : GoalStore) (u : Obj) (gs : List Obj) (i : ℕ)
    (goal : Obj) (p : ℤ) (hu : s.user = some u) (hdb : s.dbInitialized = false)
    (hgoals : s.goals = gs.map some) (hi : gs[i]? = some goal)
    (hp : Obj.get goal "total_progress" = .int p) :
    (∀ goalData : Obj,
      (GoalContext.createGoal P c res s goalData).1.goals[i + 1]? = some (some goal)) ∧
    (∀ (goalId : JSValue) (updates : Obj), (∀ q ∈ updates, q.1 ≠ "total_progress") →
      ∃ goal' : Obj,
        (GoalContext.updateGoal P res s goalId updates).1.goals[i]? = some (some goal') ∧
        Obj.get goal' "total_progress" = .int p) ∧
    (∀ goalId : JSValue, ∃ goal' : Obj,
      (GoalContext.completeGoal P c res s goalId).1.goals[i]? = some (some goal') ∧
      Obj.get goal' "total_progress" = .int p) ∧
    (∀ (goalId notes : JSValue) (v : ℤ), 0 ≤ v → |p + v| ≤ 2 ^ 53 →
      ∃ (goal' : Obj) (p' : ℤ),
        (GoalContext.logProgress P c r1 r2 r3 s goalId (.int v) notes).1.goals[i]?
          = some (some goal') ∧
        Obj.get goal' "total_progress" = .int p' ∧ p ≤ p') := by
  have hupd : ∀ (goalId : JSValue) (updates : Obj), (∀ q ∈ updates, q.1 ≠ "total_progress") →
      ∃ goal' : Obj,
        (GoalContext.updateGoal P res s goalId updates).1.goals[i]? = some (some goal') ∧
        Obj.get goal' "total_progress" = .int p := by
    intro goalId updates hno
    rw [updateGoal_local_goals P res s gs goalId updates hdb hgoals]
    by_cases hm : (Obj.get goal "id").strictEq (.number (parseInt P goalId)) = true
    · refine ⟨Obj.merge goal updates, by simp [List.getElem?_map, hi, hm], ?_⟩
      rw [Obj.get_merge_of_not_mem _ _ _ hno, hp]
    · exact ⟨goal, by simp [List.getElem?_map, hi, hm], hp⟩
  refine ⟨?_, hupd, ?_, ?_⟩
  · intro goalData
    simp [GoalContext.createGoal, hu, hdb, hgoals, List.getElem?_map, hi]
  · intro goalId
    rw [completeGoal_state]
    exact hupd goalId _ (by simp)
  · intro goalId notes v hv hsafe
    rw [logProgress_local P c r1 r2 r3 s u gs goalId (.int v) notes hu hdb hgoals]
    by_cases hm : (Obj.get goal "id").strictEq (.number (parseInt P goalId)) = true
    · refine ⟨Obj.set (Obj.set goal "total_progress"
          (JSValue.add P ((Obj.get goal "total_progress").or (.int 0)) (.int v)))
          "last_progress_date" (.string (isoDate (c.iso 0))), p + v,
        by simp only [List.getElem?_map, hi, Option.map_some', hm, if_true], ?_, by omega⟩
      rw [Obj.get_set_of_ne _ _ _ _ (by decide), Obj.get_set_self, hp,
        add_int_int P p v hsafe]
    · exact ⟨goal, p, by simp [List.getElem?_map, hi, hm], hp, le_refl p⟩

/-- C15 (amended), applied: logging 2 on a goal with total_progress 5. -/
theorem C15_total_progress_non_decreasing_witness :
    ∃ (goal' : Obj) (p' : ℤ),
      (GoalContext.logProgress samplePlatform sampleClock failedQuery failedQuery failedQuery
        { user := some sampleUser, dbInitialized := false,
          goals := [some [("id", .int 1), ("total_progress", .int 5)]],
          storage := emptyStorage } (.int 1) (.int 2) (.string "")).1.goals[0]?
        = some (some goal') ∧
      Obj.get goal' "total_progress" = .int p' ∧ 5 ≤ p' :=
  (C15_total_progress_non_decreasing samplePlatform sampleClock failedQuery failedQuery
    failedQuery failedQuery
    { user := some sampleUser, dbInitialized := false,
      goals := [some [("id", .int 1), ("total_progress", .int 5)]],
      storage := emptyStorage } sampleUser [[("id", .int 1), ("total_progress", .int 5)]] 0
    [("id", .int 1), ("total_progress", .int 5)] 5 rfl rfl rfl rfl rfl).2.2.2
    (.int 1) (.string "") 2 (by norm_num) (by norm_num)

/-! ## Result records and `loadGoals` (C16, C17, C18) -/

/-- C16, the code at the failing input: in fallback mode with nobody logged in the
underlying updateGoal reports {success:false, error}, and completeGoal then
returns `undefined` instead of a result record; in general completeGoal
returns a record exactly when updateGoal succeeded. -/
theorem C16_completeGoal_returns_undefined (P : Platform) :
    (GoalContext.updateGoal P failedQuery
      { user := none, dbInitialized := false, goals := [some [("id", .int 1)]],
        storage := emptyStorage } (.int 1)
      [("status", .string "completed"), ("completed_at", .string (sampleClock.iso 0))]).2
      = { success := false, error := some "Failed to update goal" } ∧
    (GoalContext.completeGoal P sampleClock failedQuery
      { user := none, dbInitialized := false, goals := [some [("id", .int 1)]],
        storage := emptyStorage } (.int 1)).2 = none ∧
    (∀ (c : Clock) (res : QueryResult) (s : GoalStore) (goalId : JSValue),
      (GoalContext.completeGoal P c res s goalId).2 =
        if (GoalContext.updateGoal P res s goalId
            [("status", .string "completed"), ("completed_at", .string (c.iso 0))]).2.success
        then some { success := true, celebration := true } else none) := by
  refine ⟨rfl, rfl, ?_⟩
  intro c res s goalId
  simp only [GoalContext.completeGoal]
  split_ifs <;> rfl

/-- C17 as stated is refuted: the empty string is malformed JSON, yet loadGoals
treats it as absent: it seeds the two example goals and overwrites the stored
value instead of setting the collection to empty. -/
theorem C17_counterexample :
    (StoredText.malformed "").parse = none ∧
    (GoalContext.loadGoals samplePlatform sampleClock failedQuery
      { user := some sampleUser, dbInitialized := false, goals := [],
        storage := emptyStorage.setItem (GoalContext.goalsKey samplePlatform sampleUser)
          (.malformed "") }).goals
      = (GoalContext.sampleGoals sampleClock).map some ∧
    (GoalContext.sampleGoals sampleClock).length = 2 := by
  refine ⟨rfl, ?_, rfl⟩
  simp [GoalContext.loadGoals, setItem_same, StoredText.truthy]

/-- C17 (amended): in local-fallback mode with a logged-in user, for every
non-empty stored value under goalTracker_goals_<userId> that is malformed
JSON or valid JSON that is not an array, loadGoals sets the goal collection
to the empty collection, leaves the storage as it is and ends with loading
false. -/
theorem C17_loadGoals_bad_stored_value (P : Platform) (c : Clock) (res : QueryResult)
    (s : GoalStore) (u : Obj) (t : StoredText) (hu : s.user = some u)
    (hdb : s.dbInitialized = false) (hst : s.storage (GoalContext.goalsKey P u) = some t)
    (hne : t.truthy = true)
    (hbad : t.parse = none ∨ (∃ o : Obj, t.parse = some (.object o)) ∨
      (∃ v : JSValue, t.parse = some (.scalar v))) :
    (GoalContext.loadGoals P c res s).goals = [] ∧
    (GoalContext.loadGoals P c res s).storage = s.storage ∧
    (GoalContext.loadGoals P c res s).loading = false := by
  rcases hbad with h | ⟨o, h⟩ | ⟨v, h⟩ <;>
    simp [GoalContext.loadGoals, hu, hdb, hst, hne, h, JsonDoc.arrayOrEmpty]

/-- C17 (amended), applied to a stored text that does not parse and to a stored
JSON object. -/
theorem C17_loadGoals_bad_stored_value_witness :
    (GoalContext.loadGoals samplePlatform sampleClock failedQuery
      { user := some sampleUser, dbInitialized := false,
        goals := [some [("id", .int 1)]],
        storage := emptyStorage.setItem (GoalContext.goalsKey samplePlatform sampleUser)
          (.malformed "not json") }).goals = [] ∧
    (GoalContext.loadGoals samplePlatform sampleClock failedQuery
      { user := some sampleUser, dbInitialized := false,
        goals := [some [("id", .int 1)]],
        storage := emptyStorage.setItem (GoalContext.goalsKey samplePlatform sampleUser)
          (.json (.object [("id", .int 1)])) }).goals = [] :=
  ⟨(C17_loadGoals_bad_stored_value samplePlatform sampleClock failedQuery _ sampleUser
      (.malformed "not json") rfl rfl (by simp [setItem_same]) (by decide) (Or.inl rfl)).1,
    (C17_loadGoals_bad_stored_value samplePlatform sampleClock failedQuery _ sampleUser
      (.json (.object [("id", .int 1)])) rfl rfl (by simp [setItem_same]) rfl
      (Or.inr (Or.inl ⟨_, rfl⟩))).1⟩

theorem sampleGoals_json (c : Clock) :
    ((GoalContext.sampleGoals c).map some).map (Option.map jsonRecord)
      = (GoalContext.sampleGoals c).map some := by
  have h : ∀ o ∈ GoalContext.sampleGoals c, jsonRecord o = o := by
    intro o ho
    simp only [GoalContext.sampleGoals, List.mem_cons, List.mem_singleton,
      List.not_mem_nil, or_false] at ho
    rcases ho with rfl | rfl <;> rfl
  rw [List.map_map]
  exact List.map_congr_left fun o ho => by simp [h o ho]

theorem loadGoals_local_seed (P : Platform) (c : Clock) (r : QueryResult) (s : GoalStore)
    (u : Obj) (hu : s.user = some u) (hdb : s.dbInitialized = false)
    (hst : s.storage (GoalContext.goalsKey P u) = none ∨
      ∃ t : StoredText, s.storage (GoalContext.goalsKey P u) = some t ∧ t.truthy = false) :
    GoalContext.loadGoals P c r s =
      { s with
        goals := (GoalContext.sampleGoals c).map some
        storage := s.storage.setItem (GoalContext.goalsKey P u)
          (stringifyArray ((GoalContext.sampleGoals c).map some))
        loading := false } := by
  rcases hst with h | ⟨t, h, ht⟩
  · simp [GoalContext.loadGoals, hu, hdb, h]
  · simp [GoalContext.loadGoals, hu, hdb, h, ht]

theorem loadGoals_local_truthy (P : Platform) (c : Clock) (r : QueryResult) (s : GoalStore)
    (u : Obj) (t : StoredText) (hu : s.user = some u) (hdb : s.dbInitialized = false)
    (hst : s.storage (GoalContext.goalsKey P u) = some t) (ht : t.truthy = true) :
    GoalContext.loadGoals P c r s =
      { s with
        goals := match t.parse with
          | some parsedGoals => parsedGoals.arrayOrEmpty
          | none => []
        loading := false } := by
  cases hp : t.parse <;> simp [GoalContext.loadGoals, hu, hdb, hst, ht, hp]

/-- C18 as stated is refuted: a value is stored under the user's key, the empty
string, and loadGoals still seeds the two example goals and overwrites it. -/
theorem C18_counterexample :
    (emptyStorage.setItem (GoalContext.goalsKey samplePlatform sampleUser) (.malformed ""))
      (GoalContext.goalsKey samplePlatform sampleUser) = some (.malformed "") ∧
    (GoalContext.loadGoals samplePlatform sampleClock failedQuery
      { user := some sampleUser, dbInitialized := false, goals := [],
        storage := emptyStorage.setItem (GoalContext.goalsKey samplePlatform sampleUser)
          (.malformed "") }).storage (GoalContext.goalsKey samplePlatform sampleUser)
      = some (stringifyArray ((GoalContext.sampleGoals sampleClock).map some)) ∧
    (GoalContext.loadGoals samplePlatform sampleClock failedQuery
      { user := some sampleUser, dbInitialized := false, goals := [],
        storage := emptyStorage.setItem (GoalContext.goalsKey samplePlatform sampleUser)
          (.malformed "") }).goals.length = 2 := by
  have h := loadGoals_local_seed samplePlatform sampleClock failedQuery
    { user := some sampleUser, dbInitialized := false, goals := [],
      storage := emptyStorage.setItem (GoalContext.goalsKey samplePlatform sampleUser)
        (.malformed "") } sampleUser rfl rfl
    (Or.inr ⟨.malformed "", by simp [setItem_same], rfl⟩)
  refine ⟨by simp [setItem_same], ?_, ?_⟩
  · rw [h]; simp [setItem_same]
  · rw [h]; rfl

/-- C18 (amended): in local-fallback mode with a logged-in user, loadGoals for a
user with no stored goals key (or with the empty string stored under it) seeds
exactly the two example goals and persists them under that key, touching no
other key; once a non-empty value is stored under the key, loadGoals leaves
the storage as it is and returns the stored array (the empty collection when
the value is not an array), never the seed; and loadGoals applied twice gives
the same state as applied once. -/
theorem C18_loadGoals_seeds_once (P : Platform) (c c' : Clock) (r r' : QueryResult)
    (s : GoalStore) (u : Obj) (hu : s.user = some u) (hdb : s.dbInitialized = false) :
    ((s.storage (GoalContext.goalsKey P u) = none ∨
        s.storage (GoalContext.goalsKey P u) = some (.malformed "")) →
      (GoalContext.loadGoals P c r s).goals = (GoalContext.sampleGoals c).map some ∧
      (GoalContext.sampleGoals c).length = 2 ∧
      (GoalContext.loadGoals P c r s).storage (GoalContext.goalsKey P u)
        = some (stringifyArray ((GoalContext.sampleGoals c).map some)) ∧
      ∀ k : String, k ≠ GoalContext.goalsKey P u →
        (GoalContext.loadGoals P c r s).storage k = s.storage k) ∧
    (∀ t : StoredText, s.storage (GoalContext.goalsKey P u) = some t → t.truthy = true →
      (GoalContext.loadGoals P c r s).storage = s.storage ∧
      (GoalContext.loadGoals P c r s).goals =
        match t.parse with
        | some parsedGoals => parsedGoals.arrayOrEmpty
        | none => []) ∧
    GoalContext.loadGoals P c' r' (GoalContext.loadGoals P c r s)
      = GoalContext.loadGoals P c r s := by
  refine ⟨?_, ?_, ?_⟩
  · intro h
    have hseed := loadGoals_local_seed P c r s u hu hdb (by
      rcases h with h | h
      · exact Or.inl h
      · exact Or.inr ⟨_, h, rfl⟩)
    rw [hseed]
    refine ⟨rfl, rfl, by simp [setItem_same], ?_⟩
    intro k hk
    simp [Storage.setItem, hk]
  · intro t hst ht
    rw [loadGoals_local_truthy P c r s u t hu hdb hst ht]
    exact ⟨rfl, rfl⟩
  · have hreseed : GoalContext.loadGoals P c' r'
          { s with
            goals := (GoalContext.sampleGoals c).map some
            storage := s.storage.setItem (GoalContext.goalsKey P u)
              (stringifyArray ((GoalContext.sampleGoals c).map some))
            loading := false }
        = { s with
            goals := (GoalContext.sampleGoals c).map some
            storage := s.storage.setItem (GoalContext.goalsKey P u)
              (stringifyArray ((GoalContext.sampleGoals c).map some))
            loading := false } := by
      rw [loadGoals_local_stored P c' r'
        { s with
          goals := (GoalContext.sampleGoals c).map some
          storage := s.storage.setItem (GoalContext.goalsKey P u)
            (stringifyArray ((GoalContext.sampleGoals c).map some))
          loading := false } u ((GoalContext.sampleGoals c).map some) hu hdb
        (setItem_same _ _ _), sampleGoals_json]
    cases hst : s.storage (GoalContext.goalsKey P u) with
    | none =>
      rw [loadGoals_local_seed P c r s u hu hdb (Or.inl hst)]
      exact hreseed
    | some t =>
      by_cases ht : t.truthy = true
      · rw [loadGoals_local_truthy P c r s u t hu hdb hst ht]
        rw [loadGoals_local_truthy P c' r'
          { s with
            goals := match t.parse with
              | some parsedGoals => parsedGoals.arrayOrEmpty
              | none => []
            loading := false } u t hu hdb hst ht]
      · have ht' : t.truthy = false := by simpa using ht
        rw [loadGoals_local_seed P c r s u hu hdb (Or.inr ⟨t, hst, ht'⟩)]
        exact hreseed

/-- C18 (amended), applied: a first load on an empty storage seeds, a second load
changes nothing. -/
theorem C18_loadGoals_seeds_once_witness :
    (GoalContext.loadGoals samplePlatform sampleClock failedQuery
      { user := some sampleUser, dbInitialized := false, goals := [],
        storage := emptyStorage }).goals = (GoalContext.sampleGoals sampleClock).map some ∧
    GoalContext.loadGoals samplePlatform sampleClock failedQuery
      (GoalContext.loadGoals samplePlatform sampleClock failedQuery
        { user := some sampleUser, dbInitialized := false, goals := [],
          storage := emptyStorage })
      = GoalContext.loadGoals samplePlatform sampleClock failedQuery
        { user := some sampleUser, dbInitialized := false, goals := [],
          storage := emptyStorage } :=
  ⟨((C18_loadGoals_seeds_once samplePlatform sampleClock sampleClock failedQuery failedQuery
      { user := some sampleUser, dbInitialized := false, goals := [],
        storage := emptyStorage } sampleUser rfl rfl).1 (Or.inl rfl)).1,
    (C18_loadGoals_seeds_once samplePlatform sampleClock sampleClock failedQuery failedQuery
      { user := some sampleUser, dbInitialized := false, goals := [],
        storage := emptyStorage } sampleUser rfl rfl).2.2⟩

/-! ## The persistence adapter (C19, C20) -/

/-- C19 as stated is refuted: a 2xx response whose JSON body is `null` makes
executeQuery return {success:false, error} (reading `result.data` throws and
is caught), not {success:true, data}. -/
theorem C19_counterexample :
    executeQuery (.response 200 (.nullValue "Cannot read properties of null (reading 'data')"))
      = { success := false,
          error := some "Cannot read properties of null (reading 'data')" } := by
  rfl

/-- C19 (amended): executeQuery returns a result for every outcome of the HTTP
call: {success:false, error} with the error's message for a network
exception, with 'HTTP s' for a status s outside 200..299, and with the thrown
error's message for a 2xx response whose body is unparsable or is the JSON
value null; {success:true, data} for a 2xx response with any other JSON body,
where data is the body's data field, or the empty list when that field is
missing or falsy. It reports success exactly in that last case. -/
theorem C19_executeQuery_total (outcome : HttpOutcome) :
    (∀ message : String, outcome = .networkError message →
      executeQuery outcome = { success := false, error := some message }) ∧
    (∀ (status : ℕ) (body : ResponseBody), outcome = .response status body →
      (status < 200 ∨ 299 < status) →
      executeQuery outcome = { success := false, error := some ("HTTP " ++ toString status) }) ∧
    (∀ (status : ℕ) (message : String), 200 ≤ status → status ≤ 299 →
      (outcome = .response status (.unparsable message) ∨
        outcome = .response status (.nullValue message)) →
      executeQuery outcome = { success := false, error := some message }) ∧
    (∀ (status : ℕ) (rows : List Obj), 200 ≤ status → status ≤ 299 →
      outcome = .response status (.value (some rows)) →
      executeQuery outcome = { success := true, data := rows }) ∧
    (∀ status : ℕ, 200 ≤ status → status ≤ 299 →
      outcome = .response status (.value none) →
      executeQuery outcome = { success := true, data := [] }) ∧
    ((executeQuery outcome).success = true ↔
      ∃ (status : ℕ) (data : Option (List Obj)), 200 ≤ status ∧ status ≤ 299 ∧
        outcome = .response status (.value data)) ∧
    executeQuery (.response 500 (.value none))
      = { success := false, error := some "HTTP 500" } := by
  refine ⟨?_, ?_, ?_, ?_, ?_, ?_, ?_⟩
  · rintro message rfl
    rfl
  · rintro status body rfl hs
    have : HttpOutcome.statusOk status = false := by
      simp only [HttpOutcome.statusOk, Bool.and_eq_false_iff, decide_eq_false_iff_not]
      omega
    simp [executeQuery, this]
  · rintro status message h1 h2 (rfl | rfl) <;>
      simp [executeQuery, HttpOutcome.statusOk, h1, h2]
  · rintro status rows h1 h2 rfl
    simp [executeQuery, HttpOutcome.statusOk, h1, h2]
  · rintro status h1 h2 rfl
    simp [executeQuery, HttpOutcome.statusOk, h1, h2]
  · constructor
    · intro h
      cases outcome with
      | networkError message => simp [executeQuery] at h
      | response status body =>
        by_cases hok : HttpOutcome.statusOk status = true
        · have hb : 200 ≤ status ∧ status ≤ 299 := by
            simpa [HttpOutcome.statusOk] using hok
          cases body with
          | unparsable message => simp [executeQuery, hok] at h
          | nullValue message => simp [executeQuery, hok] at h
          | value data => exact ⟨status, data, hb.1, hb.2, rfl⟩
        · have hok' : HttpOutcome.statusOk status = false := by simpa using hok
          simp [executeQuery, hok'] at h
    · rintro ⟨status, data, h1, h2, rfl⟩
      cases data <;> simp [executeQuery, HttpOutcome.statusOk, h1, h2]
  · decide

theorem createTables_spec (run : Statement → QueryResult) (l : List Statement) :
    ((createTables run l).1.success = true ↔ ∀ q ∈ l, (run q).success = true) ∧
    ((createTables run l).1.success = true →
      (createTables run l).1 = { success := true } ∧ (createTables run l).2 = l) ∧
    ((createTables run l).1.success = false →
      (createTables run l).1
        = { success := false, error := some "Database unavailable, using localStorage" } ∧
      ∃ (before : List Statement) (q : Statement) (after : List Statement),
        l = before ++ q :: after ∧ (createTables run l).2 = before ++ [q] ∧
        (run q).success = false ∧ ∀ q' ∈ before, (run q').success = true) := by
  induction l with
  | nil => simp [createTables]
  | cons q rest ih =>
    obtain ⟨ih1, ih2, ih3⟩ := ih
    by_cases hq : (run q).success = true
    · have hstep : createTables run (q :: rest)
          = ((createTables run rest).1, q :: (createTables run rest).2) := by
        simp [createTables, hq]
      rw [hstep]
      refine ⟨?_, ?_, ?_⟩
      · simp [ih1, hq]
      · intro h
        obtain ⟨h1, h2⟩ := ih2 h
        exact ⟨h1, by simp [h2]⟩
      · intro h
        obtain ⟨h1, before, q', after, hl, ht, hf, hb⟩ := ih3 h
        refine ⟨h1, q :: before, q', after, by simp [hl], by simp [ht], hf, ?_⟩
        intro x hx
        rcases List.mem_cons.mp hx with rfl | hx
        · exact hq
        · exact hb x hx
    · have hq' : (run q).success = false := by simpa using hq
      have hstep : createTables run (q :: rest)
          = ({ success := false, error := some "Database unavailable, using localStorage" },
              [q]) := by
        simp [createTables, hq']
      rw [hstep]
      refine ⟨?_, ?_, ?_⟩
      · simp [hq']
      · intro h; simp at h
      · intro _
        exact ⟨rfl, [], q, rest, rfl, rfl, hq', by simp⟩

/-- C20: initializeDatabase returns success:true exactly when the schema statement
and the six table statements all succeed, and then it has issued all seven in
order; otherwise it reports failure, and the statements it issued are an
initial segment of the seven ending with the first failing one, every
statement before it having succeeded. It always returns a result. -/
theorem C20_initializeDatabase (run : Statement → QueryResult) :
    tables.length = 6 ∧
    ((initializeDatabase run).1.success = true ↔
      ∀ q ∈ Statement.createSchema :: tables, (run q).success = true) ∧
    ((initializeDatabase run).1.success = true →
      (initializeDatabase run).1 = { success := true } ∧
      (initializeDatabase run).2 = Statement.createSchema :: tables) ∧
    ((initializeDatabase run).1.success = false →
      (initializeDatabase run).1.error.isSome = true ∧
      ∃ (before : List Statement) (q : Statement) (after : List Statement),
        Statement.createSchema :: tables = before ++ q :: after ∧
        (initializeDatabase run).2 = before ++ [q] ∧
        (run q).success = false ∧ ∀ q' ∈ before, (run q').success = true) := by
  obtain ⟨h1, h2, h3⟩ := createTables_spec run tables
  by_cases hs : (run .createSchema).success = true
  · have hstep : initializeDatabase run
        = ((createTables run tables).1, .createSchema :: (createTables run tables).2) := by
      simp [initializeDatabase, hs]
    rw [hstep]
    refine ⟨rfl, ?_, ?_, ?_⟩
    · simp [h1, hs]
    · intro h
      obtain ⟨ha, hb⟩ := h2 h
      exact ⟨ha, by simp [hb]⟩
    · intro h
      obtain ⟨ha, before, q, after, hl, ht, hf, hb⟩ := h3 h
      refine ⟨by simp [ha], .createSchema :: before, q, after, by simp [hl], by simp [ht], hf, ?_⟩
      intro x hx
      rcases List.mem_cons.mp hx with rfl | hx
      · exact hs
      · exact hb x hx
  · have hs' : (run .createSchema).success = false := by simpa using hs
    have hstep : initializeDatabase run
        = ({ success := false, error := some "Schema creation failed, using localStorage" },
            [.createSchema]) := by
      simp [initializeDatabase, hs']
    rw [hstep]
    refine ⟨rfl, ?_, ?_, ?_⟩
    · simp [hs']
    · intro h; simp at h
    · intro _
      exact ⟨rfl, [], .createSchema, tables, rfl, rfl, hs', by simp⟩

/-! ## The auth context (C21, C22, C23, C29) -/

theorem login_fallback (c : Clock) (exec : List JSValue → QueryResult) (s : AuthStore)
    (email : String) (password : JSValue)
    (h : s.dbInitialized = false ∨
      (Database.getUserByEmail exec (.string email)).success = false) :
    AuthContext.login c exec s (.string email) password =
      AuthContext.signIn s
        [("id", .int c.now), ("email", .string email),
         ("name", .string (AuthContext.splitAtSign email)),
         ("onboarding_completed", .bool false)] := by
  unfold AuthContext.login
  rcases h with h | h
  · simp [h]
  · cases hr : Database.getUserByEmail exec (.string email) with
    | mk success user error =>
      rw [hr] at h
      simp only at h
      subst h
      cases s.dbInitialized <;> simp

theorem register_local (P : Platform) (c : Clock) (exec : List JSValue → QueryResult)
    (s : AuthStore) (name email password : JSValue) (h : s.dbInitialized = false) :
    AuthContext.register P c exec s name email password =
      AuthContext.signIn s
        [("id", .int c.now), ("email", email), ("name", name),
         ("onboarding_completed", .bool false)] := by
  simp [AuthContext.register, h]

theorem register_remote_failed (P : Platform) (c : Clock) (exec : List JSValue → QueryResult)
    (s : AuthStore) (name email password : JSValue) (passwordHash : String)
    (h : s.dbInitialized = true) (hb : btoa (password.toStr P) = some passwordHash)
    (hq : (exec [email, name, .string passwordHash]).success = false ∨
      (exec [email, name, .string passwordHash]).data = []) :
    AuthContext.register P c exec s name email password =
      AuthContext.signIn s
        [("id", .int c.now), ("email", email), ("name", name),
         ("onboarding_completed", .bool false)] := by
  rcases hq with hq | hq
  · simp [AuthContext.register, h, hb, Database.createUser, hq, Obj.get_cons, JSValue.or,
      JSValue.truthy]
  · cases hs : (exec [email, name, .string passwordHash]).success <;>
      simp [AuthContext.register, h, hb, Database.createUser, hq, hs, Obj.get_cons, JSValue.or,
        JSValue.truthy]

theorem signIn_slot (s : AuthStore) (id : ℤ) (email name : String) :
    (AuthContext.signIn s
        [("id", .int id), ("email", .string email), ("name", .string name),
         ("onboarding_completed", .bool false)]).1.storage "goalTracker_user" =
      some (.json (.object
        [("id", .int id), ("email", .string email), ("name", .string name),
         ("onboarding_completed", .bool false)])) := by
  simp [AuthContext.signIn, Storage.setItem, stringifyRecord, jsonRecord, jsonValue,
    JSValue.int]

/-- Where login and register do fall back: for every email, name and password
string, when dbInitialized is false or getUserByEmail does not succeed, login
returns success true with the local user record (id = current timestamp, the
given email, name = the text before the first at-sign of the email,
onboarding_completed false), sets it as current user and writes that same
record to the session slot; and when dbInitialized is false, or it is true,
btoa accepts the password and the INSERT of createUser fails or returns no
row, register does the same with the given name. -/
theorem login_register_fallback (P : Platform) (c : Clock)
    (exec : List JSValue → QueryResult) (s : AuthStore) (email name password : String) :
    ((s.dbInitialized = false ∨
        (Database.getUserByEmail exec (.string email)).success = false) →
      (AuthContext.login c exec s (.string email) (.string password)).2 =
        { success := true,
          user := some [("id", .int c.now), ("email", .string email),
            ("name", .string (AuthContext.splitAtSign email)),
            ("onboarding_completed", .bool false)] } ∧
      (AuthContext.login c exec s (.string email) (.string password)).1.user =
        .object [("id", .int c.now), ("email", .string email),
          ("name", .string (AuthContext.splitAtSign email)),
          ("onboarding_completed", .bool false)] ∧
      (AuthContext.login c exec s (.string email) (.string password)).1.storage
          "goalTracker_user" =
        some (.json (.object [("id", .int c.now), ("email", .string email),
          ("name", .string (AuthContext.splitAtSign email)),
          ("onboarding_completed", .bool false)]))) ∧
    ((s.dbInitialized = false ∨
        ∃ passwordHash : String, btoa password = some passwordHash ∧
          ((exec [.string email, .string name, .string passwordHash]).success = false ∨
            (exec [.string email, .string name, .string passwordHash]).data = [])) →
      (AuthContext.register P c exec s (.string name) (.string email) (.string password)).2 =
        { success := true,
          user := some [("id", .int c.now), ("email", .string email),
            ("name", .string name), ("onboarding_completed", .bool false)] } ∧
      (AuthContext.register P c exec s (.string name) (.string email)
          (.string password)).1.user =
        .object [("id", .int c.now), ("email", .string email),
          ("name", .string name), ("onboarding_completed", .bool false)] ∧
      (AuthContext.register P c exec s (.string name) (.string email)
          (.string password)).1.storage "goalTracker_user" =
        some (.json (.object [("id", .int c.now), ("email", .string email),
          ("name", .string name), ("onboarding_completed", .bool false)]))) := by
  refine ⟨?_, ?_⟩
  · intro h
    rw [login_fallback c exec s email (.string password) h]
    exact ⟨rfl, rfl, signIn_slot s c.now email _⟩
  · intro h
    have hreg : AuthContext.register P c exec s (.string name) (.string email)
        (.string password) =
        AuthContext.signIn s
          [("id", .int c.now), ("email", .string email), ("name", .string name),
           ("onboarding_completed", .bool false)] := by
      by_cases hdb : s.dbInitialized = false
      · exact register_local P c exec s _ _ _ hdb
      · rcases h with h | ⟨passwordHash, hb, hq⟩
        · exact absurd h hdb
        · exact register_remote_failed P c exec s _ _ _ passwordHash (by simpa using hdb)
            (by simpa [JSValue.toStr] using hb) hq
    rw [hreg]
    exact ⟨rfl, rfl, signIn_slot s c.now email name⟩

/-- C21, the code at the failing input: dbInitialized is true and every query
fails. For every name, email, current user and storage, register with the
password "π" returns success false with the error "Registration failed" and
leaves user and storage as they were: btoa throws on a character above U+00FF
before createUser is called, and the catch block skips the local fallback that
follows. For the same password every sibling path does fall back: login in the
same state returns success true with the local user record, register with
dbInitialized false returns success true with the given name, and createUser
itself, given any hash, answers a failed INSERT with a locally built user. -/
theorem C21_register_skips_fallback (P : Platform) (c : Clock) (user : JsonDoc)
    (st : Storage) (name email : String) :
    btoa "π" = none ∧
    (AuthContext.register P c (fun _ => failedQuery)
      { user := user, dbInitialized := true, storage := st }
      (.string name) (.string email) (.string "π")).2 =
      { success := false, error := some "Registration failed" } ∧
    (AuthContext.register P c (fun _ => failedQuery)
      { user := user, dbInitialized := true, storage := st }
      (.string name) (.string email) (.string "π")).1.user = user ∧
    (AuthContext.register P c (fun _ => failedQuery)
      { user := user, dbInitialized := true, storage := st }
      (.string name) (.string email) (.string "π")).1.storage = st ∧
    (AuthContext.login c (fun _ => failedQuery)
      { user := user, dbInitialized := true, storage := st }
      (.string email) (.string "π")).2 =
      { success := true,
        user := some [("id", .int c.now), ("email", .string email),
          ("name", .string (AuthContext.splitAtSign email)),
          ("onboarding_completed", .bool false)] } ∧
    (AuthContext.register P c (fun _ => failedQuery)
      { user := user, dbInitialized := false, storage := st }
      (.string name) (.string email) (.string "π")).2 =
      { success := true,
        user := some [("id", .int c.now), ("email", .string email),
          ("name", .string name), ("onboarding_completed", .bool false)] } ∧
    (∀ passwordHash : JSValue,
      Database.createUser c (fun _ => failedQuery) (.string email) (.string name) passwordHash =
        [("id", .int c.now), ("email", .string email), ("name", .string name),
         ("onboarding_completed", .bool false), ("created_at", .string (c.iso 0))]) := by
  have hb : btoa "π" = none := by decide
  refine ⟨hb, ?_, ?_, ?_, ?_, ?_, ?_⟩
  · simp [AuthContext.register, JSValue.toStr, hb]
  · simp [AuthContext.register, JSValue.toStr, hb]
  · simp [AuthContext.register, JSValue.toStr, hb]
  · rw [login_fallback c (fun _ => failedQuery) _ email (.string "π") (Or.inr rfl)]
    rfl
  · rw [register_local P c (fun _ => failedQuery) _ _ _ _ rfl]
    rfl
  · intro passwordHash
    rfl

theorem login_storage_frame (c : Clock) (exec : List JSValue → QueryResult) (s : AuthStore)
    (email password : JSValue) (k : String) (hk : k ≠ "goalTracker_user") :
    (AuthContext.login c exec s email password).1.storage k = s.storage k := by
  cases hr : Database.getUserByEmail exec email with
  | mk success user error =>
    cases hdb : s.dbInitialized <;> cases success <;> cases user <;> cases email <;>
      simp [AuthContext.login, hr, hdb, AuthContext.signIn, Storage.setItem, hk]

theorem loadGoals_goals_congr (P : Platform) (c : Clock) (r : QueryResult) (u u' : Obj)
    (goals : List Entry) (dbInitialized : Bool) (st st' : Storage)
    (hk : GoalContext.goalsKey P u' = GoalContext.goalsKey P u)
    (hst : st' (GoalContext.goalsKey P u) = st (GoalContext.goalsKey P u)) :
    (GoalContext.loadGoals P c r
      { user := some u', dbInitialized := dbInitialized, goals := goals, storage := st' }).goals =
    (GoalContext.loadGoals P c r
      { user := some u, dbInitialized := dbInitialized, goals := goals, storage := st }).goals := by
  cases dbInitialized
  · simp only [GoalContext.loadGoals, Bool.not_false, if_true, hk, hst]
    cases st (GoalContext.goalsKey P u) with
    | none => rfl
    | some t =>
      simp only []
      by_cases ht : t.truthy = true
      · simp only [ht, if_true]
        cases t.parse <;> rfl
      · simp only [ht]
        rfl
  · simp [GoalContext.loadGoals]

/-- C22: logout sets the current user to null and removes the session slot
goalTracker_user; every other stored key keeps its value, in particular the
key goalTracker_goals_<userId> of every user; and after any following login
that returns a user with the same id as a user u, loadGoals recovers for that
user exactly the goals it gave for u before the logout. -/
theorem C22_logout_clears_only_session (P : Platform) (s : AuthStore) :
    (AuthContext.logout s).user = .scalar .null ∧
    (AuthContext.logout s).storage "goalTracker_user" = none ∧
    (∀ k : String, k ≠ "goalTracker_user" → (AuthContext.logout s).storage k = s.storage k) ∧
    (∀ u : Obj, (AuthContext.logout s).storage (GoalContext.goalsKey P u)
      = s.storage (GoalContext.goalsKey P u)) ∧
    (∀ (c c' : Clock) (exec : List JSValue → QueryResult) (r : QueryResult)
      (email password : JSValue) (u u' : Obj) (goals : List Entry) (dbInitialized : Bool),
      (AuthContext.login c' exec (AuthContext.logout s) email password).2.user = some u' →
      Obj.get u' "id" = Obj.get u "id" →
      (GoalContext.loadGoals P c r
        { user := some u', dbInitialized := dbInitialized, goals := goals,
          storage := (AuthContext.login c' exec (AuthContext.logout s) email password).1.storage
        }).goals =
      (GoalContext.loadGoals P c r
        { user := some u, dbInitialized := dbInitialized, goals := goals,
          storage := s.storage }).goals) := by
  have hframe : ∀ k : String, k ≠ "goalTracker_user" →
      (AuthContext.logout s).storage k = s.storage k := by
    intro k hk
    simp [AuthContext.logout, Storage.removeItem, hk]
  refine ⟨rfl, by simp [AuthContext.logout, Storage.removeItem], hframe, ?_, ?_⟩
  · intro u
    exact hframe _ (goalsKey_ne_userKey _)
  · intro c c' exec r email password u u' goals dbInitialized _ hid
    apply loadGoals_goals_congr
    · simp [GoalContext.goalsKey, hid]
    · have hne : GoalContext.goalsKey P u ≠ "goalTracker_user" := goalsKey_ne_userKey _
      rw [login_storage_frame c' exec _ email password (GoalContext.goalsKey P u) hne]
      exact hframe _ hne

/-- C22, applied: a local user with one stored goal logs out and logs in again
at a clock reading equal to the old id; loadGoals gives the same goals as
before the logout. -/
theorem C22_logout_clears_only_session_witness :
    (AuthContext.login { now := 1704067100000, iso := sampleClock.iso } (fun _ => failedQuery)
      (AuthContext.logout
        { user := .object sampleUser, dbInitialized := false,
          storage := (emptyStorage.setItem "goalTracker_user" (stringifyRecord sampleUser)).setItem
            (GoalContext.goalsKey samplePlatform sampleUser)
            (stringifyArray [some [("id", .int 5), ("title", .string "Run")]]) })
      (.string "a@b.c") (.string "pw")).2.user =
      some [("id", .int 1704067100000), ("email", .string "a@b.c"),
        ("name", .string (AuthContext.splitAtSign "a@b.c")),
        ("onboarding_completed", .bool false)] ∧
    (GoalContext.loadGoals samplePlatform sampleClock failedQuery
      { user := some [("id", .int 1704067100000), ("email", .string "a@b.c"),
          ("name", .string (AuthContext.splitAtSign "a@b.c")),
          ("onboarding_completed", .bool false)],
        dbInitialized := false, goals := [],
        storage := (AuthContext.login { now := 1704067100000, iso := sampleClock.iso }
          (fun _ => failedQuery)
          (AuthContext.logout
            { user := .object sampleUser, dbInitialized := false,
              storage := (emptyStorage.setItem "goalTracker_user"
                (stringifyRecord sampleUser)).setItem
                (GoalContext.goalsKey samplePlatform sampleUser)
                (stringifyArray [some [("id", .int 5), ("title", .string "Run")]]) })
          (.string "a@b.c") (.string "pw")).1.storage }).goals =
    (GoalContext.loadGoals samplePlatform sampleClock failedQuery
      { user := some sampleUser, dbInitialized := false, goals := [],
        storage := (emptyStorage.setItem "goalTracker_user" (stringifyRecord sampleUser)).setItem
          (GoalContext.goalsKey samplePlatform sampleUser)
          (stringifyArray [some [("id", .int 5), ("title", .string "Run")]]) }).goals :=
  ⟨rfl,
    (C22_logout_clears_only_session samplePlatform
      { user := .object sampleUser, dbInitialized := false,
        storage := (emptyStorage.setItem "goalTracker_user" (stringifyRecord sampleUser)).setItem
          (GoalContext.goalsKey samplePlatform sampleUser)
          (stringifyArray [some [("id", .int 5), ("title", .string "Run")]]) }).2.2.2.2
      sampleClock { now := 1704067100000, iso := sampleClock.iso } (fun _ => failedQuery)
      failedQuery (.string "a@b.c") (.string "pw") sampleUser _ [] false rfl rfl⟩

/-- C23 as stated is refuted: the session slot holds the empty string, which
JSON.parse rejects, and after initializeAuth the slot still holds it (the test
on the saved value skips an empty string, so nothing is removed). -/
theorem C23_counterexample :
    (StoredText.malformed "").parse = none ∧
    (AuthContext.initializeAuth (.returned { success := true })
      { user := .scalar .null, dbInitialized := false,
        storage := emptyStorage.setItem "goalTracker_user" (.malformed "") }).storage
      "goalTracker_user" = some (.malformed "") :=
  ⟨rfl, by decide⟩

/-- C23 (amended): initializeAuth always ends with loading false and with
dbInitialized equal to the success flag initializeDatabase returned (false if
it threw). When initializeDatabase returned: a slot holding a JSON text makes
the parsed value the current user and leaves the storage alone; a slot holding
a non-empty text that does not parse leaves the user as it was and removes the
slot; an absent slot or a slot holding the empty string leaves user and storage
as they were. When initializeDatabase threw, user and storage stay as they
were. -/
theorem C23_initializeAuth (dbResult : Completion OpResult) (s : AuthStore) :
    (AuthContext.initializeAuth dbResult s).loading = false ∧
    (AuthContext.initializeAuth dbResult s).dbInitialized =
      (match dbResult with
        | .returned r => r.success
        | .threw => false) ∧
    (∀ r : OpResult, dbResult = .returned r →
      (∀ d : JsonDoc, s.storage "goalTracker_user" = some (.json d) →
        (AuthContext.initializeAuth dbResult s).user = d ∧
        (AuthContext.initializeAuth dbResult s).storage = s.storage) ∧
      (∀ t : String, s.storage "goalTracker_user" = some (.malformed t) → t ≠ "" →
        (AuthContext.initializeAuth dbResult s).user = s.user ∧
        (AuthContext.initializeAuth dbResult s).storage
          = s.storage.removeItem "goalTracker_user" ∧
        (AuthContext.initializeAuth dbResult s).storage "goalTracker_user" = none) ∧
      ((s.storage "goalTracker_user" = none ∨
          s.storage "goalTracker_user" = some (.malformed "")) →
        (AuthContext.initializeAuth dbResult s).user = s.user ∧
        (AuthContext.initializeAuth dbResult s).storage = s.storage)) ∧
    (dbResult = .threw →
      (AuthContext.initializeAuth dbResult s).user = s.user ∧
      (AuthContext.initializeAuth dbResult s).storage = s.storage) := by
  cases dbResult with
  | threw =>
    refine ⟨rfl, rfl, ?_, fun _ => ⟨rfl, rfl⟩⟩
    intro r h
    cases h
  | returned r =>
    refine ⟨?_, ?_, ?_, ?_⟩
    · simp only [AuthContext.initializeAuth]
      split
      · rfl
      · split
        · split <;> rfl
        · rfl
    · simp only [AuthContext.initializeAuth]
      split
      · rfl
      · split
        · split <;> rfl
        · rfl
    · intro r' _
      refine ⟨?_, ?_, ?_⟩
      · intro d hd
        simp [AuthContext.initializeAuth, hd, StoredText.truthy, StoredText.parse]
      · intro t ht hne
        simp [AuthContext.initializeAuth, ht, StoredText.truthy, StoredText.parse, hne,
          Storage.removeItem]
      · intro h
        rcases h with h | h <;>
          simp [AuthContext.initializeAuth, h, StoredText.truthy]
    · intro h
      cases h

/-- C23 (amended), applied: a saved session record is restored, and a saved text
that does not parse is removed. -/
theorem C23_initializeAuth_witness :
    (AuthContext.initializeAuth (.returned { success := true })
      { user := .scalar .null, dbInitialized := false,
        storage := emptyStorage.setItem "goalTracker_user" (.json (.object sampleUser)) }).user
      = .object sampleUser ∧
    (AuthContext.initializeAuth (.returned { success := true })
      { user := .scalar .null, dbInitialized := false,
        storage := emptyStorage.setItem "goalTracker_user" (.malformed "not json") }).storage
      "goalTracker_user" = none :=
  ⟨(((C23_initializeAuth (.returned { success := true })
      { user := .scalar .null, dbInitialized := false,
        storage := emptyStorage.setItem "goalTracker_user" (.json (.object sampleUser)) }).2.2.1
      { success := true } rfl).1 (.object sampleUser) (by simp [setItem_same])).1,
    (((C23_initializeAuth (.returned { success := true })
      { user := .scalar .null, dbInitialized := false,
        storage := emptyStorage.setItem "goalTracker_user" (.malformed "not json") }).2.2.1
      { success := true } rfl).2.1 "not json" (by simp [setItem_same]) (by decide)).2.2⟩

theorem login_user_field (c : Clock) (exec : List JSValue → QueryResult) (s : AuthStore)
    (email password : JSValue) (k : String) (hk : k ≠ "id") :
    ((AuthContext.login c exec s email password).2.success,
      (AuthContext.login c exec s email password).2.user.map (fun user => Obj.get user k)) =
    ((AuthContext.login sampleClock exec s email (.string "")).2.success,
      (AuthContext.login sampleClock exec s email (.string "")).2.user.map
        (fun user => Obj.get user k)) := by
  cases hr : Database.getUserByEmail exec email with
  | mk success user error =>
    cases hdb : s.dbInitialized <;> cases success <;> cases user <;> cases email <;>
      simp [AuthContext.login, hr, hdb, AuthContext.signIn, Obj.get_cons, Ne.symm hk]

/-- C29: the result of login does not depend on the password. For every
clock reading, database response, state, email and passwords p1 and p2,
login(email, p1) and login(email, p2) return the same record and leave the same
state (same current user, same session record); at two different clock
readings they still return the same success flag and the same user fields
other than id; and replacing the password_hash column of every returned row by
any value changes nothing, so the stored hash is never compared. -/
theorem C29_login_ignores_password (c : Clock) (exec : List JSValue → QueryResult)
    (s : AuthStore) (email p1 p2 : JSValue) :
    AuthContext.login c exec s email p1 = AuthContext.login c exec s email p2 ∧
    (∀ (c' : Clock) (k : String), k ≠ "id" →
      (AuthContext.login c exec s email p1).2.success
        = (AuthContext.login c' exec s email p2).2.success ∧
      (AuthContext.login c exec s email p1).2.user.map (fun user => Obj.get user k)
        = (AuthContext.login c' exec s email p2).2.user.map (fun user => Obj.get user k)) ∧
    (∀ passwordHash : JSValue,
      AuthContext.login c
        (fun params =>
          { exec params with
            data := (exec params).data.map fun row => Obj.set row "password_hash" passwordHash })
        s email p1
      = AuthContext.login c exec s email p1) := by
  refine ⟨rfl, ?_, ?_⟩
  · intro c' k hk
    have h1 := login_user_field c exec s email p1 k hk
    have h2 := login_user_field c' exec s email p2 k hk
    have h := h1.trans h2.symm
    exact ⟨congrArg Prod.fst h, congrArg Prod.snd h⟩
  · intro passwordHash
    unfold AuthContext.login Database.getUserByEmail
    cases hs : (exec [email]).success <;> cases hd : (exec [email]).data <;>
      simp [hs, hd, Obj.get_set_of_ne]

/-- C29, applied: with the database marked ready and a stored row for the
email, login with the password "right" and login with the password "wrong"
return the same record. -/
theorem C29_login_ignores_password_witness :
    (AuthContext.login sampleClock
      (fun _ => { success := true, data := [[("id", .int 3), ("email", .string "a@b.c"),
        ("name", .string "Ann"), ("password_hash", .string "cmlnaHQ="),
        ("onboarding_completed", .bool true)]] })
      { user := .scalar .null, dbInitialized := true, storage := emptyStorage }
      (.string "a@b.c") (.string "right")).2 =
    (AuthContext.login sampleClock
      (fun _ => { success := true, data := [[("id", .int 3), ("email", .string "a@b.c"),
        ("name", .string "Ann"), ("password_hash", .string "cmlnaHQ="),
        ("onboarding_completed", .bool true)]] })
      { user := .scalar .null, dbInitialized := true, storage := emptyStorage }
      (.string "a@b.c") (.string "wrong")).2 :=
  congrArg Prod.snd (C29_login_ignores_password sampleClock
    (fun _ => { success := true, data := [[("id", .int 3), ("email", .string "a@b.c"),
      ("name", .string "Ann"), ("password_hash", .string "cmlnaHQ="),
      ("onboarding_completed", .bool true)]] })
    { user := .scalar .null, dbInitialized := true, storage := emptyStorage }
    (.string "a@b.c") (.string "right") (.string "wrong")).1

/-! ## The suggestion generator (C24, C25) -/

theorem allSuggestions_nodup : AISuggestions.allSuggestions.Nodup := by decide

theorem allSuggestions_fields :
    ∀ s ∈ AISuggestions.allSuggestions,
      (Obj.get s "title").isString = true ∧ (Obj.get s "title").truthy = true ∧
      Obj.get s "goal_type" ∈
        [JSValue.string "daily", JSValue.string "weekly", JSValue.string "yearly"] ∧
      (((Obj.get s "season").isString = true ∧ (Obj.get s "season").truthy = true) ∨
        Obj.get s "season" = .undefined) := by
  decide

theorem allSuggestions_core :
    (AISuggestions.allSuggestions.filter fun s =>
      !(Obj.get s "timeContext").truthy && !(Obj.get s "season").truthy).length = 6 := by
  decide

theorem strictEq_of_isString (a v : JSValue) (ha : a.isString = true)
    (h : a.strictEq v = true) : a = v := by
  cases a <;> cases v <;> simp_all [JSValue.isString, JSValue.strictEq]

/-- The list `getFallbackContextualSuggestions` sorts and slices: the suggestions
left by the two filters. -/
theorem contextual_filtered (sort : List Obj → List Obj) (userContext : Entry) :
    ∃ filtered : List Obj,
      AISuggestions.getFallbackContextualSuggestions sort userContext = (sort filtered).take 3 ∧
      filtered.Sublist AISuggestions.allSuggestions ∧
      6 ≤ filtered.length ∧
      ∀ s ∈ filtered,
        (!(Obj.get s "season").truthy ||
          (Obj.get s "season").strictEq
            ((AISuggestions.optionalGet userContext "season").or (.string "spring"))) = true := by
  have hseason : ((AISuggestions.optionalGet userContext "season").or (.string "spring")).truthy
      = true := by
    unfold JSValue.or
    split
    · assumption
    · rfl
  have hcore := allSuggestions_core
  by_cases htime :
      (((AISuggestions.optionalGet userContext "timeOfDay").or (.string "morning")).truthy &&
        !((AISuggestions.optionalGet userContext "timeOfDay").or
          (.string "morning")).strictEq (.string "morning")) = true
  · refine ⟨_, (by
      simp only [AISuggestions.getFallbackContextualSuggestions, htime, hseason, if_true]
      rfl), ?_, ?_, ?_⟩
    · exact (List.filter_sublist _).trans (List.filter_sublist _)
    · rw [List.filter_filter, ← hcore]
      apply List.Sublist.length_le
      apply List.monotone_filter_right
      intro s hs
      simp only [Bool.and_eq_true, Bool.not_eq_true'] at hs
      simp [hs.1, hs.2]
    · intro s hs
      exact (List.mem_filter.mp hs).2
  · refine ⟨_, (by
      simp only [AISuggestions.getFallbackContextualSuggestions, htime, hseason, if_true,
        if_false, Bool.false_eq_true]
      rfl), ?_, ?_, ?_⟩
    · exact List.filter_sublist _
    · rw [← hcore]
      apply List.Sublist.length_le
      apply List.monotone_filter_right
      intro s hs
      simp only [Bool.and_eq_true, Bool.not_eq_true'] at hs
      simp [hs.2]
    · intro s hs
      exact (List.mem_filter.mp hs).2

/-- C24 as stated is refuted: the context has no season, the sort happens to
reverse the filtered list, and the first returned item is the one that carries
the season spring. -/
theorem C24_counterexample :
    AISuggestions.optionalGet (some [("timeOfDay", .string "morning")]) "season" = .undefined ∧
    (∀ l : List Obj, (List.reverse l).Perm l) ∧
    (AISuggestions.getContextualSuggestions List.reverse
      (some [("timeOfDay", .string "morning")]) []).map
        (fun s => (Obj.get s "title", Obj.get s "season")) =
      [(.string "Spring Garden Project", .string "spring"),
       (.string "Master a New Skill", .undefined),
       (.string "Complete a Fitness Challenge", .undefined)] :=
  ⟨by decide, fun l => List.reverse_perm l, by decide⟩

/-- C24 (amended): for every user context (undefined, or a record with any
timeOfDay and season values) and every permutation the random sort may produce,
getContextualSuggestions returns exactly 3 items of its table, pairwise
distinct, each with a non-empty string title and goal_type daily, weekly or
yearly, and each returned item either carries no season or carries the
effective season, which is the season of the context when that is truthy and
spring otherwise. -/
theorem C24_contextual_suggestions (sort : List Obj → List Obj)
    (hsort : ∀ l : List Obj, (sort l).Perm l) (userContext : Entry)
    (existingGoals : List Entry) :
    (AISuggestions.getContextualSuggestions sort userContext existingGoals).length = 3 ∧
    (AISuggestions.getContextualSuggestions sort userContext existingGoals).Nodup ∧
    (∀ s ∈ AISuggestions.getContextualSuggestions sort userContext existingGoals,
      s ∈ AISuggestions.allSuggestions ∧
      (Obj.get s "title").isString = true ∧ (Obj.get s "title").truthy = true ∧
      Obj.get s "goal_type" ∈
        [JSValue.string "daily", JSValue.string "weekly", JSValue.string "yearly"] ∧
      (Obj.get s "season" = .undefined ∨
        Obj.get s "season" =
          (AISuggestions.optionalGet userContext "season").or (.string "spring"))) := by
  obtain ⟨filtered, hres, hsub, hlen, hfil⟩ := contextual_filtered sort userContext
  unfold AISuggestions.getContextualSuggestions
  rw [hres]
  have hperm := hsort filtered
  refine ⟨?_, ?_, ?_⟩
  · rw [List.length_take, hperm.length_eq]
    omega
  · exact ((hperm.nodup_iff).mpr (allSuggestions_nodup.sublist hsub)).sublist
      (List.take_sublist _ _)
  · intro s hs
    have hmem : s ∈ filtered := hperm.subset (List.mem_of_mem_take hs)
    have hall : s ∈ AISuggestions.allSuggestions := hsub.subset hmem
    obtain ⟨h1, h2, h3, h4⟩ := allSuggestions_fields s hall
    refine ⟨hall, h1, h2, h3, ?_⟩
    rcases h4 with ⟨hstr, htr⟩ | h4
    · have hf := hfil s hmem
      simp only [Bool.or_eq_true, Bool.not_eq_true'] at hf
      rcases hf with hf | hf
      · rw [htr] at hf
        cases hf
      · exact Or.inr (strictEq_of_isString _ _ hstr hf)
    · exact Or.inl h4

/-- C24 (amended), applied to the identity as sort and a context without season. -/
theorem C24_contextual_suggestions_witness :
    (∀ l : List Obj, (id l).Perm l) ∧
    (AISuggestions.getContextualSuggestions id (some [("timeOfDay", .string "evening")])
      []).length = 3 :=
  ⟨fun l => List.Perm.refl l,
    (C24_contextual_suggestions id (fun l => List.Perm.refl l)
      (some [("timeOfDay", .string "evening")]) []).1⟩

/-- C25, the code at the failing input: with no goal history and no
preferences (so the preferred type defaults to daily), and likewise for the
history and preferences the suggestions page builds for a user with no goals,
getHistoryBasedSuggestions returns the two daily suggestions only, not three;
the same holds for every number of completed goals as long as at most three
goals are current. The test that falls back to three items fires only below
two matches. -/
theorem C25_daily_preference_returns_two :
    (AISuggestions.getHistoryBasedSuggestions none none).map (fun s => Obj.get s "title") =
      [.string "Improve Sleep Schedule", .string "Daily Reading Habit"] ∧
    (AISuggestions.getHistoryBasedSuggestions none none).length = 2 ∧
    (∀ completed : Option (List Entry),
      (AISuggestions.getHistoryBasedSuggestions
        (some { completed := completed, current := some [] })
        (some [("preferredGoalTypes", .string "daily")])).map (fun s => Obj.get s "title") =
      [.string "Improve Sleep Schedule", .string "Daily Reading Habit"]) := by
  refine ⟨by decide, by decide, ?_⟩
  intro completed
  by_cases h : 5 < AISuggestions.countOf completed
  · have : AISuggestions.getHistoryBasedSuggestions
        (some { completed := completed, current := some [] })
        (some [("preferredGoalTypes", .string "daily")]) =
        (((AISuggestions.baseSuggestions ++ [AISuggestions.mentorSuggestion]).filter fun s =>
          (Obj.get s "goal_type").strictEq (.string "daily")).take 3) := by
      simp only [AISuggestions.getHistoryBasedSuggestions,
        AISuggestions.getFallbackHistorySuggestions, Option.bind, h, if_true]
      decide
    rw [this]
    decide
  · have : AISuggestions.getHistoryBasedSuggestions
        (some { completed := completed, current := some [] })
        (some [("preferredGoalTypes", .string "daily")]) =
        ((AISuggestions.baseSuggestions.filter fun s =>
          (Obj.get s "goal_type").strictEq (.string "daily")).take 3) := by
      simp only [AISuggestions.getHistoryBasedSuggestions,
        AISuggestions.getFallbackHistorySuggestions, Option.bind, h, if_false]
      decide
    rw [this]
    decide

/-! ## Micro-goals and the progress log queries (C26, C27, C28) -/

theorem truthy_int_of_ne (n : ℤ) (h : n ≠ 0) : (JSValue.int n).truthy = true := by
  have : (n : ℚ) ≠ 0 := by exact_mod_cast h
  simp [JSValue.int, JSValue.truthy, this]

theorem withIds_length (c : Clock) (validGoalId : JSValue) (index : ℕ) (l : List Obj) :
    (MicroGoalBreakdown.withIds c validGoalId index l).length = l.length := by
  induction l generalizing index with
  | nil => rfl
  | cons mg rest ih => simp [MicroGoalBreakdown.withIds, ih]

theorem getValidGoalId_one (P : Platform) :
    MicroGoalBreakdown.getValidGoalId P (.string "1") = .int 1 := by
  have hd : parseIntString10 "1" = .finite 1 := by
    have h1 : parseIntString10 "1" = roundToDouble ((1 : ℕ) : ℚ) := by rfl
    have h3 := roundToDouble_intCast 1 (by norm_num)
    simp only [Int.cast_one] at h3
    rw [h1, Nat.cast_one, h3]
  simp [MicroGoalBreakdown.getValidGoalId, JSValue.truthy, hd, JSValue.isNaN, JSValue.toNumber,
    JSNumber.isNaN, JSValue.int]

/-- C26, the code at the failing input: the micro-goals key is built from the
goal id alone, and the two goals that loadGoals seeds have the ids 1 and 2 for
every user. So for all users u1 and u2 (in particular with distinct ids) and
every storage: after u1 generates micro-goals for the goal the route "1"
names, loadMicroGoals for u2 on the same route returns exactly those
micro-goals (as read back from JSON), as many as were generated. -/
theorem C26_micro_goals_shared_across_users (P : Platform) (c : Clock) (r : QueryResult)
    (aiMicroGoals : List Obj) (results : ℕ → QueryResult) (u1 u2 goal1 goal2 : Obj)
    (st : Storage) :
    (∀ c' : Clock, (GoalContext.sampleGoals c').map (fun goal => Obj.get goal "id")
      = [.int 1, .int 2]) ∧
    MicroGoalBreakdown.getValidGoalId P (.string "1") = .int 1 ∧
    (MicroGoalBreakdown.loadMicroGoals P r
      { user := some u2, dbInitialized := false,
        validGoalId := MicroGoalBreakdown.getValidGoalId P (.string "1"),
        goal := some goal2, microGoals := [],
        storage := (MicroGoalBreakdown.generateAIMicroGoals P c aiMicroGoals results
          { user := some u1, dbInitialized := false,
            validGoalId := MicroGoalBreakdown.getValidGoalId P (.string "1"),
            goal := some goal1, microGoals := [], storage := st }).storage }).microGoals
      = (MicroGoalBreakdown.generateAIMicroGoals P c aiMicroGoals results
          { user := some u1, dbInitialized := false,
            validGoalId := MicroGoalBreakdown.getValidGoalId P (.string "1"),
            goal := some goal1, microGoals := [], storage := st }).microGoals.map
          (Option.map jsonRecord) ∧
    (MicroGoalBreakdown.loadMicroGoals P r
      { user := some u2, dbInitialized := false,
        validGoalId := MicroGoalBreakdown.getValidGoalId P (.string "1"),
        goal := some goal2, microGoals := [],
        storage := (MicroGoalBreakdown.generateAIMicroGoals P c aiMicroGoals results
          { user := some u1, dbInitialized := false,
            validGoalId := MicroGoalBreakdown.getValidGoalId P (.string "1"),
            goal := some goal1, microGoals := [], storage := st }).storage }).microGoals.length
      = aiMicroGoals.length := by
  have hload : (MicroGoalBreakdown.loadMicroGoals P r
      { user := some u2, dbInitialized := false,
        validGoalId := MicroGoalBreakdown.getValidGoalId P (.string "1"),
        goal := some goal2, microGoals := [],
        storage := (MicroGoalBreakdown.generateAIMicroGoals P c aiMicroGoals results
          { user := some u1, dbInitialized := false,
            validGoalId := MicroGoalBreakdown.getValidGoalId P (.string "1"),
            goal := some goal1, microGoals := [], storage := st }).storage }).microGoals
      = (MicroGoalBreakdown.generateAIMicroGoals P c aiMicroGoals results
          { user := some u1, dbInitialized := false,
            validGoalId := MicroGoalBreakdown.getValidGoalId P (.string "1"),
            goal := some goal1, microGoals := [], storage := st }).microGoals.map
          (Option.map jsonRecord) := by
    rw [getValidGoalId_one]
    simp [MicroGoalBreakdown.loadMicroGoals, MicroGoalBreakdown.generateAIMicroGoals,
      truthy_int_of_ne, Storage.setItem, stringifyArray, StoredText.truthy, StoredText.parse,
      JsonDoc.arrayOrEmpty]
  refine ⟨fun _ => rfl, getValidGoalId_one P, hload, ?_⟩
  rw [hload]
  simp [MicroGoalBreakdown.generateAIMicroGoals, withIds_length]

/-- C27 as stated is refuted: with the goal id 0 and the value 1, and with the
goal id 1 and the non-zero value NaN, logProgress sends no statement at all. -/
theorem C27_counterexample :
    (Database.logProgressCall samplePlatform sampleClock { success := true } { success := true }
      emptyStorage (.int 0) (.int 1) (.string "")).2.1 = [] ∧
    (Database.logProgressCall samplePlatform sampleClock { success := true } { success := true }
      emptyStorage (.int 1) (.number .nan) (.string "")).2.1 = [] := by
  constructor <;> simp [Database.logProgressCall, JSValue.truthy, JSValue.int]

/-- C27 (amended): logProgress resolves to success true for every goalId, value,
notes and every outcome of its queries. When goalId and value are both truthy
it sends exactly two statements, first the INSERT of the progress log with
goalId, value and notes (the empty string when notes is undefined), then the
UPDATE that adds value to total_progress of goalId. When goalId or value is
falsy (missing, null, 0, NaN, the empty string, false) it sends nothing and
leaves the storage as it is. In every case the storage it leaves is the one
the local fallback of logProgress gives for the two outcomes. -/
theorem C27_logProgress_statements (P : Platform) (c : Clock)
    (logResult updateResult : QueryResult) (st : Storage) (goalId value notes : JSValue) :
    (Database.logProgressCall P c logResult updateResult st goalId value notes).1
      = { success := true } ∧
    (goalId.truthy = true → value.truthy = true →
      (Database.logProgressCall P c logResult updateResult st goalId value notes).2.1 =
        [.insertLog goalId value (if notes = .undefined then .string "" else notes),
         .updateTotal goalId value]) ∧
    (goalId.truthy = false ∨ value.truthy = false →
      (Database.logProgressCall P c logResult updateResult st goalId value notes).2.1 = [] ∧
      (Database.logProgressCall P c logResult updateResult st goalId value notes).2.2 = st) ∧
    (Database.logProgressCall P c logResult updateResult st goalId value notes).2.2 =
      Database.logProgress P c logResult updateResult st goalId value
        (if notes = .undefined then .string "" else notes) := by
  refine ⟨?_, ?_, ?_, ?_⟩
  · unfold Database.logProgressCall
    simp only []
    split <;> rfl
  · intro hg hv
    simp [Database.logProgressCall, hg, hv]
  · intro h
    rcases h with h | h <;> simp [Database.logProgressCall, h]
  · unfold Database.logProgressCall Database.logProgress
    simp only []
    split <;> rfl

/-- C27 (amended), applied to logProgress(1, 2, "ran") with both queries failing. -/
theorem C27_logProgress_statements_witness :
    (Database.logProgressCall samplePlatform sampleClock failedQuery failedQuery emptyStorage
      (.int 1) (.int 2) (.string "ran")).2.1 =
      [.insertLog (.int 1) (.int 2) (.string "ran"), .updateTotal (.int 1) (.int 2)] :=
  (C27_logProgress_statements samplePlatform sampleClock failedQuery failedQuery emptyStorage
    (.int 1) (.int 2) (.string "ran")).2.1
    (truthy_int_of_ne 1 (by decide)) (truthy_int_of_ne 2 (by decide))

theorem Obj.set_set (o : Obj) (k : String) (v w : JSValue) :
    Obj.set (Obj.set o k v) k w = Obj.set o k w := by
  induction o with
  | nil => simp [Obj.set]
  | cons p rest ih =>
    obtain ⟨k', v'⟩ := p
    by_cases h : k' = k <;> simp [Obj.set, h, ih]

theorem Obj.set_get_eq (o : Obj) (k : String) (v : JSValue) (h : Obj.get o k = v)
    (hv : v ≠ .undefined) : Obj.set o k v = o := by
  induction o with
  | nil =>
    simp [Obj.get] at h
    exact absurd h.symm hv
  | cons p rest ih =>
    obtain ⟨k', v'⟩ := p
    rw [Obj.get_cons] at h
    by_cases hk : k' = k
    · rw [if_pos hk] at h
      simp [Obj.set, hk, h]
    · rw [if_neg hk] at h
      simp [Obj.set, hk, ih h]

theorem jsonSafe_set (o : Obj) (k : String) (v : JSValue) (ho : jsonSafe o = true)
    (hv : jsonValue v = some v) : jsonSafe (Obj.set o k v) = true := by
  induction o with
  | nil => simp [Obj.set, jsonSafe, hv]
  | cons p rest ih =>
    obtain ⟨k', v'⟩ := p
    simp only [jsonSafe, List.all_cons, Bool.and_eq_true, decide_eq_true_eq] at ho
    by_cases h : k' = k
    · simp only [Obj.set, h, if_true, jsonSafe, List.all_cons, Bool.and_eq_true,
        decide_eq_true_eq]
      exact ⟨hv, ho.2⟩
    · simp only [Obj.set, h, if_false, jsonSafe, List.all_cons, Bool.and_eq_true,
        decide_eq_true_eq]
      exact ⟨ho.1, by simpa [jsonSafe] using ih (by simpa [jsonSafe] using ho.2)⟩

theorem mapGoals_of_mem_none (callback : Obj → Entry) (l : List Entry) (h : none ∈ l) :
    mapGoals callback l = none := by
  induction l with
  | nil => cases h
  | cons e rest ih =>
    cases e with
    | none => rfl
    | some g =>
      have : none ∈ rest := by simpa using h
      simp [mapGoals, ih this]

theorem toggle_local (P : Platform) (c : Clock) (result : QueryResult) (s : MicroGoalStore)
    (gs : List Obj) (microGoalId completed : JSValue) (hdb : s.dbInitialized = false)
    (hgs : s.microGoals = gs.map some) :
    MicroGoalBreakdown.toggleMicroGoalComplete P c result s microGoalId completed =
      { s with
        microGoals := gs.map fun mg =>
          if (Obj.get mg "id").strictEq microGoalId then
            some (Obj.set mg "completed" (.bool (!completed.truthy)))
          else some mg
        storage := s.storage.setItem (MicroGoalBreakdown.microGoalsKey P s.validGoalId)
          (stringifyArray (gs.map fun mg =>
            if (Obj.get mg "id").strictEq microGoalId then
              some (Obj.set mg "completed" (.bool (!completed.truthy)))
            else some mg)) } := by
  simp [MicroGoalBreakdown.toggleMicroGoalComplete, hdb, hgs, mapGoals_map_some]

/-- C28 as stated is refuted: two micro-goals share the id 7, the first not
completed, the second completed. Toggling the first with its flag false and
then again with its new flag true leaves both not completed, which is not the
original list. -/
theorem C28_counterexample :
    (MicroGoalBreakdown.toggleMicroGoalComplete samplePlatform sampleClock failedQuery
      (MicroGoalBreakdown.toggleMicroGoalComplete samplePlatform sampleClock failedQuery
        { user := some sampleUser, dbInitialized := false, validGoalId := .int 1,
          goal := none,
          microGoals := [some [("id", .int 7), ("title", .string "a"), ("completed", .bool false)],
            some [("id", .int 7), ("title", .string "b"), ("completed", .bool true)]],
          storage := emptyStorage }
        (.int 7) (.bool false))
      (.int 7) (.bool true)).microGoals =
      [some [("id", .int 7), ("title", .string "a"), ("completed", .bool false)],
       some [("id", .int 7), ("title", .string "b"), ("completed", .bool false)]] ∧
    [some [("id", JSValue.int 7), ("title", .string "a"), ("completed", .bool false)],
       some [("id", .int 7), ("title", .string "b"), ("completed", .bool false)]] ≠
      [some [("id", .int 7), ("title", .string "a"), ("completed", .bool false)],
       some [("id", .int 7), ("title", .string "b"), ("completed", .bool true)]] := by
  constructor
  · rw [toggle_local samplePlatform sampleClock failedQuery
      { user := some sampleUser, dbInitialized := false, validGoalId := .int 1, goal := none,
        microGoals := [some [("id", .int 7), ("title", .string "a"), ("completed", .bool false)],
          some [("id", .int 7), ("title", .string "b"), ("completed", .bool true)]],
        storage := emptyStorage }
      [[("id", .int 7), ("title", .string "a"), ("completed", .bool false)],
       [("id", .int 7), ("title", .string "b"), ("completed", .bool true)]]
      (.int 7) (.bool false) rfl rfl]
    rw [toggle_local samplePlatform sampleClock failedQuery _
      [[("id", .int 7), ("title", .string "a"), ("completed", .bool true)],
       [("id", .int 7), ("title", .string "b"), ("completed", .bool true)]] _ _ rfl (by
        simp [Obj.get_cons, Obj.set, JSValue.truthy, JSValue.strictEq, JSNumber.strictEq,
          JSValue.int])]
    simp [Obj.get_cons, Obj.set, JSValue.truthy, JSValue.strictEq, JSNumber.strictEq,
      JSValue.int]
  · simp

theorem toggle_local_microGoals (P : Platform) (c : Clock) (result : QueryResult)
    (s : MicroGoalStore) (gs : List Obj) (microGoalId completed : JSValue)
    (hdb : s.dbInitialized = false) (hgs : s.microGoals = gs.map some) :
    (MicroGoalBreakdown.toggleMicroGoalComplete P c result s microGoalId completed).microGoals =
      (gs.map fun mg =>
        if (Obj.get mg "id").strictEq microGoalId then
          Obj.set mg "completed" (.bool (!completed.truthy))
        else mg).map some := by
  rw [toggle_local P c result s gs microGoalId completed hdb hgs, List.map_map]
  apply List.map_congr_left
  intro mg _
  simp only [Function.comp]
  split <;> rfl

theorem toggle_twice (P : Platform) (c : Clock) (result : QueryResult) (s : MicroGoalStore)
    (gs : List Obj) (microGoalId : JSValue) (b : Bool) (hdb : s.dbInitialized = false)
    (hgs : s.microGoals = gs.map some)
    (hflag : ∀ mg ∈ gs, (Obj.get mg "id").strictEq microGoalId = true →
      Obj.get mg "completed" = .bool b) :
    (MicroGoalBreakdown.toggleMicroGoalComplete P c result
      (MicroGoalBreakdown.toggleMicroGoalComplete P c result s microGoalId (.bool b))
      microGoalId (.bool (!b))).microGoals = s.microGoals := by
  have h1 := toggle_local_microGoals P c result s gs microGoalId (.bool b) hdb hgs
  have hdb1 : (MicroGoalBreakdown.toggleMicroGoalComplete P c result s microGoalId
      (.bool b)).dbInitialized = false := by
    rw [toggle_local P c result s gs microGoalId (.bool b) hdb hgs]
    exact hdb
  rw [toggle_local_microGoals P c result _ _ microGoalId (.bool (!b)) hdb1 h1, hgs]
  congr 1
  rw [List.map_map]
  have : ∀ mg ∈ gs,
      ((fun mg : Obj =>
        if (Obj.get mg "id").strictEq microGoalId then
          Obj.set mg "completed" (.bool (!(JSValue.bool (!b)).truthy))
        else mg) ∘ fun mg : Obj =>
        if (Obj.get mg "id").strictEq microGoalId then
          Obj.set mg "completed" (.bool (!(JSValue.bool b).truthy))
        else mg) mg = id mg := by
    intro mg hmg
    simp only [Function.comp, id, JSValue.truthy, Bool.not_not]
    by_cases hid : (Obj.get mg "id").strictEq microGoalId = true
    · have hid' : (Obj.get (Obj.set mg "completed" (.bool (!b))) "id").strictEq microGoalId
          = true := by
        rw [Obj.get_set_of_ne _ _ _ _ (by decide)]
        exact hid
      rw [if_pos hid, if_pos hid', Obj.set_set]
      exact Obj.set_get_eq mg "completed" (.bool b) (hflag mg hmg hid) (by simp)
    · rw [if_neg hid, if_neg hid]
  rw [List.map_congr_left this, List.map_id]

/-- C28 (amended): in local-fallback mode, when every element of the micro-goal
list is a record, toggleMicroGoalComplete(id, completed) replaces each
micro-goal whose id is strictly equal to id by a copy whose completed property
is the boolean negation of the passed flag, and keeps every other micro-goal
as it is, so order and length are unchanged; in a replaced record every
property other than completed reads as before; the new list is written under
goalTracker_microGoals_<validGoalId> and no other key changes; the written
text reads back as the in-memory list when every property of every record is
JSON-representable; and a second toggle with the negated flag restores the
original list provided every micro-goal with that id carried the boolean flag
passed the first time. When an element of the list is null or undefined the
call changes nothing. -/
theorem C28_toggle_local (P : Platform) (c : Clock) (result : QueryResult)
    (s : MicroGoalStore) (microGoalId completed : JSValue) (hdb : s.dbInitialized = false) :
    (∀ gs : List Obj, s.microGoals = gs.map some →
      (MicroGoalBreakdown.toggleMicroGoalComplete P c result s microGoalId completed).microGoals =
        (gs.map fun mg =>
          if (Obj.get mg "id").strictEq microGoalId then
            Obj.set mg "completed" (.bool (!completed.truthy))
          else mg).map some ∧
      (MicroGoalBreakdown.toggleMicroGoalComplete P c result s microGoalId
        completed).microGoals.length = s.microGoals.length ∧
      (∀ (mg : Obj) (k : String), k ≠ "completed" →
        Obj.get (Obj.set mg "completed" (.bool (!completed.truthy))) k = Obj.get mg k) ∧
      (∀ mg : Obj, Obj.get (Obj.set mg "completed" (.bool (!completed.truthy))) "completed"
        = .bool (!completed.truthy)) ∧
      (MicroGoalBreakdown.toggleMicroGoalComplete P c result s microGoalId completed).storage
          (MicroGoalBreakdown.microGoalsKey P s.validGoalId) =
        some (stringifyArray (MicroGoalBreakdown.toggleMicroGoalComplete P c result s
          microGoalId completed).microGoals) ∧
      (∀ k : String, k ≠ MicroGoalBreakdown.microGoalsKey P s.validGoalId →
        (MicroGoalBreakdown.toggleMicroGoalComplete P c result s microGoalId completed).storage k
          = s.storage k) ∧
      ((∀ mg ∈ gs, jsonSafe mg = true) →
        stringifyArray (MicroGoalBreakdown.toggleMicroGoalComplete P c result s microGoalId
          completed).microGoals =
        .json (.array (MicroGoalBreakdown.toggleMicroGoalComplete P c result s microGoalId
          completed).microGoals)) ∧
      (∀ b : Bool, completed = .bool b →
        (∀ mg ∈ gs, (Obj.get mg "id").strictEq microGoalId = true →
          Obj.get mg "completed" = .bool b) →
        (MicroGoalBreakdown.toggleMicroGoalComplete P c result
          (MicroGoalBreakdown.toggleMicroGoalComplete P c result s microGoalId completed)
          microGoalId (.bool (!b))).microGoals = s.microGoals)) ∧
    (none ∈ s.microGoals →
      MicroGoalBreakdown.toggleMicroGoalComplete P c result s microGoalId completed = s) := by
  refine ⟨?_, ?_⟩
  · intro gs hgs
    have hm := toggle_local_microGoals P c result s gs microGoalId completed hdb hgs
    have ht := toggle_local P c result s gs microGoalId completed hdb hgs
    refine ⟨hm, ?_, ?_, ?_, ?_, ?_, ?_, ?_⟩
    · rw [hm, hgs]
      simp
    · intro mg k hk
      exact Obj.get_set_of_ne _ _ _ _ hk
    · intro mg
      exact Obj.get_set_self _ _ _
    · rw [ht]
      simp [Storage.setItem]
    · intro k hk
      rw [ht]
      simp [Storage.setItem, hk]
    · intro hsafe
      rw [hm]
      unfold stringifyArray
      congr 2
      rw [List.map_map]
      apply List.map_congr_left
      intro mg hmg
      simp only [Function.comp, Option.map]
      congr 1
      apply jsonRecord_of_jsonSafe
      obtain ⟨mg0, hmg0, rfl⟩ := List.mem_map.mp hmg
      split
      · exact jsonSafe_set _ _ _ (hsafe mg0 hmg0) rfl
      · exact hsafe mg0 hmg0
    · intro b hb hflag
      subst hb
      exact toggle_twice P c result s gs microGoalId b hdb hgs hflag
  · intro hnone
    simp [MicroGoalBreakdown.toggleMicroGoalComplete, hdb, mapGoals_of_mem_none _ _ hnone]

/-- C28 (amended), applied: one micro-goal of two is toggled to completed and
back. -/
theorem C28_toggle_local_witness :
    (MicroGoalBreakdown.toggleMicroGoalComplete samplePlatform sampleClock failedQuery
      (MicroGoalBreakdown.toggleMicroGoalComplete samplePlatform sampleClock failedQuery
        { user := some sampleUser, dbInitialized := false, validGoalId := .int 1,
          goal := none,
          microGoals := [some [("id", .int 7), ("title", .string "a"), ("completed", .bool false)],
            some [("id", .int 8), ("title", .string "b"), ("completed", .bool true)]],
          storage := emptyStorage }
        (.int 7) (.bool false))
      (.int 7) (.bool (!false))).microGoals =
      [some [("id", .int 7), ("title", .string "a"), ("completed", .bool false)],
       some [("id", .int 8), ("title", .string "b"), ("completed", .bool true)]] :=
  ((C28_toggle_local samplePlatform sampleClock failedQuery
      { user := some sampleUser, dbInitialized := false, validGoalId := .int 1,
        goal := none,
        microGoals := [some [("id", .int 7), ("title", .string "a"), ("completed", .bool false)],
          some [("id", .int 8), ("title", .string "b"), ("completed", .bool true)]],
        storage := emptyStorage }
      (.int 7) (.bool false) rfl).1
    [[("id", .int 7), ("title", .string "a"), ("completed", .bool false)],
     [("id", .int 8), ("title", .string "b"), ("completed", .bool true)]] rfl).2.2.2.2.2.2.2
    false rfl (by
      intro mg hmg hid
      simp only [List.mem_cons, List.mem_singleton, List.not_mem_nil, or_false] at hmg
      rcases hmg with rfl | rfl
      · rfl
      · simp [Obj.get_cons, JSValue.strictEq, JSNumber.strictEq, JSValue.int] at hid)

/-! ## The streak (C30) -/

theorem streakLoop_from (P : Platform) (progressByDate : List Entry) (dateString : ℕ → String)
    (hfind : ∀ j : ℕ, StreakTracker.findDay (dateString j) progressByDate ≠ .threw)
    (remaining i streak : ℕ) (hi : i ≠ 0) :
    StreakTracker.streakLoop P progressByDate dateString remaining i streak =
      .returned (streak +
        StreakTracker.runLength (StreakTracker.dayHasProgress P progressByDate dateString)
          remaining i) := by
  induction remaining generalizing i streak with
  | zero => rfl
  | succ n ih =>
    cases hf : StreakTracker.findDay (dateString i) progressByDate with
    | threw => exact absurd hf (hfind i)
    | returned dayProgress =>
      have hd : StreakTracker.dayHasProgress P progressByDate dateString i
          = StreakTracker.hasProgress P dayProgress := by
        simp [StreakTracker.dayHasProgress, hf]
      have hrun : StreakTracker.runLength
          (StreakTracker.dayHasProgress P progressByDate dateString) (n + 1) i =
          if StreakTracker.dayHasProgress P progressByDate dateString i then
            StreakTracker.runLength (StreakTracker.dayHasProgress P progressByDate dateString)
              n (i + 1) + 1
          else 0 := rfl
      rw [StreakTracker.streakLoop, hf, hrun, hd]
      simp only []
      by_cases hp : StreakTracker.hasProgress P dayProgress = true
      · rw [if_pos hp, if_pos hp, ih (i + 1) (streak + 1) (Nat.succ_ne_zero i)]
        congr 1
        omega
      · rw [if_neg hp, if_neg hp, if_neg hi]
        rfl

/-- The loop of `calculateStreak`, when the call of `callDatabase` resolves with
rows on which the search never throws: the streak is the run of counting days
from today, or from yesterday when today does not count. -/
theorem calculateStreak_of_data (P : Platform) (user : Obj) (progressByDate : List Entry)
    (dateString : ℕ → String) (s : StreakState)
    (hfind : ∀ j : ℕ, StreakTracker.findDay (dateString j) progressByDate ≠ .threw) :
    (StreakTracker.calculateStreak P (some user) (some progressByDate) dateString
      s).currentStreak =
      if StreakTracker.dayHasProgress P progressByDate dateString 0 then
        StreakTracker.runLength (StreakTracker.dayHasProgress P progressByDate dateString) 30 0
      else
        StreakTracker.runLength (StreakTracker.dayHasProgress P progressByDate dateString) 29 1 := by
  have hloop : StreakTracker.streakLoop P progressByDate dateString 30 0 0 =
      .returned (if StreakTracker.dayHasProgress P progressByDate dateString 0 then
        StreakTracker.runLength (StreakTracker.dayHasProgress P progressByDate dateString) 30 0
      else
        StreakTracker.runLength (StreakTracker.dayHasProgress P progressByDate dateString)
          29 1) := by
    cases hf : StreakTracker.findDay (dateString 0) progressByDate with
    | threw => exact absurd hf (hfind 0)
    | returned dayProgress =>
      have hd : StreakTracker.dayHasProgress P progressByDate dateString 0
          = StreakTracker.hasProgress P dayProgress := by
        simp [StreakTracker.dayHasProgress, hf]
      have hrun : StreakTracker.runLength
          (StreakTracker.dayHasProgress P progressByDate dateString) 30 0 =
          if StreakTracker.dayHasProgress P progressByDate dateString 0 then
            StreakTracker.runLength (StreakTracker.dayHasProgress P progressByDate dateString)
              29 1 + 1
          else 0 := rfl
      rw [StreakTracker.streakLoop, hf]
      simp only []
      by_cases hp : StreakTracker.hasProgress P dayProgress = true
      · have hd1 := hd.trans hp
        simp only [hp, hd1, hrun, if_true]
        rw [streakLoop_from P progressByDate dateString hfind 29 (0 + 1) (0 + 1) (by decide)]
        congr 1
        simp only [Nat.zero_add]
        omega
      · have hp0 : StreakTracker.hasProgress P dayProgress = false := by simpa using hp
        have hd0 := hd.trans hp0
        simp only [hp0, hd0, Bool.false_eq_true, if_false, if_true]
        rw [streakLoop_from P progressByDate dateString hfind 29 (0 + 1) 0 (by decide)]
        congr 1
        simp only [Nat.zero_add]
  simp only [StreakTracker.calculateStreak, hloop]

/-- C30, the code at the failing input: `callDatabase` is not among the names
`src/utils/database.js` exports, so the call in calculateStreak throws for
every content of the database; the error is caught and setCurrentStreak is
never reached. For every user, every set of rows and every calendar the streak
stays at its initial value 0, also when today and the days before all have
progress entries. -/
theorem C30_calculateStreak_never_sets_streak (P : Platform) (user : Option Obj)
    (rows : List Entry) (dateString : ℕ → String) :
    StreakTracker.callDatabase rows = none ∧
    (StreakTracker.calculateStreak P user (StreakTracker.callDatabase rows) dateString
      { currentStreak := 0, loading := true }).currentStreak = 0 := by
  have h : StreakTracker.callDatabase rows = none := by
    unfold StreakTracker.callDatabase
    rw [if_neg (by decide)]
  refine ⟨h, ?_⟩
  rw [h]
  cases user <;> rfl
